import Mathlib

/-!
Image-format bit packing of the VPI headers.

A shallow embedding of the format encoding of
`include/vpi/detail/FormatUtils.h`, `include/vpi/DataLayout.h`,
`include/vpi/ColorSpec.h` and `include/vpi/ImageFormat.h`, of the pixel types of
`include/vpi/PixelType.h`, of the integer versions of `include/vpi/Version.h` and of
the format inference of `include/vpi/detail/OpenCVUtils.hpp`.

Conventions.

* An argument of a C preprocessor definition is a C integer expression; it is
  embedded as an `Int` holding its mathematical value.
* `uint64_t` values are embedded as `Nat` below `2 ^ 64`; the conversion
  `(uint64_t)(value)` is `toU64`, reduction modulo `2 ^ 64`.
* `int64_t` values are embedded as `Int`; the conversion `(int64_t)(value)` of
  a 64-bit pattern is `toI64` (two's complement), and `int64_t` arithmetic is
  taken modulo `2 ^ 64` through `wrapI64`.
-/

namespace VPI

/-! ## Machine integers -/

/-- The conversion `(uint64_t)(value)`: the 64-bit pattern of a C integer. -/
def toU64 (value : Int) : Nat := (value % 2 ^ 64).toNat

/-- The conversion `(int64_t)(value)` of a 64-bit pattern, two's complement. -/
def toI64 (value : Nat) : Int :=
  if value % 2 ^ 64 < 2 ^ 63 then ((value % 2 ^ 64 : Nat) : Int)
  else ((value % 2 ^ 64 : Nat) : Int) - 2 ^ 64

/-- Reduction of a mathematical integer to the `int64_t` range. -/
def wrapI64 (value : Int) : Int := toI64 (toU64 value)

/-- The complement `~x` of a `uint64_t`. -/
def not64 (x : Nat) : Nat := 2 ^ 64 - 1 - x % 2 ^ 64

/-- The C operator `a & b` on two's-complement integers whose result is
non-negative (one operand is a non-negative mask). -/
def andInt (a b : Int) : Int := ((toU64 a &&& toU64 b : Nat) : Int)

/-! ## `detail/FormatUtils.h` -/

/-- Embeds `VPI_DETAIL_SET_BITFIELD(value, offset, size)`:
`(((uint64_t)(value) & ((1ULL << (size)) - 1)) << (offset))`. -/
def VPI_DETAIL_SET_BITFIELD (value : Int) (offset size : Nat) : Nat :=
  ((toU64 value &&& ((1 <<< size) - 1)) <<< offset) % 2 ^ 64

/-- Embeds `VPI_DETAIL_GET_BITFIELD(value, offset, size)`:
`(((uint64_t)(value) >> (offset)) & ((1ULL << (size)) - 1))`. -/
def VPI_DETAIL_GET_BITFIELD (value : Int) (offset size : Nat) : Nat :=
  (toU64 value >>> offset) &&& ((1 <<< size) - 1)

/-- Embeds `VPI_DETAIL_ENCODE_BPP(bpp)`. Every division has a positive dividend, so
C's truncating division and `Int` division agree. -/
def VPI_DETAIL_ENCODE_BPP (bpp : Int) : Int :=
  if bpp ≤ 8 then 0
  else if bpp ≤ 32 then bpp / 8 - 1
  else if bpp ≤ 64 then bpp / 16 + 1
  else if bpp ≤ 128 then bpp / 32 + 3
  else bpp / 64 + 5

/-- Embeds `VPI_DETAIL_BPP_NCH(bpp, chcount)`. -/
def VPI_DETAIL_BPP_NCH (bpp chcount : Int) : Nat :=
  VPI_DETAIL_SET_BITFIELD (VPI_DETAIL_ENCODE_BPP bpp) 6 4 |||
    VPI_DETAIL_SET_BITFIELD (chcount - 1) 4 2 |||
    VPI_DETAIL_SET_BITFIELD
      (if bpp ≤ 2 then bpp else if bpp = 4 then 3 else if bpp = 8 then 4 else 0) 0 4

/-- Embeds `VPI_DETAIL_MAKE_SWIZZLE(x, y, z, w)`. -/
def VPI_DETAIL_MAKE_SWIZZLE (x y z w : Int) : Nat :=
  VPI_DETAIL_SET_BITFIELD x 0 3 ||| VPI_DETAIL_SET_BITFIELD y 3 3 |||
    VPI_DETAIL_SET_BITFIELD z 6 3 ||| VPI_DETAIL_SET_BITFIELD w 9 3

/-- Embeds `VPI_DETAIL_ADJUST_BPP_ENCODING(PACK, BPP, PACKLEN)`:
`((PACKLEN) == 0 && (BPP) == 0 && (PACK) == 4 ? (uint64_t)-1 : (BPP))`. -/
def VPI_DETAIL_ADJUST_BPP_ENCODING (PACK BPP PACKLEN : Nat) : Nat :=
  if PACKLEN = 0 ∧ BPP = 0 ∧ PACK = 4 then toU64 (-1) else BPP

/-- Embeds `VPI_DETAIL_ENCODE_PACKING(P, CHLEN, PACKLEN, BPPLEN)`. -/
def VPI_DETAIL_ENCODE_PACKING (P : Int) (CHLEN PACKLEN BPPLEN : Nat) : Nat :=
  VPI_DETAIL_SET_BITFIELD
      (VPI_DETAIL_ADJUST_BPP_ENCODING (VPI_DETAIL_GET_BITFIELD P 0 4)
        (VPI_DETAIL_GET_BITFIELD P 6 4) PACKLEN)
      (PACKLEN + CHLEN) BPPLEN |||
    VPI_DETAIL_SET_BITFIELD (VPI_DETAIL_GET_BITFIELD P 4 2) PACKLEN CHLEN |||
    VPI_DETAIL_SET_BITFIELD (VPI_DETAIL_GET_BITFIELD P 0 4) 0 PACKLEN

/-- The exact value of the inner sum `1 + (int64_t)((~(uint64_t)(rest)) & ~(1ULL << 63))`
of `VPI_DETAIL_HANDLE_DATATYPE_SIGNEDNESS`, before any reduction to 64 bits. -/
def signednessSum (rest : Nat) : Int :=
  1 + toI64 (not64 rest &&& not64 (1 <<< 63))

/-- Embeds `VPI_DETAIL_HANDLE_DATATYPE_SIGNEDNESS(DataType, rest)`:
`(GET_BITFIELD(DataType, 2, 1) ? -(1 + (int64_t)((~(uint64_t)(rest)) & ~(1ULL << 63)))
 : (int64_t)(rest))`. The `int64_t` sum and negation are reduced modulo `2 ^ 64`. -/
def VPI_DETAIL_HANDLE_DATATYPE_SIGNEDNESS (DataType : Int) (rest : Nat) : Int :=
  if VPI_DETAIL_GET_BITFIELD DataType 2 1 ≠ 0 then wrapI64 (-(wrapI64 (signednessSum rest)))
  else toI64 rest

/-- Embeds `VPI_COLOR_MODEL_UNDEFINED` of `ColorSpec.h`. -/
def VPI_COLOR_MODEL_UNDEFINED : Int := 0
/-- Embeds `VPI_COLOR_MODEL_YCbCr`. -/
def VPI_COLOR_MODEL_YCbCr : Int := 1
/-- Embeds `VPI_COLOR_MODEL_RGB`. -/
def VPI_COLOR_MODEL_RGB : Int := 2
/-- Embeds `VPI_COLOR_MODEL_RAW = 2 + 7`. -/
def VPI_COLOR_MODEL_RAW : Int := 2 + 7
/-- Embeds `VPI_COLOR_MODEL_XYZ`, the enumerator after `VPI_COLOR_MODEL_RAW`. -/
def VPI_COLOR_MODEL_XYZ : Int := VPI_COLOR_MODEL_RAW + 1

/-- The colour-model branch of `VPI_DETAIL_MAKE_FMT_HELPER` (source lines 96 to 113):
the bits 16..34 of the pattern. -/
def colorModelBits (ColorModel ColorSpecOrRawPattern Subsampling : Int) : Nat :=
  if ColorModel = VPI_COLOR_MODEL_YCbCr then
    VPI_DETAIL_SET_BITFIELD ColorSpecOrRawPattern 20 15 |||
      VPI_DETAIL_SET_BITFIELD Subsampling 17 3
  else if ColorModel = VPI_COLOR_MODEL_UNDEFINED then
    VPI_DETAIL_SET_BITFIELD ((1 <<< 19 : Nat) - 1 : Nat) 16 19
  else
    VPI_DETAIL_SET_BITFIELD 1 16 1 |||
      (if ColorModel - 2 < 0x7 then
        VPI_DETAIL_SET_BITFIELD ColorSpecOrRawPattern 20 15 |||
          VPI_DETAIL_SET_BITFIELD (ColorModel - 2) 17 3
      else
        VPI_DETAIL_SET_BITFIELD 0x7 17 3 |||
          (if ColorModel = VPI_COLOR_MODEL_RAW then
            VPI_DETAIL_SET_BITFIELD ColorSpecOrRawPattern 21 6
          else
            VPI_DETAIL_SET_BITFIELD 1 20 1 |||
              VPI_DETAIL_SET_BITFIELD (ColorModel - (7 + 2 + 1)) 21 6))

/-- The second argument that `VPI_DETAIL_MAKE_FMT_HELPER` hands to
`VPI_DETAIL_HANDLE_DATATYPE_SIGNEDNESS`: the unsigned 64-bit pattern of the format. -/
def fmtPattern (ColorModel ColorSpecOrRawPattern Subsampling MemLayout DataType Swizzle
    Packing0 Packing1 Packing2 Packing3 : Int) : Nat :=
  VPI_DETAIL_SET_BITFIELD (andInt DataType 0x3) 61 2 |||
    VPI_DETAIL_SET_BITFIELD Swizzle 0 (4 * 3) |||
    VPI_DETAIL_SET_BITFIELD MemLayout 12 3 |||
    colorModelBits ColorModel ColorSpecOrRawPattern Subsampling |||
    VPI_DETAIL_SET_BITFIELD (VPI_DETAIL_ENCODE_PACKING Packing0 2 3 4) 35 9 |||
    VPI_DETAIL_SET_BITFIELD (VPI_DETAIL_ENCODE_PACKING Packing1 1 3 3) 44 7 |||
    VPI_DETAIL_SET_BITFIELD (VPI_DETAIL_ENCODE_PACKING Packing2 1 3 3) 51 7 |||
    VPI_DETAIL_SET_BITFIELD (VPI_DETAIL_ENCODE_PACKING Packing3 0 0 3) 58 3

/-- Embeds `VPI_DETAIL_MAKE_FMT_HELPER(ColorModel, ColorSpecOrRawPattern, Subsampling, MemLayout,
DataType, Swizzle, Packing0, Packing1, Packing2, Packing3)`. -/
def VPI_DETAIL_MAKE_FMT_HELPER (ColorModel ColorSpecOrRawPattern Subsampling MemLayout
    DataType Swizzle Packing0 Packing1 Packing2 Packing3 : Int) : Int :=
  VPI_DETAIL_HANDLE_DATATYPE_SIGNEDNESS DataType
    (fmtPattern ColorModel ColorSpecOrRawPattern Subsampling MemLayout DataType Swizzle
      Packing0 Packing1 Packing2 Packing3)

/-- Embeds `VPI_DETAIL_EXTRACT_PACKING_CHANNELS(Packing)`. -/
def VPI_DETAIL_EXTRACT_PACKING_CHANNELS (Packing : Int) : Nat :=
  VPI_DETAIL_GET_BITFIELD Packing 4 2 + 1

/-- Embeds `VPI_DETAIL_MAKE_COLOR_FMT_HELPER_4(TYPE, ...)`: the four-plane helper, which is
`VPI_DETAIL_MAKE_FMT_HELPER` itself (the `_ABBREV` variant only completes the
enumerator names of its arguments). -/
def VPI_DETAIL_MAKE_COLOR_FMT_HELPER_4 (ColorModel ColorSpec Subsampling MemLayout DataType
    Swizzle Packing0 Packing1 Packing2 Packing3 : Int) : Int :=
  VPI_DETAIL_MAKE_FMT_HELPER ColorModel ColorSpec Subsampling MemLayout DataType Swizzle
    Packing0 Packing1 Packing2 Packing3

/-- Embeds `VPI_DETAIL_MAKE_COLOR_FMT_HELPER_3`: appends `0` as the fourth packing. -/
def VPI_DETAIL_MAKE_COLOR_FMT_HELPER_3 (ColorModel ColorSpec Subsampling MemLayout DataType
    Swizzle Packing0 Packing1 Packing2 : Int) : Int :=
  VPI_DETAIL_MAKE_COLOR_FMT_HELPER_4 ColorModel ColorSpec Subsampling MemLayout DataType
    Swizzle Packing0 Packing1 Packing2 0

/-- Embeds `VPI_DETAIL_MAKE_COLOR_FMT_HELPER_2`: appends `0` as the third packing. -/
def VPI_DETAIL_MAKE_COLOR_FMT_HELPER_2 (ColorModel ColorSpec Subsampling MemLayout DataType
    Swizzle Packing0 Packing1 : Int) : Int :=
  VPI_DETAIL_MAKE_COLOR_FMT_HELPER_3 ColorModel ColorSpec Subsampling MemLayout DataType
    Swizzle Packing0 Packing1 0

/-- Embeds `VPI_DETAIL_MAKE_COLOR_FMT_HELPER_1`: appends `0` as the second packing. -/
def VPI_DETAIL_MAKE_COLOR_FMT_HELPER_1 (ColorModel ColorSpec Subsampling MemLayout DataType
    Swizzle Packing0 : Int) : Int :=
  VPI_DETAIL_MAKE_COLOR_FMT_HELPER_2 ColorModel ColorSpec Subsampling MemLayout DataType
    Swizzle Packing0 0

/-- Embeds `VPI_DETAIL_MAKE_COLOR_SPEC(CSpace, Encoding, XferFunc, Range, LocHoriz, LocVert)`. -/
def VPI_DETAIL_MAKE_COLOR_SPEC (CSpace Encoding XferFunc Range LocHoriz LocVert : Int) : Nat :=
  VPI_DETAIL_SET_BITFIELD CSpace 0 3 ||| VPI_DETAIL_SET_BITFIELD XferFunc 3 4 |||
    VPI_DETAIL_SET_BITFIELD Encoding 7 3 ||| VPI_DETAIL_SET_BITFIELD LocHoriz 10 2 |||
    VPI_DETAIL_SET_BITFIELD LocVert 12 2 ||| VPI_DETAIL_SET_BITFIELD Range 14 1

/-! ## `DataLayout.h` -/

/-- Embeds `INT32_MAX`. -/
def INT32_MAX : Int := 2147483647

/-- Embeds `INT64_MAX`. -/
def INT64_MAX : Int := 9223372036854775807


/-- Embeds `VPI_PACKING_0 = 0`: no channels. -/
def VPI_PACKING_0 : Int := 0

/-- Embeds `VPI_PACKING_X1 = VPI_DETAIL_BPP_NCH(1, 1)`. -/
def VPI_PACKING_X1 : Int := VPI_DETAIL_BPP_NCH 1 1

/-- Embeds `VPI_PACKING_X2 = VPI_DETAIL_BPP_NCH(2, 1)`. -/
def VPI_PACKING_X2 : Int := VPI_DETAIL_BPP_NCH 2 1

/-- Embeds `VPI_PACKING_X4 = VPI_DETAIL_BPP_NCH(4, 1)`. -/
def VPI_PACKING_X4 : Int := VPI_DETAIL_BPP_NCH 4 1

/-- Embeds `VPI_PACKING_X8 = VPI_DETAIL_BPP_NCH(8, 1)`. -/
def VPI_PACKING_X8 : Int := VPI_DETAIL_BPP_NCH 8 1

/-- Embeds `VPI_PACKING_X4Y4 = VPI_DETAIL_BPP_NCH(8, 2)`. -/
def VPI_PACKING_X4Y4 : Int := VPI_DETAIL_BPP_NCH 8 2

/-- Embeds `VPI_PACKING_X3Y3Z2 = VPI_DETAIL_BPP_NCH(8, 3)`. -/
def VPI_PACKING_X3Y3Z2 : Int := VPI_DETAIL_BPP_NCH 8 3

/-- Embeds `VPI_PACKING_X16 = VPI_DETAIL_BPP_NCH(16, 1)`. -/
def VPI_PACKING_X16 : Int := VPI_DETAIL_BPP_NCH 16 1

/-- Embeds `VPI_PACKING_b6X10`, the enumerator after `VPI_PACKING_X16`. -/
def VPI_PACKING_b6X10 : Int := VPI_PACKING_X16 + 1

/-- Embeds `VPI_PACKING_X10b6`, the enumerator after `VPI_PACKING_b6X10`. -/
def VPI_PACKING_X10b6 : Int := VPI_PACKING_b6X10 + 1

/-- Embeds `VPI_PACKING_b4X12`, the enumerator after `VPI_PACKING_X10b6`. -/
def VPI_PACKING_b4X12 : Int := VPI_PACKING_X10b6 + 1

/-- Embeds `VPI_PACKING_X12b4`, the enumerator after `VPI_PACKING_b4X12`. -/
def VPI_PACKING_X12b4 : Int := VPI_PACKING_b4X12 + 1

/-- Embeds `VPI_PACKING_b2X14`, the enumerator after `VPI_PACKING_X12b4`. -/
def VPI_PACKING_b2X14 : Int := VPI_PACKING_X12b4 + 1

/-- Embeds `VPI_PACKING_X8_Y8 = VPI_DETAIL_BPP_NCH(16, 2)`. -/
def VPI_PACKING_X8_Y8 : Int := VPI_DETAIL_BPP_NCH 16 2

/-- Embeds `VPI_PACKING_X5Y5Z6 = VPI_DETAIL_BPP_NCH(16, 3)`. -/
def VPI_PACKING_X5Y5Z6 : Int := VPI_DETAIL_BPP_NCH 16 3

/-- Embeds `VPI_PACKING_X5Y6Z5`, the enumerator after `VPI_PACKING_X5Y5Z6`. -/
def VPI_PACKING_X5Y6Z5 : Int := VPI_PACKING_X5Y5Z6 + 1

/-- Embeds `VPI_PACKING_X6Y5Z5`, the enumerator after `VPI_PACKING_X5Y6Z5`. -/
def VPI_PACKING_X6Y5Z5 : Int := VPI_PACKING_X5Y6Z5 + 1

/-- Embeds `VPI_PACKING_b4X4Y4Z4`, the enumerator after `VPI_PACKING_X6Y5Z5`. -/
def VPI_PACKING_b4X4Y4Z4 : Int := VPI_PACKING_X6Y5Z5 + 1

/-- Embeds `VPI_PACKING_b1X5Y5Z5`, the enumerator after `VPI_PACKING_b4X4Y4Z4`. -/
def VPI_PACKING_b1X5Y5Z5 : Int := VPI_PACKING_b4X4Y4Z4 + 1

/-- Embeds `VPI_PACKING_X5Y5b1Z5`, the enumerator after `VPI_PACKING_b1X5Y5Z5`. -/
def VPI_PACKING_X5Y5b1Z5 : Int := VPI_PACKING_b1X5Y5Z5 + 1

/-- Embeds `VPI_PACKING_X1Y5Z5W5 = VPI_DETAIL_BPP_NCH(16, 4)`. -/
def VPI_PACKING_X1Y5Z5W5 : Int := VPI_DETAIL_BPP_NCH 16 4

/-- Embeds `VPI_PACKING_X4Y4Z4W4`, the enumerator after `VPI_PACKING_X1Y5Z5W5`. -/
def VPI_PACKING_X4Y4Z4W4 : Int := VPI_PACKING_X1Y5Z5W5 + 1

/-- Embeds `VPI_PACKING_X5Y1Z5W5`, the enumerator after `VPI_PACKING_X4Y4Z4W4`. -/
def VPI_PACKING_X5Y1Z5W5 : Int := VPI_PACKING_X4Y4Z4W4 + 1

/-- Embeds `VPI_PACKING_X5Y5Z1W5`, the enumerator after `VPI_PACKING_X5Y1Z5W5`. -/
def VPI_PACKING_X5Y5Z1W5 : Int := VPI_PACKING_X5Y1Z5W5 + 1

/-- Embeds `VPI_PACKING_X5Y5Z5W1`, the enumerator after `VPI_PACKING_X5Y5Z1W5`. -/
def VPI_PACKING_X5Y5Z5W1 : Int := VPI_PACKING_X5Y5Z1W5 + 1

/-- Embeds `VPI_PACKING_X8_Y8__X8_Z8`, the enumerator after `VPI_PACKING_X5Y5Z5W1`. -/
def VPI_PACKING_X8_Y8__X8_Z8 : Int := VPI_PACKING_X5Y5Z5W1 + 1

/-- Embeds `VPI_PACKING_Y8_X8__Z8_X8`, the enumerator after `VPI_PACKING_X8_Y8__X8_Z8`. -/
def VPI_PACKING_Y8_X8__Z8_X8 : Int := VPI_PACKING_X8_Y8__X8_Z8 + 1

/-- Embeds `VPI_PACKING_X24 = VPI_DETAIL_BPP_NCH(24, 1)`. -/
def VPI_PACKING_X24 : Int := VPI_DETAIL_BPP_NCH 24 1

/-- Embeds `VPI_PACKING_X8_Y8_Z8 = VPI_DETAIL_BPP_NCH(24, 3)`. -/
def VPI_PACKING_X8_Y8_Z8 : Int := VPI_DETAIL_BPP_NCH 24 3

/-- Embeds `VPI_PACKING_X32 = VPI_DETAIL_BPP_NCH(32, 1)`. -/
def VPI_PACKING_X32 : Int := VPI_DETAIL_BPP_NCH 32 1

/-- Embeds `VPI_PACKING_b12X20`, the enumerator after `VPI_PACKING_X32`. -/
def VPI_PACKING_b12X20 : Int := VPI_PACKING_X32 + 1

/-- Embeds `VPI_PACKING_X16_Y16 = VPI_DETAIL_BPP_NCH(32, 2)`. -/
def VPI_PACKING_X16_Y16 : Int := VPI_DETAIL_BPP_NCH 32 2

/-- Embeds `VPI_PACKING_X10b6_Y10b6`, the enumerator after `VPI_PACKING_X16_Y16`. -/
def VPI_PACKING_X10b6_Y10b6 : Int := VPI_PACKING_X16_Y16 + 1

/-- Embeds `VPI_PACKING_X12b4_Y12b4`, the enumerator after `VPI_PACKING_X10b6_Y10b6`. -/
def VPI_PACKING_X12b4_Y12b4 : Int := VPI_PACKING_X10b6_Y10b6 + 1

/-- Embeds `VPI_PACKING_X10Y11Z11 = VPI_DETAIL_BPP_NCH(32, 3)`. -/
def VPI_PACKING_X10Y11Z11 : Int := VPI_DETAIL_BPP_NCH 32 3

/-- Embeds `VPI_PACKING_X11Y11Z10`, the enumerator after `VPI_PACKING_X10Y11Z11`. -/
def VPI_PACKING_X11Y11Z10 : Int := VPI_PACKING_X10Y11Z11 + 1

/-- Embeds `VPI_PACKING_X8_Y8_Z8_W8 = VPI_DETAIL_BPP_NCH(32, 4)`. -/
def VPI_PACKING_X8_Y8_Z8_W8 : Int := VPI_DETAIL_BPP_NCH 32 4

/-- Embeds `VPI_PACKING_X2Y10Z10W10`, the enumerator after `VPI_PACKING_X8_Y8_Z8_W8`. -/
def VPI_PACKING_X2Y10Z10W10 : Int := VPI_PACKING_X8_Y8_Z8_W8 + 1

/-- Embeds `VPI_PACKING_X10Y10Z10W2`, the enumerator after `VPI_PACKING_X2Y10Z10W10`. -/
def VPI_PACKING_X10Y10Z10W2 : Int := VPI_PACKING_X2Y10Z10W10 + 1

/-- Embeds `VPI_PACKING_X48 = VPI_DETAIL_BPP_NCH(48, 1)`. -/
def VPI_PACKING_X48 : Int := VPI_DETAIL_BPP_NCH 48 1

/-- Embeds `VPI_PACKING_X16_Y16_Z16 = VPI_DETAIL_BPP_NCH(48, 3)`. -/
def VPI_PACKING_X16_Y16_Z16 : Int := VPI_DETAIL_BPP_NCH 48 3

/-- Embeds `VPI_PACKING_X64 = VPI_DETAIL_BPP_NCH(64, 1)`. -/
def VPI_PACKING_X64 : Int := VPI_DETAIL_BPP_NCH 64 1

/-- Embeds `VPI_PACKING_X32_Y32 = VPI_DETAIL_BPP_NCH(64, 2)`. -/
def VPI_PACKING_X32_Y32 : Int := VPI_DETAIL_BPP_NCH 64 2

/-- Embeds `VPI_PACKING_X16_Y16_Z16_W16 = VPI_DETAIL_BPP_NCH(64, 4)`. -/
def VPI_PACKING_X16_Y16_Z16_W16 : Int := VPI_DETAIL_BPP_NCH 64 4

/-- Embeds `VPI_PACKING_X96 = VPI_DETAIL_BPP_NCH(96, 1)`. -/
def VPI_PACKING_X96 : Int := VPI_DETAIL_BPP_NCH 96 1

/-- Embeds `VPI_PACKING_X32_Y32_Z32 = VPI_DETAIL_BPP_NCH(96, 3)`. -/
def VPI_PACKING_X32_Y32_Z32 : Int := VPI_DETAIL_BPP_NCH 96 3

/-- Embeds `VPI_PACKING_X128 = VPI_DETAIL_BPP_NCH(128, 1)`. -/
def VPI_PACKING_X128 : Int := VPI_DETAIL_BPP_NCH 128 1

/-- Embeds `VPI_PACKING_X64_Y64 = VPI_DETAIL_BPP_NCH(128, 2)`. -/
def VPI_PACKING_X64_Y64 : Int := VPI_DETAIL_BPP_NCH 128 2

/-- Embeds `VPI_PACKING_X32_Y32_Z32_W32 = VPI_DETAIL_BPP_NCH(128, 4)`. -/
def VPI_PACKING_X32_Y32_Z32_W32 : Int := VPI_DETAIL_BPP_NCH 128 4

/-- Embeds `VPI_PACKING_X192 = VPI_DETAIL_BPP_NCH(192, 1)`. -/
def VPI_PACKING_X192 : Int := VPI_DETAIL_BPP_NCH 192 1

/-- Embeds `VPI_PACKING_X64_Y64_Z64 = VPI_DETAIL_BPP_NCH(192, 3)`. -/
def VPI_PACKING_X64_Y64_Z64 : Int := VPI_DETAIL_BPP_NCH 192 3

/-- Embeds `VPI_PACKING_X256 = VPI_DETAIL_BPP_NCH(256, 1)`. -/
def VPI_PACKING_X256 : Int := VPI_DETAIL_BPP_NCH 256 1

/-- Embeds `VPI_PACKING_X64_Y64_Z64_W64 = VPI_DETAIL_BPP_NCH(256, 4)`. -/
def VPI_PACKING_X64_Y64_Z64_W64 : Int := VPI_DETAIL_BPP_NCH 256 4

/-- Embeds `VPI_PACKING_INVALID = INT32_MAX`. -/
def VPI_PACKING_INVALID : Int := INT32_MAX

/-- The enumerators of `VPIPacking` other than `VPI_PACKING_INVALID`, in source order. -/
def predefinedPackings : List Int :=
  [VPI_PACKING_0, VPI_PACKING_X1, VPI_PACKING_X2, VPI_PACKING_X4,
   VPI_PACKING_X8, VPI_PACKING_X4Y4, VPI_PACKING_X3Y3Z2, VPI_PACKING_X16,
   VPI_PACKING_b6X10, VPI_PACKING_X10b6, VPI_PACKING_b4X12, VPI_PACKING_X12b4,
   VPI_PACKING_b2X14, VPI_PACKING_X8_Y8, VPI_PACKING_X5Y5Z6, VPI_PACKING_X5Y6Z5,
   VPI_PACKING_X6Y5Z5, VPI_PACKING_b4X4Y4Z4, VPI_PACKING_b1X5Y5Z5, VPI_PACKING_X5Y5b1Z5,
   VPI_PACKING_X1Y5Z5W5, VPI_PACKING_X4Y4Z4W4, VPI_PACKING_X5Y1Z5W5, VPI_PACKING_X5Y5Z1W5,
   VPI_PACKING_X5Y5Z5W1, VPI_PACKING_X8_Y8__X8_Z8, VPI_PACKING_Y8_X8__Z8_X8, VPI_PACKING_X24,
   VPI_PACKING_X8_Y8_Z8, VPI_PACKING_X32, VPI_PACKING_b12X20, VPI_PACKING_X16_Y16,
   VPI_PACKING_X10b6_Y10b6, VPI_PACKING_X12b4_Y12b4, VPI_PACKING_X10Y11Z11, VPI_PACKING_X11Y11Z10,
   VPI_PACKING_X8_Y8_Z8_W8, VPI_PACKING_X2Y10Z10W10, VPI_PACKING_X10Y10Z10W2, VPI_PACKING_X48,
   VPI_PACKING_X16_Y16_Z16, VPI_PACKING_X64, VPI_PACKING_X32_Y32, VPI_PACKING_X16_Y16_Z16_W16,
   VPI_PACKING_X96, VPI_PACKING_X32_Y32_Z32, VPI_PACKING_X128, VPI_PACKING_X64_Y64,
   VPI_PACKING_X32_Y32_Z32_W32, VPI_PACKING_X192, VPI_PACKING_X64_Y64_Z64, VPI_PACKING_X256,
   VPI_PACKING_X64_Y64_Z64_W64]

/-- Embeds `VPI_DATA_TYPE_INVALID` of `VPIDataType`. -/
def VPI_DATA_TYPE_INVALID : Int := 0

/-- Embeds `VPI_DATA_TYPE_UNSIGNED` of `VPIDataType`. -/
def VPI_DATA_TYPE_UNSIGNED : Int := 1

/-- Embeds `VPI_DATA_TYPE_SIGNED` of `VPIDataType`. -/
def VPI_DATA_TYPE_SIGNED : Int := 2

/-- Embeds `VPI_DATA_TYPE_FLOAT` of `VPIDataType`. -/
def VPI_DATA_TYPE_FLOAT : Int := 3

/-- Embeds `VPI_DATA_TYPE_FLOATISP` of `VPIDataType`. -/
def VPI_DATA_TYPE_FLOATISP : Int := 4

/-- Embeds `VPI_MEM_LAYOUT_INVALID` of `VPIMemLayout`. -/
def VPI_MEM_LAYOUT_INVALID : Int := 0

/-- Embeds `VPI_MEM_LAYOUT_PITCH_LINEAR` of `VPIMemLayout`. -/
def VPI_MEM_LAYOUT_PITCH_LINEAR : Int := 1

/-- Embeds `VPI_MEM_LAYOUT_BLOCK1_LINEAR` of `VPIMemLayout`. -/
def VPI_MEM_LAYOUT_BLOCK1_LINEAR : Int := 2

/-- Embeds `VPI_MEM_LAYOUT_BLOCK2_LINEAR` of `VPIMemLayout`. -/
def VPI_MEM_LAYOUT_BLOCK2_LINEAR : Int := 3

/-- Embeds `VPI_MEM_LAYOUT_BLOCK4_LINEAR` of `VPIMemLayout`. -/
def VPI_MEM_LAYOUT_BLOCK4_LINEAR : Int := 4

/-- Embeds `VPI_MEM_LAYOUT_BLOCK8_LINEAR` of `VPIMemLayout`. -/
def VPI_MEM_LAYOUT_BLOCK8_LINEAR : Int := 5

/-- Embeds `VPI_MEM_LAYOUT_BLOCK16_LINEAR` of `VPIMemLayout`. -/
def VPI_MEM_LAYOUT_BLOCK16_LINEAR : Int := 6

/-- Embeds `VPI_MEM_LAYOUT_BLOCK32_LINEAR` of `VPIMemLayout`. -/
def VPI_MEM_LAYOUT_BLOCK32_LINEAR : Int := 7

/-- Embeds `VPI_MEM_LAYOUT_BLOCK_LINEAR = VPI_MEM_LAYOUT_BLOCK2_LINEAR`. -/
def VPI_MEM_LAYOUT_BLOCK_LINEAR : Int := VPI_MEM_LAYOUT_BLOCK2_LINEAR

/-- Embeds `VPI_MEM_LAYOUT_PL = VPI_MEM_LAYOUT_PITCH_LINEAR`. -/
def VPI_MEM_LAYOUT_PL : Int := VPI_MEM_LAYOUT_PITCH_LINEAR

/-- Embeds `VPI_MEM_LAYOUT_BL = VPI_MEM_LAYOUT_BLOCK_LINEAR`. -/
def VPI_MEM_LAYOUT_BL : Int := VPI_MEM_LAYOUT_BLOCK_LINEAR

/-- Embeds `VPI_CHANNEL_INVALID = 7`. -/
def VPI_CHANNEL_INVALID : Int := 7

/-- Embeds `VPI_CHANNEL_0` of `VPIChannel`. -/
def VPI_CHANNEL_0 : Int := 0

/-- Embeds `VPI_CHANNEL_X` of `VPIChannel`. -/
def VPI_CHANNEL_X : Int := 1

/-- Embeds `VPI_CHANNEL_Y` of `VPIChannel`. -/
def VPI_CHANNEL_Y : Int := 2

/-- Embeds `VPI_CHANNEL_Z` of `VPIChannel`. -/
def VPI_CHANNEL_Z : Int := 3

/-- Embeds `VPI_CHANNEL_W` of `VPIChannel`. -/
def VPI_CHANNEL_W : Int := 4

/-- Embeds `VPI_CHANNEL_1` of `VPIChannel`. -/
def VPI_CHANNEL_1 : Int := 5

/-- Embeds `VPI_SWIZZLE_INVALID = VPI_DETAIL_MAKE_SWZL(INVALID, INVALID, INVALID, INVALID)`. -/
def VPI_SWIZZLE_INVALID : Int := VPI_DETAIL_MAKE_SWIZZLE VPI_CHANNEL_INVALID VPI_CHANNEL_INVALID VPI_CHANNEL_INVALID VPI_CHANNEL_INVALID

/-- Embeds `VPI_DETAIL_DEF_SWIZZLE_ENUM(0, 0, 0, 0)`. -/
def VPI_SWIZZLE_0000 : Int := VPI_DETAIL_MAKE_SWIZZLE VPI_CHANNEL_0 VPI_CHANNEL_0 VPI_CHANNEL_0 VPI_CHANNEL_0

/-- Embeds `VPI_DETAIL_DEF_SWIZZLE_ENUM(X, 0, 0, 0)`. -/
def VPI_SWIZZLE_X000 : Int := VPI_DETAIL_MAKE_SWIZZLE VPI_CHANNEL_X VPI_CHANNEL_0 VPI_CHANNEL_0 VPI_CHANNEL_0

/-- Embeds `VPI_DETAIL_DEF_SWIZZLE_ENUM(X, Y, 0, 0)`. -/
def VPI_SWIZZLE_XY00 : Int := VPI_DETAIL_MAKE_SWIZZLE VPI_CHANNEL_X VPI_CHANNEL_Y VPI_CHANNEL_0 VPI_CHANNEL_0

/-- Embeds `VPI_DETAIL_DEF_SWIZZLE_ENUM(X, Y, Z, 0)`. -/
def VPI_SWIZZLE_XYZ0 : Int := VPI_DETAIL_MAKE_SWIZZLE VPI_CHANNEL_X VPI_CHANNEL_Y VPI_CHANNEL_Z VPI_CHANNEL_0

/-- Embeds `VPI_DETAIL_DEF_SWIZZLE_ENUM(X, Y, Z, 1)`. -/
def VPI_SWIZZLE_XYZ1 : Int := VPI_DETAIL_MAKE_SWIZZLE VPI_CHANNEL_X VPI_CHANNEL_Y VPI_CHANNEL_Z VPI_CHANNEL_1

/-- Embeds `VPI_DETAIL_DEF_SWIZZLE_ENUM(X, Y, Z, W)`. -/
def VPI_SWIZZLE_XYZW : Int := VPI_DETAIL_MAKE_SWIZZLE VPI_CHANNEL_X VPI_CHANNEL_Y VPI_CHANNEL_Z VPI_CHANNEL_W

/-- Embeds `VPI_DETAIL_DEF_SWIZZLE_ENUM(Z, Y, X, 1)`. -/
def VPI_SWIZZLE_ZYX1 : Int := VPI_DETAIL_MAKE_SWIZZLE VPI_CHANNEL_Z VPI_CHANNEL_Y VPI_CHANNEL_X VPI_CHANNEL_1

/-- Embeds `VPI_DETAIL_DEF_SWIZZLE_ENUM(Z, Y, X, W)`. -/
def VPI_SWIZZLE_ZYXW : Int := VPI_DETAIL_MAKE_SWIZZLE VPI_CHANNEL_Z VPI_CHANNEL_Y VPI_CHANNEL_X VPI_CHANNEL_W

/-- Embeds `VPI_DETAIL_DEF_SWIZZLE_ENUM(Y, Z, W, X)`. -/
def VPI_SWIZZLE_YZWX : Int := VPI_DETAIL_MAKE_SWIZZLE VPI_CHANNEL_Y VPI_CHANNEL_Z VPI_CHANNEL_W VPI_CHANNEL_X

/-- Embeds `VPI_DETAIL_DEF_SWIZZLE_ENUM(X, X, X, 1)`. -/
def VPI_SWIZZLE_XXX1 : Int := VPI_DETAIL_MAKE_SWIZZLE VPI_CHANNEL_X VPI_CHANNEL_X VPI_CHANNEL_X VPI_CHANNEL_1

/-- Embeds `VPI_DETAIL_DEF_SWIZZLE_ENUM(W, Z, Y, X)`. -/
def VPI_SWIZZLE_WZYX : Int := VPI_DETAIL_MAKE_SWIZZLE VPI_CHANNEL_W VPI_CHANNEL_Z VPI_CHANNEL_Y VPI_CHANNEL_X

/-! ## `ColorSpec.h` -/


/-- Embeds `VPI_COLOR_SPACE_SENSOR` of `VPIColorSpace`. -/
def VPI_COLOR_SPACE_SENSOR : Int := 0

/-- Embeds `VPI_COLOR_SPACE_BT601` of `VPIColorSpace`. -/
def VPI_COLOR_SPACE_BT601 : Int := 1

/-- Embeds `VPI_COLOR_SPACE_BT709` of `VPIColorSpace`. -/
def VPI_COLOR_SPACE_BT709 : Int := 2

/-- Embeds `VPI_COLOR_SPACE_BT2020` of `VPIColorSpace`. -/
def VPI_COLOR_SPACE_BT2020 : Int := 3

/-- Embeds `VPI_COLOR_SPACE_DCIP3` of `VPIColorSpace`. -/
def VPI_COLOR_SPACE_DCIP3 : Int := 4

/-- Embeds `VPI_COLOR_SPACE_UNDEFINED = INT32_MAX`. -/
def VPI_COLOR_SPACE_UNDEFINED : Int := INT32_MAX

/-- Embeds `VPI_YCbCr_ENC_UNDEFINED` of `VPIYCbCrEncoding`. -/
def VPI_YCbCr_ENC_UNDEFINED : Int := 0

/-- Embeds `VPI_YCbCr_ENC_BT601` of `VPIYCbCrEncoding`. -/
def VPI_YCbCr_ENC_BT601 : Int := 1

/-- Embeds `VPI_YCbCr_ENC_BT709` of `VPIYCbCrEncoding`. -/
def VPI_YCbCr_ENC_BT709 : Int := 2

/-- Embeds `VPI_YCbCr_ENC_BT2020` of `VPIYCbCrEncoding`. -/
def VPI_YCbCr_ENC_BT2020 : Int := 3

/-- Embeds `VPI_YCbCr_ENC_BT2020c` of `VPIYCbCrEncoding`. -/
def VPI_YCbCr_ENC_BT2020c : Int := 4

/-- Embeds `VPI_YCbCr_ENC_SMPTE240M` of `VPIYCbCrEncoding`. -/
def VPI_YCbCr_ENC_SMPTE240M : Int := 5

/-- Embeds `VPI_COLOR_XFER_LINEAR` of `VPIColorTransferFunction`. -/
def VPI_COLOR_XFER_LINEAR : Int := 0

/-- Embeds `VPI_COLOR_XFER_sRGB` of `VPIColorTransferFunction`. -/
def VPI_COLOR_XFER_sRGB : Int := 1

/-- Embeds `VPI_COLOR_XFER_sYCC` of `VPIColorTransferFunction`. -/
def VPI_COLOR_XFER_sYCC : Int := 2

/-- Embeds `VPI_COLOR_XFER_PQ` of `VPIColorTransferFunction`. -/
def VPI_COLOR_XFER_PQ : Int := 3

/-- Embeds `VPI_COLOR_XFER_BT709` of `VPIColorTransferFunction`. -/
def VPI_COLOR_XFER_BT709 : Int := 4

/-- Embeds `VPI_COLOR_XFER_BT2020` of `VPIColorTransferFunction`. -/
def VPI_COLOR_XFER_BT2020 : Int := 5

/-- Embeds `VPI_COLOR_XFER_SMPTE240M` of `VPIColorTransferFunction`. -/
def VPI_COLOR_XFER_SMPTE240M : Int := 6

/-- Embeds `VPI_COLOR_RANGE_FULL` of `VPIColorRange`. -/
def VPI_COLOR_RANGE_FULL : Int := 0

/-- Embeds `VPI_COLOR_RANGE_LIMITED` of `VPIColorRange`. -/
def VPI_COLOR_RANGE_LIMITED : Int := 1

/-- Embeds `VPI_CHROMA_LOC_EVEN` of `VPIChromaLocation`. -/
def VPI_CHROMA_LOC_EVEN : Int := 0

/-- Embeds `VPI_CHROMA_LOC_CENTER` of `VPIChromaLocation`. -/
def VPI_CHROMA_LOC_CENTER : Int := 1

/-- Embeds `VPI_CHROMA_LOC_ODD` of `VPIChromaLocation`. -/
def VPI_CHROMA_LOC_ODD : Int := 2

/-- Embeds `VPI_CHROMA_LOC_BOTH` of `VPIChromaLocation`. -/
def VPI_CHROMA_LOC_BOTH : Int := 3

/-- Embeds `VPI_COLOR_SPEC_INVALID = INT32_MAX`. -/
def VPI_COLOR_SPEC_INVALID : Int := INT32_MAX

/-- Embeds `VPI_COLOR_SPEC_DEFAULT = VPI_DETAIL_MAKE_CSPC(SPACE_UNDEFINED, ENC_UNDEFINED, XFER_LINEAR, RANGE_FULL, LOC_BOTH, LOC_BOTH)`. -/
def VPI_COLOR_SPEC_DEFAULT : Int :=
  VPI_DETAIL_MAKE_COLOR_SPEC VPI_COLOR_SPACE_UNDEFINED VPI_YCbCr_ENC_UNDEFINED VPI_COLOR_XFER_LINEAR VPI_COLOR_RANGE_FULL
    VPI_CHROMA_LOC_BOTH VPI_CHROMA_LOC_BOTH

/-- Embeds `VPI_COLOR_SPEC_UNDEFINED = VPI_DETAIL_MAKE_CSPC(SPACE_BT709, ENC_UNDEFINED, XFER_LINEAR, RANGE_FULL, LOC_BOTH, LOC_BOTH)`. -/
def VPI_COLOR_SPEC_UNDEFINED : Int :=
  VPI_DETAIL_MAKE_COLOR_SPEC VPI_COLOR_SPACE_BT709 VPI_YCbCr_ENC_UNDEFINED VPI_COLOR_XFER_LINEAR VPI_COLOR_RANGE_FULL
    VPI_CHROMA_LOC_BOTH VPI_CHROMA_LOC_BOTH

/-- Embeds `VPI_COLOR_SPEC_BT601 = VPI_DETAIL_MAKE_CSPC(SPACE_BT709, ENC_BT601, XFER_BT709, RANGE_LIMITED, LOC_EVEN, LOC_EVEN)`. -/
def VPI_COLOR_SPEC_BT601 : Int :=
  VPI_DETAIL_MAKE_COLOR_SPEC VPI_COLOR_SPACE_BT709 VPI_YCbCr_ENC_BT601 VPI_COLOR_XFER_BT709 VPI_COLOR_RANGE_LIMITED
    VPI_CHROMA_LOC_EVEN VPI_CHROMA_LOC_EVEN

/-- Embeds `VPI_COLOR_SPEC_BT601_ER = VPI_DETAIL_MAKE_CSPC(SPACE_BT709, ENC_BT601, XFER_BT709, RANGE_FULL, LOC_EVEN, LOC_EVEN)`. -/
def VPI_COLOR_SPEC_BT601_ER : Int :=
  VPI_DETAIL_MAKE_COLOR_SPEC VPI_COLOR_SPACE_BT709 VPI_YCbCr_ENC_BT601 VPI_COLOR_XFER_BT709 VPI_COLOR_RANGE_FULL
    VPI_CHROMA_LOC_EVEN VPI_CHROMA_LOC_EVEN

/-- Embeds `VPI_COLOR_SPEC_BT709 = VPI_DETAIL_MAKE_CSPC(SPACE_BT709, ENC_BT709, XFER_BT709, RANGE_LIMITED, LOC_EVEN, LOC_EVEN)`. -/
def VPI_COLOR_SPEC_BT709 : Int :=
  VPI_DETAIL_MAKE_COLOR_SPEC VPI_COLOR_SPACE_BT709 VPI_YCbCr_ENC_BT709 VPI_COLOR_XFER_BT709 VPI_COLOR_RANGE_LIMITED
    VPI_CHROMA_LOC_EVEN VPI_CHROMA_LOC_EVEN

/-- Embeds `VPI_COLOR_SPEC_BT709_ER = VPI_DETAIL_MAKE_CSPC(SPACE_BT709, ENC_BT709, XFER_BT709, RANGE_FULL, LOC_EVEN, LOC_EVEN)`. -/
def VPI_COLOR_SPEC_BT709_ER : Int :=
  VPI_DETAIL_MAKE_COLOR_SPEC VPI_COLOR_SPACE_BT709 VPI_YCbCr_ENC_BT709 VPI_COLOR_XFER_BT709 VPI_COLOR_RANGE_FULL
    VPI_CHROMA_LOC_EVEN VPI_CHROMA_LOC_EVEN

/-- Embeds `VPI_COLOR_SPEC_BT709_LINEAR = VPI_DETAIL_MAKE_CSPC(SPACE_BT709, ENC_BT709, XFER_LINEAR, RANGE_LIMITED, LOC_EVEN, LOC_EVEN)`. -/
def VPI_COLOR_SPEC_BT709_LINEAR : Int :=
  VPI_DETAIL_MAKE_COLOR_SPEC VPI_COLOR_SPACE_BT709 VPI_YCbCr_ENC_BT709 VPI_COLOR_XFER_LINEAR VPI_COLOR_RANGE_LIMITED
    VPI_CHROMA_LOC_EVEN VPI_CHROMA_LOC_EVEN

/-- Embeds `VPI_COLOR_SPEC_BT2020 = VPI_DETAIL_MAKE_CSPC(SPACE_BT2020, ENC_BT2020, XFER_BT2020, RANGE_LIMITED, LOC_EVEN, LOC_EVEN)`. -/
def VPI_COLOR_SPEC_BT2020 : Int :=
  VPI_DETAIL_MAKE_COLOR_SPEC VPI_COLOR_SPACE_BT2020 VPI_YCbCr_ENC_BT2020 VPI_COLOR_XFER_BT2020 VPI_COLOR_RANGE_LIMITED
    VPI_CHROMA_LOC_EVEN VPI_CHROMA_LOC_EVEN

/-- Embeds `VPI_COLOR_SPEC_BT2020_ER = VPI_DETAIL_MAKE_CSPC(SPACE_BT2020, ENC_BT2020, XFER_BT2020, RANGE_FULL, LOC_EVEN, LOC_EVEN)`. -/
def VPI_COLOR_SPEC_BT2020_ER : Int :=
  VPI_DETAIL_MAKE_COLOR_SPEC VPI_COLOR_SPACE_BT2020 VPI_YCbCr_ENC_BT2020 VPI_COLOR_XFER_BT2020 VPI_COLOR_RANGE_FULL
    VPI_CHROMA_LOC_EVEN VPI_CHROMA_LOC_EVEN

/-- Embeds `VPI_COLOR_SPEC_BT2020_LINEAR = VPI_DETAIL_MAKE_CSPC(SPACE_BT2020, ENC_BT2020, XFER_LINEAR, RANGE_LIMITED, LOC_EVEN, LOC_EVEN)`. -/
def VPI_COLOR_SPEC_BT2020_LINEAR : Int :=
  VPI_DETAIL_MAKE_COLOR_SPEC VPI_COLOR_SPACE_BT2020 VPI_YCbCr_ENC_BT2020 VPI_COLOR_XFER_LINEAR VPI_COLOR_RANGE_LIMITED
    VPI_CHROMA_LOC_EVEN VPI_CHROMA_LOC_EVEN

/-- Embeds `VPI_COLOR_SPEC_BT2020_PQ = VPI_DETAIL_MAKE_CSPC(SPACE_BT2020, ENC_BT2020, XFER_PQ, RANGE_LIMITED, LOC_EVEN, LOC_EVEN)`. -/
def VPI_COLOR_SPEC_BT2020_PQ : Int :=
  VPI_DETAIL_MAKE_COLOR_SPEC VPI_COLOR_SPACE_BT2020 VPI_YCbCr_ENC_BT2020 VPI_COLOR_XFER_PQ VPI_COLOR_RANGE_LIMITED
    VPI_CHROMA_LOC_EVEN VPI_CHROMA_LOC_EVEN

/-- Embeds `VPI_COLOR_SPEC_BT2020_PQ_ER = VPI_DETAIL_MAKE_CSPC(SPACE_BT2020, ENC_BT2020, XFER_PQ, RANGE_FULL, LOC_EVEN, LOC_EVEN)`. -/
def VPI_COLOR_SPEC_BT2020_PQ_ER : Int :=
  VPI_DETAIL_MAKE_COLOR_SPEC VPI_COLOR_SPACE_BT2020 VPI_YCbCr_ENC_BT2020 VPI_COLOR_XFER_PQ VPI_COLOR_RANGE_FULL
    VPI_CHROMA_LOC_EVEN VPI_CHROMA_LOC_EVEN

/-- Embeds `VPI_COLOR_SPEC_BT2020c = VPI_DETAIL_MAKE_CSPC(SPACE_BT2020, ENC_BT2020c, XFER_BT2020, RANGE_LIMITED, LOC_EVEN, LOC_EVEN)`. -/
def VPI_COLOR_SPEC_BT2020c : Int :=
  VPI_DETAIL_MAKE_COLOR_SPEC VPI_COLOR_SPACE_BT2020 VPI_YCbCr_ENC_BT2020c VPI_COLOR_XFER_BT2020 VPI_COLOR_RANGE_LIMITED
    VPI_CHROMA_LOC_EVEN VPI_CHROMA_LOC_EVEN

/-- Embeds `VPI_COLOR_SPEC_BT2020c_ER = VPI_DETAIL_MAKE_CSPC(SPACE_BT2020, ENC_BT2020c, XFER_BT2020, RANGE_FULL, LOC_EVEN, LOC_EVEN)`. -/
def VPI_COLOR_SPEC_BT2020c_ER : Int :=
  VPI_DETAIL_MAKE_COLOR_SPEC VPI_COLOR_SPACE_BT2020 VPI_YCbCr_ENC_BT2020c VPI_COLOR_XFER_BT2020 VPI_COLOR_RANGE_FULL
    VPI_CHROMA_LOC_EVEN VPI_CHROMA_LOC_EVEN

/-- Embeds `VPI_COLOR_SPEC_MPEG2_BT601 = VPI_DETAIL_MAKE_CSPC(SPACE_BT709, ENC_BT601, XFER_BT709, RANGE_FULL, LOC_EVEN, LOC_CENTER)`. -/
def VPI_COLOR_SPEC_MPEG2_BT601 : Int :=
  VPI_DETAIL_MAKE_COLOR_SPEC VPI_COLOR_SPACE_BT709 VPI_YCbCr_ENC_BT601 VPI_COLOR_XFER_BT709 VPI_COLOR_RANGE_FULL
    VPI_CHROMA_LOC_EVEN VPI_CHROMA_LOC_CENTER

/-- Embeds `VPI_COLOR_SPEC_MPEG2_BT709 = VPI_DETAIL_MAKE_CSPC(SPACE_BT709, ENC_BT709, XFER_BT709, RANGE_FULL, LOC_EVEN, LOC_CENTER)`. -/
def VPI_COLOR_SPEC_MPEG2_BT709 : Int :=
  VPI_DETAIL_MAKE_COLOR_SPEC VPI_COLOR_SPACE_BT709 VPI_YCbCr_ENC_BT709 VPI_COLOR_XFER_BT709 VPI_COLOR_RANGE_FULL
    VPI_CHROMA_LOC_EVEN VPI_CHROMA_LOC_CENTER

/-- Embeds `VPI_COLOR_SPEC_MPEG2_SMPTE240M = VPI_DETAIL_MAKE_CSPC(SPACE_BT709, ENC_SMPTE240M, XFER_SMPTE240M, RANGE_FULL, LOC_EVEN, LOC_CENTER)`. -/
def VPI_COLOR_SPEC_MPEG2_SMPTE240M : Int :=
  VPI_DETAIL_MAKE_COLOR_SPEC VPI_COLOR_SPACE_BT709 VPI_YCbCr_ENC_SMPTE240M VPI_COLOR_XFER_SMPTE240M VPI_COLOR_RANGE_FULL
    VPI_CHROMA_LOC_EVEN VPI_CHROMA_LOC_CENTER

/-- Embeds `VPI_COLOR_SPEC_sRGB = VPI_DETAIL_MAKE_CSPC(SPACE_BT709, ENC_UNDEFINED, XFER_sRGB, RANGE_FULL, LOC_BOTH, LOC_BOTH)`. -/
def VPI_COLOR_SPEC_sRGB : Int :=
  VPI_DETAIL_MAKE_COLOR_SPEC VPI_COLOR_SPACE_BT709 VPI_YCbCr_ENC_UNDEFINED VPI_COLOR_XFER_sRGB VPI_COLOR_RANGE_FULL
    VPI_CHROMA_LOC_BOTH VPI_CHROMA_LOC_BOTH

/-- Embeds `VPI_COLOR_SPEC_sYCC = VPI_DETAIL_MAKE_CSPC(SPACE_BT709, ENC_BT601, XFER_sYCC, RANGE_FULL, LOC_CENTER, LOC_CENTER)`. -/
def VPI_COLOR_SPEC_sYCC : Int :=
  VPI_DETAIL_MAKE_COLOR_SPEC VPI_COLOR_SPACE_BT709 VPI_YCbCr_ENC_BT601 VPI_COLOR_XFER_sYCC VPI_COLOR_RANGE_FULL
    VPI_CHROMA_LOC_CENTER VPI_CHROMA_LOC_CENTER

/-- Embeds `VPI_COLOR_SPEC_SMPTE240M = VPI_DETAIL_MAKE_CSPC(SPACE_BT709, ENC_SMPTE240M, XFER_SMPTE240M, RANGE_LIMITED, LOC_EVEN, LOC_EVEN)`. -/
def VPI_COLOR_SPEC_SMPTE240M : Int :=
  VPI_DETAIL_MAKE_COLOR_SPEC VPI_COLOR_SPACE_BT709 VPI_YCbCr_ENC_SMPTE240M VPI_COLOR_XFER_SMPTE240M VPI_COLOR_RANGE_LIMITED
    VPI_CHROMA_LOC_EVEN VPI_CHROMA_LOC_EVEN

/-- Embeds `VPI_COLOR_SPEC_DISPLAYP3 = VPI_DETAIL_MAKE_CSPC(SPACE_DCIP3, ENC_UNDEFINED, XFER_sRGB, RANGE_FULL, LOC_BOTH, LOC_BOTH)`. -/
def VPI_COLOR_SPEC_DISPLAYP3 : Int :=
  VPI_DETAIL_MAKE_COLOR_SPEC VPI_COLOR_SPACE_DCIP3 VPI_YCbCr_ENC_UNDEFINED VPI_COLOR_XFER_sRGB VPI_COLOR_RANGE_FULL
    VPI_CHROMA_LOC_BOTH VPI_CHROMA_LOC_BOTH

/-- Embeds `VPI_COLOR_SPEC_DISPLAYP3_LINEAR = VPI_DETAIL_MAKE_CSPC(SPACE_DCIP3, ENC_UNDEFINED, XFER_LINEAR, RANGE_FULL, LOC_BOTH, LOC_BOTH)`. -/
def VPI_COLOR_SPEC_DISPLAYP3_LINEAR : Int :=
  VPI_DETAIL_MAKE_COLOR_SPEC VPI_COLOR_SPACE_DCIP3 VPI_YCbCr_ENC_UNDEFINED VPI_COLOR_XFER_LINEAR VPI_COLOR_RANGE_FULL
    VPI_CHROMA_LOC_BOTH VPI_CHROMA_LOC_BOTH

/-- Embeds `VPI_COLOR_SPEC_SENSOR = VPI_DETAIL_MAKE_CSPC(SPACE_SENSOR, ENC_UNDEFINED, XFER_LINEAR, RANGE_FULL, LOC_BOTH, LOC_BOTH)`. -/
def VPI_COLOR_SPEC_SENSOR : Int :=
  VPI_DETAIL_MAKE_COLOR_SPEC VPI_COLOR_SPACE_SENSOR VPI_YCbCr_ENC_UNDEFINED VPI_COLOR_XFER_LINEAR VPI_COLOR_RANGE_FULL
    VPI_CHROMA_LOC_BOTH VPI_CHROMA_LOC_BOTH

/-- The enumerators of `VPIColorSpec` other than `VPI_COLOR_SPEC_INVALID`, in source order. -/
def predefinedColorSpecs : List Int :=
  [VPI_COLOR_SPEC_DEFAULT, VPI_COLOR_SPEC_UNDEFINED, VPI_COLOR_SPEC_BT601,
   VPI_COLOR_SPEC_BT601_ER, VPI_COLOR_SPEC_BT709, VPI_COLOR_SPEC_BT709_ER,
   VPI_COLOR_SPEC_BT709_LINEAR, VPI_COLOR_SPEC_BT2020, VPI_COLOR_SPEC_BT2020_ER,
   VPI_COLOR_SPEC_BT2020_LINEAR, VPI_COLOR_SPEC_BT2020_PQ, VPI_COLOR_SPEC_BT2020_PQ_ER,
   VPI_COLOR_SPEC_BT2020c, VPI_COLOR_SPEC_BT2020c_ER, VPI_COLOR_SPEC_MPEG2_BT601,
   VPI_COLOR_SPEC_MPEG2_BT709, VPI_COLOR_SPEC_MPEG2_SMPTE240M, VPI_COLOR_SPEC_sRGB,
   VPI_COLOR_SPEC_sYCC, VPI_COLOR_SPEC_SMPTE240M, VPI_COLOR_SPEC_DISPLAYP3,
   VPI_COLOR_SPEC_DISPLAYP3_LINEAR, VPI_COLOR_SPEC_SENSOR]

/-- Embeds `VPI_RAW_INVALID` of `VPIRawPattern`. -/
def VPI_RAW_INVALID : Int := 0

/-- Embeds `VPI_RAW_BAYER_RGGB` of `VPIRawPattern`. -/
def VPI_RAW_BAYER_RGGB : Int := 1

/-- Embeds `VPI_RAW_BAYER_BGGR` of `VPIRawPattern`. -/
def VPI_RAW_BAYER_BGGR : Int := 2

/-- Embeds `VPI_RAW_BAYER_GRBG` of `VPIRawPattern`. -/
def VPI_RAW_BAYER_GRBG : Int := 3

/-- Embeds `VPI_RAW_BAYER_GBRG` of `VPIRawPattern`. -/
def VPI_RAW_BAYER_GBRG : Int := 4

/-- Embeds `VPI_RAW_BAYER_RCCB` of `VPIRawPattern`. -/
def VPI_RAW_BAYER_RCCB : Int := 5

/-- Embeds `VPI_RAW_BAYER_BCCR` of `VPIRawPattern`. -/
def VPI_RAW_BAYER_BCCR : Int := 6

/-- Embeds `VPI_RAW_BAYER_CRBC` of `VPIRawPattern`. -/
def VPI_RAW_BAYER_CRBC : Int := 7

/-- Embeds `VPI_RAW_BAYER_CBRC` of `VPIRawPattern`. -/
def VPI_RAW_BAYER_CBRC : Int := 8

/-- Embeds `VPI_RAW_BAYER_RCCC` of `VPIRawPattern`. -/
def VPI_RAW_BAYER_RCCC : Int := 9

/-- Embeds `VPI_RAW_BAYER_CRCC` of `VPIRawPattern`. -/
def VPI_RAW_BAYER_CRCC : Int := 10

/-- Embeds `VPI_RAW_BAYER_CCRC` of `VPIRawPattern`. -/
def VPI_RAW_BAYER_CCRC : Int := 11

/-- Embeds `VPI_RAW_BAYER_CCCR` of `VPIRawPattern`. -/
def VPI_RAW_BAYER_CCCR : Int := 12

/-- Embeds `VPI_RAW_BAYER_CCCC` of `VPIRawPattern`. -/
def VPI_RAW_BAYER_CCCC : Int := 13

/-- Embeds `VPI_CSS_INVALID = -1`. -/
def VPI_CSS_INVALID : Int := -1

/-- Embeds `VPI_CSS_NONE = 0`. -/
def VPI_CSS_NONE : Int := 0

/-- Embeds `VPI_CSS_444 = VPI_CSS_NONE`. -/
def VPI_CSS_444 : Int := VPI_CSS_NONE

/-- Embeds `VPI_CSS_422` of `VPIChromaSubsampling`. -/
def VPI_CSS_422 : Int := 1

/-- Embeds `VPI_CSS_422R` of `VPIChromaSubsampling`. -/
def VPI_CSS_422R : Int := 2

/-- Embeds `VPI_CSS_411` of `VPIChromaSubsampling`. -/
def VPI_CSS_411 : Int := 3

/-- Embeds `VPI_CSS_411R` of `VPIChromaSubsampling`. -/
def VPI_CSS_411R : Int := 4

/-- Embeds `VPI_CSS_420` of `VPIChromaSubsampling`. -/
def VPI_CSS_420 : Int := 5

/-! ## `ImageFormat.h` -/

/-- Embeds `VPI_DETAIL_MAKE_NONCOLOR_FMT(MemLayout, DataType, Swizzle, 1, Packing0)`. -/
def VPI_DETAIL_MAKE_NONCOLOR_FMT_1 (MemLayout DataType Swizzle Packing0 : Int) : Int :=
  VPI_DETAIL_MAKE_COLOR_FMT_HELPER_1 VPI_COLOR_MODEL_UNDEFINED VPI_COLOR_SPEC_UNDEFINED
    VPI_CSS_NONE MemLayout DataType Swizzle Packing0

/-- Embeds `VPI_DETAIL_MAKE_YCbCr_FMT(ColorSpec, ChromaSubsamp, MemLayout, DataType, Swizzle, 1,
Packing0)`. -/
def VPI_DETAIL_MAKE_YCbCr_FMT_1 (ColorSpec ChromaSubsamp MemLayout DataType Swizzle
    Packing0 : Int) : Int :=
  VPI_DETAIL_MAKE_COLOR_FMT_HELPER_1 VPI_COLOR_MODEL_YCbCr ColorSpec ChromaSubsamp MemLayout
    DataType Swizzle Packing0

/-- Embeds `VPI_DETAIL_MAKE_YCbCr_FMT(ColorSpec, ChromaSubsamp, MemLayout, DataType, Swizzle, 2,
Packing0, Packing1)`. -/
def VPI_DETAIL_MAKE_YCbCr_FMT_2 (ColorSpec ChromaSubsamp MemLayout DataType Swizzle
    Packing0 Packing1 : Int) : Int :=
  VPI_DETAIL_MAKE_COLOR_FMT_HELPER_2 VPI_COLOR_MODEL_YCbCr ColorSpec ChromaSubsamp MemLayout
    DataType Swizzle Packing0 Packing1

/-- Embeds `VPI_DETAIL_MAKE_COLOR_FMT(ColorModel, ColorSpec, MemLayout, DataType, Swizzle, 1,
Packing0)`: the subsampling argument is `NONE`. -/
def VPI_DETAIL_MAKE_COLOR_FMT_1 (ColorModel ColorSpec MemLayout DataType Swizzle
    Packing0 : Int) : Int :=
  VPI_DETAIL_MAKE_COLOR_FMT_HELPER_1 ColorModel ColorSpec VPI_CSS_NONE MemLayout DataType
    Swizzle Packing0

/-- Embeds `VPI_IMAGE_FORMAT_INVALID = 0`. -/
def VPI_IMAGE_FORMAT_INVALID : Int := 0


/-- Embeds `VPI_IMAGE_FORMAT_U8 = VPI_DETAIL_MAKE_NONCOLOR_FMT(PL, UNSIGNED, X000, 1, X8)`. -/
def VPI_IMAGE_FORMAT_U8 : Int :=
  VPI_DETAIL_MAKE_NONCOLOR_FMT_1 VPI_MEM_LAYOUT_PL VPI_DATA_TYPE_UNSIGNED VPI_SWIZZLE_X000
    VPI_PACKING_X8

/-- Embeds `VPI_IMAGE_FORMAT_S8 = VPI_DETAIL_MAKE_NONCOLOR_FMT(PL, SIGNED, X000, 1, X8)`. -/
def VPI_IMAGE_FORMAT_S8 : Int :=
  VPI_DETAIL_MAKE_NONCOLOR_FMT_1 VPI_MEM_LAYOUT_PL VPI_DATA_TYPE_SIGNED VPI_SWIZZLE_X000
    VPI_PACKING_X8

/-- Embeds `VPI_IMAGE_FORMAT_U16 = VPI_DETAIL_MAKE_NONCOLOR_FMT(PL, UNSIGNED, X000, 1, X16)`. -/
def VPI_IMAGE_FORMAT_U16 : Int :=
  VPI_DETAIL_MAKE_NONCOLOR_FMT_1 VPI_MEM_LAYOUT_PL VPI_DATA_TYPE_UNSIGNED VPI_SWIZZLE_X000
    VPI_PACKING_X16

/-- Embeds `VPI_IMAGE_FORMAT_S16 = VPI_DETAIL_MAKE_NONCOLOR_FMT(PL, SIGNED, X000, 1, X16)`. -/
def VPI_IMAGE_FORMAT_S16 : Int :=
  VPI_DETAIL_MAKE_NONCOLOR_FMT_1 VPI_MEM_LAYOUT_PL VPI_DATA_TYPE_SIGNED VPI_SWIZZLE_X000
    VPI_PACKING_X16

/-- Embeds `VPI_IMAGE_FORMAT_F32 = VPI_DETAIL_MAKE_NONCOLOR_FMT(PL, FLOAT, X000, 1, X32)`. -/
def VPI_IMAGE_FORMAT_F32 : Int :=
  VPI_DETAIL_MAKE_NONCOLOR_FMT_1 VPI_MEM_LAYOUT_PL VPI_DATA_TYPE_FLOAT VPI_SWIZZLE_X000
    VPI_PACKING_X32

/-- Embeds `VPI_IMAGE_FORMAT_F64 = VPI_DETAIL_MAKE_NONCOLOR_FMT(PL, FLOAT, X000, 1, X64)`. -/
def VPI_IMAGE_FORMAT_F64 : Int :=
  VPI_DETAIL_MAKE_NONCOLOR_FMT_1 VPI_MEM_LAYOUT_PL VPI_DATA_TYPE_FLOAT VPI_SWIZZLE_X000
    VPI_PACKING_X64

/-- Embeds `VPI_IMAGE_FORMAT_2F32 = VPI_DETAIL_MAKE_NONCOLOR_FMT(PL, FLOAT, XY00, 1, X32_Y32)`. -/
def VPI_IMAGE_FORMAT_2F32 : Int :=
  VPI_DETAIL_MAKE_NONCOLOR_FMT_1 VPI_MEM_LAYOUT_PL VPI_DATA_TYPE_FLOAT VPI_SWIZZLE_XY00
    VPI_PACKING_X32_Y32

/-- Embeds `VPI_IMAGE_FORMAT_NV12 = VPI_DETAIL_MAKE_YCbCr_FMT(BT601, 420, PL, UNSIGNED, XYZ0, 2, X8, X8_Y8)`. -/
def VPI_IMAGE_FORMAT_NV12 : Int :=
  VPI_DETAIL_MAKE_YCbCr_FMT_2 VPI_COLOR_SPEC_BT601 VPI_CSS_420 VPI_MEM_LAYOUT_PL
    VPI_DATA_TYPE_UNSIGNED VPI_SWIZZLE_XYZ0 VPI_PACKING_X8 VPI_PACKING_X8_Y8

/-- Embeds `VPI_IMAGE_FORMAT_NV12_BL = VPI_DETAIL_MAKE_YCbCr_FMT(BT601, 420, BL, UNSIGNED, XYZ0, 2, X8, X8_Y8)`. -/
def VPI_IMAGE_FORMAT_NV12_BL : Int :=
  VPI_DETAIL_MAKE_YCbCr_FMT_2 VPI_COLOR_SPEC_BT601 VPI_CSS_420 VPI_MEM_LAYOUT_BL
    VPI_DATA_TYPE_UNSIGNED VPI_SWIZZLE_XYZ0 VPI_PACKING_X8 VPI_PACKING_X8_Y8

/-- Embeds `VPI_IMAGE_FORMAT_NV12_ER = VPI_DETAIL_MAKE_YCbCr_FMT(BT601_ER, 420, PL, UNSIGNED, XYZ0, 2, X8, X8_Y8)`. -/
def VPI_IMAGE_FORMAT_NV12_ER : Int :=
  VPI_DETAIL_MAKE_YCbCr_FMT_2 VPI_COLOR_SPEC_BT601_ER VPI_CSS_420 VPI_MEM_LAYOUT_PL
    VPI_DATA_TYPE_UNSIGNED VPI_SWIZZLE_XYZ0 VPI_PACKING_X8 VPI_PACKING_X8_Y8

/-- Embeds `VPI_IMAGE_FORMAT_NV12_ER_BL = VPI_DETAIL_MAKE_YCbCr_FMT(BT601_ER, 420, BL, UNSIGNED, XYZ0, 2, X8, X8_Y8)`. -/
def VPI_IMAGE_FORMAT_NV12_ER_BL : Int :=
  VPI_DETAIL_MAKE_YCbCr_FMT_2 VPI_COLOR_SPEC_BT601_ER VPI_CSS_420 VPI_MEM_LAYOUT_BL
    VPI_DATA_TYPE_UNSIGNED VPI_SWIZZLE_XYZ0 VPI_PACKING_X8 VPI_PACKING_X8_Y8

/-- Embeds `VPI_IMAGE_FORMAT_UYVY = VPI_DETAIL_MAKE_YCbCr_FMT(BT601, 422, PL, UNSIGNED, XYZ1, 1, Y8_X8__Z8_X8)`. -/
def VPI_IMAGE_FORMAT_UYVY : Int :=
  VPI_DETAIL_MAKE_YCbCr_FMT_1 VPI_COLOR_SPEC_BT601 VPI_CSS_422 VPI_MEM_LAYOUT_PL
    VPI_DATA_TYPE_UNSIGNED VPI_SWIZZLE_XYZ1 VPI_PACKING_Y8_X8__Z8_X8

/-- Embeds `VPI_IMAGE_FORMAT_UYVY_BL = VPI_DETAIL_MAKE_YCbCr_FMT(BT601, 422, BL, UNSIGNED, XYZ1, 1, Y8_X8__Z8_X8)`. -/
def VPI_IMAGE_FORMAT_UYVY_BL : Int :=
  VPI_DETAIL_MAKE_YCbCr_FMT_1 VPI_COLOR_SPEC_BT601 VPI_CSS_422 VPI_MEM_LAYOUT_BL
    VPI_DATA_TYPE_UNSIGNED VPI_SWIZZLE_XYZ1 VPI_PACKING_Y8_X8__Z8_X8

/-- Embeds `VPI_IMAGE_FORMAT_UYVY_ER = VPI_DETAIL_MAKE_YCbCr_FMT(BT601_ER, 422, PL, UNSIGNED, XYZ1, 1, Y8_X8__Z8_X8)`. -/
def VPI_IMAGE_FORMAT_UYVY_ER : Int :=
  VPI_DETAIL_MAKE_YCbCr_FMT_1 VPI_COLOR_SPEC_BT601_ER VPI_CSS_422 VPI_MEM_LAYOUT_PL
    VPI_DATA_TYPE_UNSIGNED VPI_SWIZZLE_XYZ1 VPI_PACKING_Y8_X8__Z8_X8

/-- Embeds `VPI_IMAGE_FORMAT_UYVY_ER_BL = VPI_DETAIL_MAKE_YCbCr_FMT(BT601_ER, 422, BL, UNSIGNED, XYZ1, 1, Y8_X8__Z8_X8)`. -/
def VPI_IMAGE_FORMAT_UYVY_ER_BL : Int :=
  VPI_DETAIL_MAKE_YCbCr_FMT_1 VPI_COLOR_SPEC_BT601_ER VPI_CSS_422 VPI_MEM_LAYOUT_BL
    VPI_DATA_TYPE_UNSIGNED VPI_SWIZZLE_XYZ1 VPI_PACKING_Y8_X8__Z8_X8

/-- Embeds `VPI_IMAGE_FORMAT_YUYV = VPI_DETAIL_MAKE_YCbCr_FMT(BT601, 422, PL, UNSIGNED, XYZ1, 1, X8_Y8__X8_Z8)`. -/
def VPI_IMAGE_FORMAT_YUYV : Int :=
  VPI_DETAIL_MAKE_YCbCr_FMT_1 VPI_COLOR_SPEC_BT601 VPI_CSS_422 VPI_MEM_LAYOUT_PL
    VPI_DATA_TYPE_UNSIGNED VPI_SWIZZLE_XYZ1 VPI_PACKING_X8_Y8__X8_Z8

/-- Embeds `VPI_IMAGE_FORMAT_YUYV_BL = VPI_DETAIL_MAKE_YCbCr_FMT(BT601, 422, BL, UNSIGNED, XYZ1, 1, X8_Y8__X8_Z8)`. -/
def VPI_IMAGE_FORMAT_YUYV_BL : Int :=
  VPI_DETAIL_MAKE_YCbCr_FMT_1 VPI_COLOR_SPEC_BT601 VPI_CSS_422 VPI_MEM_LAYOUT_BL
    VPI_DATA_TYPE_UNSIGNED VPI_SWIZZLE_XYZ1 VPI_PACKING_X8_Y8__X8_Z8

/-- Embeds `VPI_IMAGE_FORMAT_YUYV_ER = VPI_DETAIL_MAKE_YCbCr_FMT(BT601_ER, 422, PL, UNSIGNED, XYZ1, 1, X8_Y8__X8_Z8)`. -/
def VPI_IMAGE_FORMAT_YUYV_ER : Int :=
  VPI_DETAIL_MAKE_YCbCr_FMT_1 VPI_COLOR_SPEC_BT601_ER VPI_CSS_422 VPI_MEM_LAYOUT_PL
    VPI_DATA_TYPE_UNSIGNED VPI_SWIZZLE_XYZ1 VPI_PACKING_X8_Y8__X8_Z8

/-- Embeds `VPI_IMAGE_FORMAT_YUYV_ER_BL = VPI_DETAIL_MAKE_YCbCr_FMT(BT601_ER, 422, BL, UNSIGNED, XYZ1, 1, X8_Y8__X8_Z8)`. -/
def VPI_IMAGE_FORMAT_YUYV_ER_BL : Int :=
  VPI_DETAIL_MAKE_YCbCr_FMT_1 VPI_COLOR_SPEC_BT601_ER VPI_CSS_422 VPI_MEM_LAYOUT_BL
    VPI_DATA_TYPE_UNSIGNED VPI_SWIZZLE_XYZ1 VPI_PACKING_X8_Y8__X8_Z8

/-- Embeds `VPI_IMAGE_FORMAT_RGB8 = VPI_DETAIL_MAKE_COLOR_FMT(RGB, UNDEFINED, PL, UNSIGNED, XYZ1, 1, X8_Y8_Z8)`. -/
def VPI_IMAGE_FORMAT_RGB8 : Int :=
  VPI_DETAIL_MAKE_COLOR_FMT_1 VPI_COLOR_MODEL_RGB VPI_COLOR_SPEC_UNDEFINED VPI_MEM_LAYOUT_PL
    VPI_DATA_TYPE_UNSIGNED VPI_SWIZZLE_XYZ1 VPI_PACKING_X8_Y8_Z8

/-- Embeds `VPI_IMAGE_FORMAT_BGR8 = VPI_DETAIL_MAKE_COLOR_FMT(RGB, UNDEFINED, PL, UNSIGNED, ZYX1, 1, X8_Y8_Z8)`. -/
def VPI_IMAGE_FORMAT_BGR8 : Int :=
  VPI_DETAIL_MAKE_COLOR_FMT_1 VPI_COLOR_MODEL_RGB VPI_COLOR_SPEC_UNDEFINED VPI_MEM_LAYOUT_PL
    VPI_DATA_TYPE_UNSIGNED VPI_SWIZZLE_ZYX1 VPI_PACKING_X8_Y8_Z8

/-- Embeds `VPI_IMAGE_FORMAT_RGBA8 = VPI_DETAIL_MAKE_COLOR_FMT(RGB, UNDEFINED, PL, UNSIGNED, XYZW, 1, X8_Y8_Z8_W8)`. -/
def VPI_IMAGE_FORMAT_RGBA8 : Int :=
  VPI_DETAIL_MAKE_COLOR_FMT_1 VPI_COLOR_MODEL_RGB VPI_COLOR_SPEC_UNDEFINED VPI_MEM_LAYOUT_PL
    VPI_DATA_TYPE_UNSIGNED VPI_SWIZZLE_XYZW VPI_PACKING_X8_Y8_Z8_W8

/-- Embeds `VPI_IMAGE_FORMAT_BGRA8 = VPI_DETAIL_MAKE_COLOR_FMT(RGB, UNDEFINED, PL, UNSIGNED, ZYXW, 1, X8_Y8_Z8_W8)`. -/
def VPI_IMAGE_FORMAT_BGRA8 : Int :=
  VPI_DETAIL_MAKE_COLOR_FMT_1 VPI_COLOR_MODEL_RGB VPI_COLOR_SPEC_UNDEFINED VPI_MEM_LAYOUT_PL
    VPI_DATA_TYPE_UNSIGNED VPI_SWIZZLE_ZYXW VPI_PACKING_X8_Y8_Z8_W8

/-- Embeds `VPI_IMAGE_FORMAT_FORCE64 = INT64_MAX`. -/
def VPI_IMAGE_FORMAT_FORCE64 : Int := INT64_MAX

/-! ## Vocabulary of the statements -/

/-- Arithmetic form of `colorModelBits`, as a 19-bit number to be placed at bit 16. -/
def colorModelField (ColorModel ColorSpecOrRawPattern Subsampling : Int) : Nat :=
  if ColorModel = 1 then toU64 Subsampling % 8 * 2 + toU64 ColorSpecOrRawPattern % 2 ^ 15 * 16
  else if ColorModel = 0 then 2 ^ 19 - 1
  else if ColorModel - 2 < 7 then
    1 + toU64 (ColorModel - 2) % 8 * 2 + toU64 ColorSpecOrRawPattern % 2 ^ 15 * 16
  else if ColorModel = 9 then 15 + toU64 ColorSpecOrRawPattern % 64 * 32
  else 31 + toU64 (ColorModel - 10) % 64 * 32

/-- Two `int64_t` values, viewed as 64-bit patterns, agree on every bit outside the
positions `lo`, ..., `hi - 1`. -/
def sameOutside (lo hi : Nat) (a b : Int) : Prop :=
  ∀ i : Nat, i < 64 → (i < lo ∨ hi ≤ i) → (toU64 a).testBit i = (toU64 b).testBit i

instance (lo hi : Nat) (a b : Int) : Decidable (sameOutside lo hi a b) := by
  unfold sameOutside
  infer_instance

/-- The bit widths named by the packing round trip. -/
def supportedBpp : List Int := [1, 2, 4, 8, 16, 24, 32, 48, 64, 96, 128, 192, 256]

/-- Modelled from the spec: the decoder of the bits-per-pixel of a packing
(`vpiPackingGetBitsPerPixel` is declared in `DataLayout.h` without a body). It reads the
code in bits 6..9 (1..9 for 16..256 bits) and, when that code is 0, the sub-code in
bits 0..3 (1, 2, 3, 4 for 1, 2, 4, 8 bits). -/
def decodeBpp (code sub : Nat) : Option Int :=
  match code with
  | 0 =>
    match sub with
    | 1 => some 1
    | 2 => some 2
    | 3 => some 4
    | 4 => some 8
    | _ => none
  | 1 => some 16
  | 2 => some 24
  | 3 => some 32
  | 4 => some 48
  | 5 => some 64
  | 6 => some 96
  | 7 => some 128
  | 8 => some 192
  | 9 => some 256
  | _ => none

/-- Modelled from the spec: the channel count of a swizzle (`vpiSwizzleGetChannelCount` is
declared in `DataLayout.h` without a body). It is the number of source channels X, Y, Z, W
that the four 3-bit selectors of the swizzle select; the constants 0 and 1 are no
channels, so that XYZ1 has 3 channels and XYZW has 4, as the documentation of
`vpiImageFormatSetSwizzleAndPacking` says. -/
def swizzleChannelCount (swizzle : Int) : Nat :=
  (([1, 2, 3, 4] : List Nat).filter fun c =>
    c ∈ [VPI_DETAIL_GET_BITFIELD swizzle 0 3, VPI_DETAIL_GET_BITFIELD swizzle 3 3,
      VPI_DETAIL_GET_BITFIELD swizzle 6 3, VPI_DETAIL_GET_BITFIELD swizzle 9 3]).length

/-- Modelled from the spec: the channel count of a plane packing
(`vpiPackingGetComponentCount` is declared in `DataLayout.h` without a body):
`VPI_PACKING_0` has no channels, every other packing has
`VPI_DETAIL_EXTRACT_PACKING_CHANNELS` channels. -/
def packingChannelCount (packing : Int) : Nat :=
  if packing = VPI_PACKING_0 then 0 else VPI_DETAIL_EXTRACT_PACKING_CHANNELS packing

/-- The predefined packings of more than 64 bits per pixel (96, 128, 192 and 256). -/
def widePackings : List Int :=
  [VPI_PACKING_X96, VPI_PACKING_X32_Y32_Z32, VPI_PACKING_X128, VPI_PACKING_X64_Y64,
   VPI_PACKING_X32_Y32_Z32_W32, VPI_PACKING_X192, VPI_PACKING_X64_Y64_Z64, VPI_PACKING_X256,
   VPI_PACKING_X64_Y64_Z64_W64]

/-- The format of the end-to-end scenario: colour model RGB, `VPI_COLOR_SPEC_BT709_ER`, pitch
linear, unsigned, swizzle XYZ1, one plane of packing X8_Y8_Z8, built as
`VPI_DETAIL_MAKE_COLOR_FMT` builds `VPI_IMAGE_FORMAT_RGB8`. -/
def scenarioFormat : Int :=
  VPI_DETAIL_MAKE_COLOR_FMT_1 VPI_COLOR_MODEL_RGB VPI_COLOR_SPEC_BT709_ER VPI_MEM_LAYOUT_PL
    VPI_DATA_TYPE_UNSIGNED VPI_SWIZZLE_XYZ1 VPI_PACKING_X8_Y8_Z8

/-- The argument tuple of `VPI_DETAIL_MAKE_FMT_HELPER`. -/
structure FormatArgs where
  /-- Argument `ColorModel`. -/
  ColorModel : Int
  /-- Argument `ColorSpecOrRawPattern`. -/
  ColorSpecOrRawPattern : Int
  /-- Argument `Subsampling`. -/
  Subsampling : Int
  /-- Argument `MemLayout`. -/
  MemLayout : Int
  /-- Argument `DataType`. -/
  DataType : Int
  /-- Argument `Swizzle`. -/
  Swizzle : Int
  /-- Argument `Packing0`. -/
  Packing0 : Int
  /-- Argument `Packing1`. -/
  Packing1 : Int
  /-- Argument `Packing2`. -/
  Packing2 : Int
  /-- Argument `Packing3`. -/
  Packing3 : Int
  deriving DecidableEq

/-- The value `VPI_DETAIL_MAKE_FMT_HELPER` gives to an argument tuple. -/
def FormatArgs.encode (a : FormatArgs) : Int :=
  VPI_DETAIL_MAKE_FMT_HELPER a.ColorModel a.ColorSpecOrRawPattern a.Subsampling a.MemLayout
    a.DataType a.Swizzle a.Packing0 a.Packing1 a.Packing2 a.Packing3

/-- A valid description: colour model UNDEFINED, YCbCr, RGB, RAW or XYZ; a predefined colour
spec for YCbCr and RGB, a raw pattern 0..13 for RAW, `VPI_COLOR_SPEC_UNDEFINED` otherwise;
chroma subsampling 0..5 for YCbCr and `VPI_CSS_NONE` otherwise; memory layout 1..7; data
type 1..4; a swizzle built from four channel selectors in 0..5; predefined plane packings,
absent planes only trailing, fourth plane with bpp code at most 5 (64 bits per pixel);
swizzle channel count equal to the sum of the plane channel counts. -/
def validArgs (a : FormatArgs) : Prop :=
  a.ColorModel ∈ [VPI_COLOR_MODEL_UNDEFINED, VPI_COLOR_MODEL_YCbCr, VPI_COLOR_MODEL_RGB,
    VPI_COLOR_MODEL_RAW, VPI_COLOR_MODEL_XYZ] ∧
  (if a.ColorModel = VPI_COLOR_MODEL_YCbCr ∨ a.ColorModel = VPI_COLOR_MODEL_RGB then
      a.ColorSpecOrRawPattern ∈ predefinedColorSpecs
    else if a.ColorModel = VPI_COLOR_MODEL_RAW then
      0 ≤ a.ColorSpecOrRawPattern ∧ a.ColorSpecOrRawPattern ≤ 13
    else a.ColorSpecOrRawPattern = VPI_COLOR_SPEC_UNDEFINED) ∧
  (if a.ColorModel = VPI_COLOR_MODEL_YCbCr then 0 ≤ a.Subsampling ∧ a.Subsampling ≤ 5
    else a.Subsampling = VPI_CSS_NONE) ∧
  (1 ≤ a.MemLayout ∧ a.MemLayout ≤ 7) ∧
  (1 ≤ a.DataType ∧ a.DataType ≤ 4) ∧
  (a.Swizzle = VPI_DETAIL_MAKE_SWIZZLE (VPI_DETAIL_GET_BITFIELD a.Swizzle 0 3)
      (VPI_DETAIL_GET_BITFIELD a.Swizzle 3 3) (VPI_DETAIL_GET_BITFIELD a.Swizzle 6 3)
      (VPI_DETAIL_GET_BITFIELD a.Swizzle 9 3) ∧
    VPI_DETAIL_GET_BITFIELD a.Swizzle 0 3 ≤ 5 ∧ VPI_DETAIL_GET_BITFIELD a.Swizzle 3 3 ≤ 5 ∧
    VPI_DETAIL_GET_BITFIELD a.Swizzle 6 3 ≤ 5 ∧ VPI_DETAIL_GET_BITFIELD a.Swizzle 9 3 ≤ 5) ∧
  (a.Packing0 ∈ predefinedPackings ∧ a.Packing1 ∈ predefinedPackings ∧
    a.Packing2 ∈ predefinedPackings ∧ a.Packing3 ∈ predefinedPackings) ∧
  ((a.Packing0 = VPI_PACKING_0 → a.Packing1 = VPI_PACKING_0) ∧
    (a.Packing1 = VPI_PACKING_0 → a.Packing2 = VPI_PACKING_0) ∧
    (a.Packing2 = VPI_PACKING_0 → a.Packing3 = VPI_PACKING_0)) ∧
  VPI_DETAIL_GET_BITFIELD a.Packing3 6 4 ≤ 5 ∧
  swizzleChannelCount a.Swizzle =
    packingChannelCount a.Packing0 + packingChannelCount a.Packing1
      + packingChannelCount a.Packing2 + packingChannelCount a.Packing3

instance (a : FormatArgs) : Decidable (validArgs a) := by
  unfold validArgs
  infer_instance

/-- A packing that the 7-bit field of plane 1 or 2 stores without loss among the predefined
packings: at most two channels (the field keeps one bit of the channel count) and a bpp
code of at most 7, that is at most 128 bits per pixel (the field keeps three bits). -/
def fitsPlane12 (packing : Int) : Prop :=
  VPI_DETAIL_GET_BITFIELD packing 4 2 ≤ 1 ∧ VPI_DETAIL_GET_BITFIELD packing 6 4 ≤ 7

instance (packing : Int) : Decidable (fitsPlane12 packing) := by
  unfold fitsPlane12
  infer_instance

/-- One packing for each value the 3-bit field of plane 3 can hold for a plane of at most 64
bits per pixel: absent, and the one-channel packings of 8, 16, 24, 32, 48, 64 bits. -/
def wholeWordPackings : List Int :=
  [VPI_PACKING_0, VPI_PACKING_X8, VPI_PACKING_X16, VPI_PACKING_X24, VPI_PACKING_X32,
   VPI_PACKING_X48, VPI_PACKING_X64]

/-- A valid description with four one-channel planes, the fourth of packing X16. -/
def collidingArgsX16 : FormatArgs :=
  ⟨VPI_COLOR_MODEL_UNDEFINED, VPI_COLOR_SPEC_UNDEFINED, VPI_CSS_NONE, VPI_MEM_LAYOUT_PL,
    VPI_DATA_TYPE_UNSIGNED, VPI_SWIZZLE_XYZW, VPI_PACKING_X8, VPI_PACKING_X8, VPI_PACKING_X8,
    VPI_PACKING_X16⟩

/-- The same description with the fourth plane of packing b6X10. -/
def collidingArgsB6X10 : FormatArgs :=
  ⟨VPI_COLOR_MODEL_UNDEFINED, VPI_COLOR_SPEC_UNDEFINED, VPI_CSS_NONE, VPI_MEM_LAYOUT_PL,
    VPI_DATA_TYPE_UNSIGNED, VPI_SWIZZLE_XYZW, VPI_PACKING_X8, VPI_PACKING_X8, VPI_PACKING_X8,
    VPI_PACKING_b6X10⟩

/-- A valid description with two planes X8 and X256 (both one channel). -/
def collidingArgsX256 : FormatArgs :=
  ⟨VPI_COLOR_MODEL_UNDEFINED, VPI_COLOR_SPEC_UNDEFINED, VPI_CSS_NONE, VPI_MEM_LAYOUT_PL,
    VPI_DATA_TYPE_UNSIGNED, VPI_SWIZZLE_XY00, VPI_PACKING_X8, VPI_PACKING_X256, VPI_PACKING_0,
    VPI_PACKING_0⟩

/-- The same description with the second plane of packing X16. -/
def collidingArgsPlane1X16 : FormatArgs :=
  ⟨VPI_COLOR_MODEL_UNDEFINED, VPI_COLOR_SPEC_UNDEFINED, VPI_CSS_NONE, VPI_MEM_LAYOUT_PL,
    VPI_DATA_TYPE_UNSIGNED, VPI_SWIZZLE_XY00, VPI_PACKING_X8, VPI_PACKING_X16, VPI_PACKING_0,
    VPI_PACKING_0⟩

/-- A valid description with four one-channel planes X8, X8, X192, X1. -/
def collidingArgsFourPlanes : FormatArgs :=
  ⟨VPI_COLOR_MODEL_UNDEFINED, VPI_COLOR_SPEC_UNDEFINED, VPI_CSS_NONE, VPI_MEM_LAYOUT_PL,
    VPI_DATA_TYPE_UNSIGNED, VPI_SWIZZLE_XYZW, VPI_PACKING_X8, VPI_PACKING_X8, VPI_PACKING_X192,
    VPI_PACKING_X1⟩

/-- A valid description with two planes X8 (one channel) and X3Y3Z2 (three channels). -/
def collidingArgsTwoPlanes : FormatArgs :=
  ⟨VPI_COLOR_MODEL_UNDEFINED, VPI_COLOR_SPEC_UNDEFINED, VPI_CSS_NONE, VPI_MEM_LAYOUT_PL,
    VPI_DATA_TYPE_UNSIGNED, VPI_SWIZZLE_XYZW, VPI_PACKING_X8, VPI_PACKING_X3Y3Z2,
    VPI_PACKING_0, VPI_PACKING_0⟩

/-- Modelled from the spec: the bits per pixel of a packing (`vpiPackingGetBitsPerPixel` is
declared in `DataLayout.h` without a body): 0 for `VPI_PACKING_0`, and for every other
packing the width that `decodeBpp` reads from its bpp code and sub-code. -/
def packingBitsPerPixel (packing : Int) : Option Int :=
  if packing = VPI_PACKING_0 then some 0
  else decodeBpp (VPI_DETAIL_GET_BITFIELD packing 6 4) (VPI_DETAIL_GET_BITFIELD packing 0 4)

/-- Modelled from the spec: the decoder of the colour model (`vpiImageFormatGetColorModel` is
declared in `ImageFormat.h` without a body). It reads bits 16..34 in priority order:
UNDEFINED if they are all ones, else YCbCr if bit 16 is 0, else 2 + bits 17..19 if those
are below 7, else RAW if bit 20 is 0, else 10 + bits 21..26. -/
def decodeColorModel (fmt : Int) : Int :=
  if VPI_DETAIL_GET_BITFIELD fmt 16 19 = 2 ^ 19 - 1 then VPI_COLOR_MODEL_UNDEFINED
  else if VPI_DETAIL_GET_BITFIELD fmt 16 1 = 0 then VPI_COLOR_MODEL_YCbCr
  else if VPI_DETAIL_GET_BITFIELD fmt 17 3 < 7 then 2 + (VPI_DETAIL_GET_BITFIELD fmt 17 3 : Int)
  else if VPI_DETAIL_GET_BITFIELD fmt 20 1 = 0 then VPI_COLOR_MODEL_RAW
  else 10 + (VPI_DETAIL_GET_BITFIELD fmt 21 6 : Int)

/-- The enumerators of `VPIImageFormat` between `VPI_IMAGE_FORMAT_INVALID` and
`VPI_IMAGE_FORMAT_FORCE64`, in source order. -/
def predefinedImageFormats : List Int :=
  [VPI_IMAGE_FORMAT_U8, VPI_IMAGE_FORMAT_S8, VPI_IMAGE_FORMAT_U16, VPI_IMAGE_FORMAT_S16,
   VPI_IMAGE_FORMAT_F32, VPI_IMAGE_FORMAT_F64, VPI_IMAGE_FORMAT_2F32, VPI_IMAGE_FORMAT_NV12,
   VPI_IMAGE_FORMAT_NV12_BL, VPI_IMAGE_FORMAT_NV12_ER, VPI_IMAGE_FORMAT_NV12_ER_BL,
   VPI_IMAGE_FORMAT_UYVY, VPI_IMAGE_FORMAT_UYVY_BL, VPI_IMAGE_FORMAT_UYVY_ER,
   VPI_IMAGE_FORMAT_UYVY_ER_BL, VPI_IMAGE_FORMAT_YUYV, VPI_IMAGE_FORMAT_YUYV_BL,
   VPI_IMAGE_FORMAT_YUYV_ER, VPI_IMAGE_FORMAT_YUYV_ER_BL, VPI_IMAGE_FORMAT_RGB8,
   VPI_IMAGE_FORMAT_BGR8, VPI_IMAGE_FORMAT_RGBA8, VPI_IMAGE_FORMAT_BGRA8]

/-- The argument tuple of a format without colour model, as `VPI_DETAIL_MAKE_NONCOLOR_FMT`
with one plane passes it on. -/
def noncolorArgs (MemLayout DataType Swizzle Packing0 : Int) : FormatArgs :=
  ⟨VPI_COLOR_MODEL_UNDEFINED, VPI_COLOR_SPEC_UNDEFINED, VPI_CSS_NONE, MemLayout, DataType,
    Swizzle, Packing0, VPI_PACKING_0, VPI_PACKING_0, VPI_PACKING_0⟩

/-- The argument tuple of a YCbCr format, as `VPI_DETAIL_MAKE_YCbCr_FMT` with one or two
planes passes it on. -/
def ycbcrArgs (ColorSpec ChromaSubsamp MemLayout DataType Swizzle Packing0 Packing1 : Int) :
    FormatArgs :=
  ⟨VPI_COLOR_MODEL_YCbCr, ColorSpec, ChromaSubsamp, MemLayout, DataType, Swizzle, Packing0,
    Packing1, VPI_PACKING_0, VPI_PACKING_0⟩

/-- The argument tuple of an RGB format, as `VPI_DETAIL_MAKE_COLOR_FMT` with one plane
passes it on. -/
def rgbArgs (ColorSpec MemLayout DataType Swizzle Packing0 : Int) : FormatArgs :=
  ⟨VPI_COLOR_MODEL_RGB, ColorSpec, VPI_CSS_NONE, MemLayout, DataType, Swizzle, Packing0,
    VPI_PACKING_0, VPI_PACKING_0, VPI_PACKING_0⟩

/-- The argument tuples of the predefined image formats, in the order of
`predefinedImageFormats`. -/
def predefinedFormatArgs : List FormatArgs :=
  [noncolorArgs VPI_MEM_LAYOUT_PL VPI_DATA_TYPE_UNSIGNED VPI_SWIZZLE_X000 VPI_PACKING_X8,
   noncolorArgs VPI_MEM_LAYOUT_PL VPI_DATA_TYPE_SIGNED VPI_SWIZZLE_X000 VPI_PACKING_X8,
   noncolorArgs VPI_MEM_LAYOUT_PL VPI_DATA_TYPE_UNSIGNED VPI_SWIZZLE_X000 VPI_PACKING_X16,
   noncolorArgs VPI_MEM_LAYOUT_PL VPI_DATA_TYPE_SIGNED VPI_SWIZZLE_X000 VPI_PACKING_X16,
   noncolorArgs VPI_MEM_LAYOUT_PL VPI_DATA_TYPE_FLOAT VPI_SWIZZLE_X000 VPI_PACKING_X32,
   noncolorArgs VPI_MEM_LAYOUT_PL VPI_DATA_TYPE_FLOAT VPI_SWIZZLE_X000 VPI_PACKING_X64,
   noncolorArgs VPI_MEM_LAYOUT_PL VPI_DATA_TYPE_FLOAT VPI_SWIZZLE_XY00 VPI_PACKING_X32_Y32,
   ycbcrArgs VPI_COLOR_SPEC_BT601 VPI_CSS_420 VPI_MEM_LAYOUT_PL VPI_DATA_TYPE_UNSIGNED
     VPI_SWIZZLE_XYZ0 VPI_PACKING_X8 VPI_PACKING_X8_Y8,
   ycbcrArgs VPI_COLOR_SPEC_BT601 VPI_CSS_420 VPI_MEM_LAYOUT_BL VPI_DATA_TYPE_UNSIGNED
     VPI_SWIZZLE_XYZ0 VPI_PACKING_X8 VPI_PACKING_X8_Y8,
   ycbcrArgs VPI_COLOR_SPEC_BT601_ER VPI_CSS_420 VPI_MEM_LAYOUT_PL VPI_DATA_TYPE_UNSIGNED
     VPI_SWIZZLE_XYZ0 VPI_PACKING_X8 VPI_PACKING_X8_Y8,
   ycbcrArgs VPI_COLOR_SPEC_BT601_ER VPI_CSS_420 VPI_MEM_LAYOUT_BL VPI_DATA_TYPE_UNSIGNED
     VPI_SWIZZLE_XYZ0 VPI_PACKING_X8 VPI_PACKING_X8_Y8,
   ycbcrArgs VPI_COLOR_SPEC_BT601 VPI_CSS_422 VPI_MEM_LAYOUT_PL VPI_DATA_TYPE_UNSIGNED
     VPI_SWIZZLE_XYZ1 VPI_PACKING_Y8_X8__Z8_X8 VPI_PACKING_0,
   ycbcrArgs VPI_COLOR_SPEC_BT601 VPI_CSS_422 VPI_MEM_LAYOUT_BL VPI_DATA_TYPE_UNSIGNED
     VPI_SWIZZLE_XYZ1 VPI_PACKING_Y8_X8__Z8_X8 VPI_PACKING_0,
   ycbcrArgs VPI_COLOR_SPEC_BT601_ER VPI_CSS_422 VPI_MEM_LAYOUT_PL VPI_DATA_TYPE_UNSIGNED
     VPI_SWIZZLE_XYZ1 VPI_PACKING_Y8_X8__Z8_X8 VPI_PACKING_0,
   ycbcrArgs VPI_COLOR_SPEC_BT601_ER VPI_CSS_422 VPI_MEM_LAYOUT_BL VPI_DATA_TYPE_UNSIGNED
     VPI_SWIZZLE_XYZ1 VPI_PACKING_Y8_X8__Z8_X8 VPI_PACKING_0,
   ycbcrArgs VPI_COLOR_SPEC_BT601 VPI_CSS_422 VPI_MEM_LAYOUT_PL VPI_DATA_TYPE_UNSIGNED
     VPI_SWIZZLE_XYZ1 VPI_PACKING_X8_Y8__X8_Z8 VPI_PACKING_0,
   ycbcrArgs VPI_COLOR_SPEC_BT601 VPI_CSS_422 VPI_MEM_LAYOUT_BL VPI_DATA_TYPE_UNSIGNED
     VPI_SWIZZLE_XYZ1 VPI_PACKING_X8_Y8__X8_Z8 VPI_PACKING_0,
   ycbcrArgs VPI_COLOR_SPEC_BT601_ER VPI_CSS_422 VPI_MEM_LAYOUT_PL VPI_DATA_TYPE_UNSIGNED
     VPI_SWIZZLE_XYZ1 VPI_PACKING_X8_Y8__X8_Z8 VPI_PACKING_0,
   ycbcrArgs VPI_COLOR_SPEC_BT601_ER VPI_CSS_422 VPI_MEM_LAYOUT_BL VPI_DATA_TYPE_UNSIGNED
     VPI_SWIZZLE_XYZ1 VPI_PACKING_X8_Y8__X8_Z8 VPI_PACKING_0,
   rgbArgs VPI_COLOR_SPEC_UNDEFINED VPI_MEM_LAYOUT_PL VPI_DATA_TYPE_UNSIGNED VPI_SWIZZLE_XYZ1
     VPI_PACKING_X8_Y8_Z8,
   rgbArgs VPI_COLOR_SPEC_UNDEFINED VPI_MEM_LAYOUT_PL VPI_DATA_TYPE_UNSIGNED VPI_SWIZZLE_ZYX1
     VPI_PACKING_X8_Y8_Z8,
   rgbArgs VPI_COLOR_SPEC_UNDEFINED VPI_MEM_LAYOUT_PL VPI_DATA_TYPE_UNSIGNED VPI_SWIZZLE_XYZW
     VPI_PACKING_X8_Y8_Z8_W8,
   rgbArgs VPI_COLOR_SPEC_UNDEFINED VPI_MEM_LAYOUT_PL VPI_DATA_TYPE_UNSIGNED VPI_SWIZZLE_ZYXW
     VPI_PACKING_X8_Y8_Z8_W8]

/-- The two packings that hold two pixels of a packed 4:2:2 format in four 8-bit words. -/
def twoPixelPackings : List Int := [VPI_PACKING_X8_Y8__X8_Z8, VPI_PACKING_Y8_X8__Z8_X8]

/-! ## `Version.h` -/

/-- Embeds `NV_VPI_VERSION`, the integer version of the library. -/
def NV_VPI_VERSION : Int := 1001200

/-- Reduction of a mathematical integer to the range of the C type `int` (32 bits, two's
complement): the value that `int` arithmetic leaves when a result does not fit. -/
def wrapI32 (value : Int) : Int := (value + 2 ^ 31) % 2 ^ 32 - 2 ^ 31

/-- Embeds `NV_VPI_MAKE_VERSION(MAJOR, MINOR, PATCH)`:
`((MAJOR)*1000000 + (MINOR)*10000 + (PATCH)*100)`, in `int` arithmetic: every product and
every sum is reduced to 32 bits. -/
def NV_VPI_MAKE_VERSION (MAJOR MINOR PATCH : Int) : Int :=
  wrapI32 (wrapI32 (wrapI32 (MAJOR * 1000000) + wrapI32 (MINOR * 10000))
    + wrapI32 (PATCH * 100))

/-- Embeds `NV_VPI_VERSION_MAJOR`. -/
def NV_VPI_VERSION_MAJOR : Int := 1
/-- Embeds `NV_VPI_VERSION_MINOR`. -/
def NV_VPI_VERSION_MINOR : Int := 0
/-- Embeds `NV_VPI_VERSION_PATCH`. -/
def NV_VPI_VERSION_PATCH : Int := 12
/-- Embeds `NV_VPI_VERSION_TWEAK`. -/
def NV_VPI_VERSION_TWEAK : Int := 0

/-! ## `PixelType.h` -/

/-- Embeds `VPI_DETAIL_MAKE_PIXEL_TYPE(MemLayout, DataType, Packing)` of
`detail/FormatUtils.h`: a format without colour model, of one plane, whose swizzle is
derived from the channel count of the packing. -/
def VPI_DETAIL_MAKE_PIXEL_TYPE (MemLayout DataType Packing : Int) : Int :=
  VPI_DETAIL_MAKE_FMT_HELPER VPI_COLOR_MODEL_UNDEFINED VPI_COLOR_SPEC_UNDEFINED VPI_CSS_NONE
    MemLayout DataType
    (VPI_DETAIL_MAKE_SWIZZLE VPI_CHANNEL_X
      (if VPI_DETAIL_EXTRACT_PACKING_CHANNELS Packing ≥ 2 then VPI_CHANNEL_Y else 0)
      (if VPI_DETAIL_EXTRACT_PACKING_CHANNELS Packing ≥ 3 then VPI_CHANNEL_Z else 0)
      (if VPI_DETAIL_EXTRACT_PACKING_CHANNELS Packing ≥ 4 then VPI_CHANNEL_W else 0))
    Packing 0 0 0

/-- Embeds `VPI_PIXEL_TYPE_DEFAULT = 0`. -/
def VPI_PIXEL_TYPE_DEFAULT : Int := 0
/-- Embeds `VPI_PIXEL_TYPE_INVALID = VPI_PIXEL_TYPE_DEFAULT`. -/
def VPI_PIXEL_TYPE_INVALID : Int := VPI_PIXEL_TYPE_DEFAULT

/-- Embeds `VPI_PIXEL_TYPE_U8 = VPI_DETAIL_MAKE_PIXEL_FMT(PL, UNSIGNED, X8)`. -/
def VPI_PIXEL_TYPE_U8 : Int :=
  VPI_DETAIL_MAKE_PIXEL_TYPE VPI_MEM_LAYOUT_PL VPI_DATA_TYPE_UNSIGNED VPI_PACKING_X8
/-- Embeds `VPI_PIXEL_TYPE_S8 = VPI_DETAIL_MAKE_PIXEL_FMT(PL, SIGNED, X8)`. -/
def VPI_PIXEL_TYPE_S8 : Int :=
  VPI_DETAIL_MAKE_PIXEL_TYPE VPI_MEM_LAYOUT_PL VPI_DATA_TYPE_SIGNED VPI_PACKING_X8
/-- Embeds `VPI_PIXEL_TYPE_U16 = VPI_DETAIL_MAKE_PIXEL_FMT(PL, UNSIGNED, X16)`. -/
def VPI_PIXEL_TYPE_U16 : Int :=
  VPI_DETAIL_MAKE_PIXEL_TYPE VPI_MEM_LAYOUT_PL VPI_DATA_TYPE_UNSIGNED VPI_PACKING_X16
/-- Embeds `VPI_PIXEL_TYPE_S16 = VPI_DETAIL_MAKE_PIXEL_FMT(PL, SIGNED, X16)`. -/
def VPI_PIXEL_TYPE_S16 : Int :=
  VPI_DETAIL_MAKE_PIXEL_TYPE VPI_MEM_LAYOUT_PL VPI_DATA_TYPE_SIGNED VPI_PACKING_X16
/-- Embeds `VPI_PIXEL_TYPE_F32 = VPI_DETAIL_MAKE_PIXEL_FMT(PL, FLOAT, X32)`. -/
def VPI_PIXEL_TYPE_F32 : Int :=
  VPI_DETAIL_MAKE_PIXEL_TYPE VPI_MEM_LAYOUT_PL VPI_DATA_TYPE_FLOAT VPI_PACKING_X32
/-- Embeds `VPI_PIXEL_TYPE_2F32 = VPI_DETAIL_MAKE_PIXEL_FMT(PL, FLOAT, X32_Y32)`. -/
def VPI_PIXEL_TYPE_2F32 : Int :=
  VPI_DETAIL_MAKE_PIXEL_TYPE VPI_MEM_LAYOUT_PL VPI_DATA_TYPE_FLOAT VPI_PACKING_X32_Y32
/-- Embeds `VPI_PIXEL_TYPE_F64 = VPI_DETAIL_MAKE_PIXEL_FMT(PL, FLOAT, X64)`. -/
def VPI_PIXEL_TYPE_F64 : Int :=
  VPI_DETAIL_MAKE_PIXEL_TYPE VPI_MEM_LAYOUT_PL VPI_DATA_TYPE_FLOAT VPI_PACKING_X64

/-! ## `detail/OpenCVUtils.hpp` -/

/-- Depth code `CV_8U` of OpenCV (`opencv2/core/hal/interface.h`; the OpenCV headers are
not part of the repository). -/
def CV_8U : Int := 0
/-- Depth code `CV_8S` of OpenCV. -/
def CV_8S : Int := 1
/-- Depth code `CV_16U` of OpenCV. -/
def CV_16U : Int := 2
/-- Depth code `CV_16S` of OpenCV. -/
def CV_16S : Int := 3
/-- Depth code `CV_32S` of OpenCV. -/
def CV_32S : Int := 4
/-- Depth code `CV_32F` of OpenCV. -/
def CV_32F : Int := 5
/-- Depth code `CV_64F` of OpenCV. -/
def CV_64F : Int := 6

/-- OpenCV's `CV_MAT_DEPTH(flags)`, `((flags) & CV_MAT_DEPTH_MASK)` with the mask
`(1 << 3) - 1`: the depth code in the low three bits of a matrix type. -/
def CV_MAT_DEPTH (flags : Int) : Int := andInt flags 7

/-- OpenCV's `CV_MAT_CN(flags)`, `((((flags) & CV_MAT_CN_MASK) >> CV_CN_SHIFT) + 1)` with
`CV_CN_SHIFT = 3` and `CV_MAT_CN_MASK = ((512 - 1) << 3)`: the channel count, 1..512. -/
def CV_MAT_CN (flags : Int) : Int := andInt flags ((512 - 1) * 8) / 8 + 1

/-- OpenCV's `CV_MAKETYPE(depth, cn)`, `(CV_MAT_DEPTH(depth) + (((cn)-1) << CV_CN_SHIFT))`. -/
def CV_MAKETYPE (depth cn : Int) : Int := CV_MAT_DEPTH depth + (cn - 1) * 8

/-- The two nested `switch` statements of `ToImageFormatFromOpenCVType`, on the depth
`CV_MAT_DEPTH(cvType)` and on the channel count `CV_MAT_CN(cvType)`. The variable
`imgFormat` starts as `VPI_IMAGE_FORMAT_INVALID` and no `switch` has a `default`. -/
def imgFormatOfDepthAndChannels (depth cn : Int) : Int :=
  if depth = CV_8U then
    if cn = 1 then VPI_IMAGE_FORMAT_U8
    else if cn = 2 then
      VPI_DETAIL_MAKE_NONCOLOR_FMT_1 VPI_MEM_LAYOUT_PL VPI_DATA_TYPE_UNSIGNED VPI_SWIZZLE_XY00
        VPI_PACKING_X8_Y8
    else if cn = 3 then VPI_IMAGE_FORMAT_BGR8
    else if cn = 4 then VPI_IMAGE_FORMAT_BGRA8
    else VPI_IMAGE_FORMAT_INVALID
  else if depth = CV_8S then
    if cn = 1 then VPI_IMAGE_FORMAT_S8
    else if cn = 2 then
      VPI_DETAIL_MAKE_NONCOLOR_FMT_1 VPI_MEM_LAYOUT_PL VPI_DATA_TYPE_SIGNED VPI_SWIZZLE_XY00
        VPI_PACKING_X8_Y8
    else if cn = 3 then
      VPI_DETAIL_MAKE_NONCOLOR_FMT_1 VPI_MEM_LAYOUT_PL VPI_DATA_TYPE_SIGNED VPI_SWIZZLE_XYZ0
        VPI_PACKING_X8_Y8_Z8
    else if cn = 4 then
      VPI_DETAIL_MAKE_NONCOLOR_FMT_1 VPI_MEM_LAYOUT_PL VPI_DATA_TYPE_SIGNED VPI_SWIZZLE_XYZW
        VPI_PACKING_X8_Y8_Z8_W8
    else VPI_IMAGE_FORMAT_INVALID
  else if depth = CV_16U then
    if cn = 1 then VPI_IMAGE_FORMAT_U16
    else if cn = 2 then
      VPI_DETAIL_MAKE_NONCOLOR_FMT_1 VPI_MEM_LAYOUT_PL VPI_DATA_TYPE_UNSIGNED VPI_SWIZZLE_XY00
        VPI_PACKING_X16_Y16
    else if cn = 3 then
      VPI_DETAIL_MAKE_COLOR_FMT_1 VPI_COLOR_MODEL_RGB VPI_COLOR_SPEC_UNDEFINED VPI_MEM_LAYOUT_PL
        VPI_DATA_TYPE_UNSIGNED VPI_SWIZZLE_ZYX1 VPI_PACKING_X16_Y16_Z16
    else if cn = 4 then
      VPI_DETAIL_MAKE_COLOR_FMT_1 VPI_COLOR_MODEL_RGB VPI_COLOR_SPEC_UNDEFINED VPI_MEM_LAYOUT_PL
        VPI_DATA_TYPE_UNSIGNED VPI_SWIZZLE_WZYX VPI_PACKING_X16_Y16_Z16_W16
    else VPI_IMAGE_FORMAT_INVALID
  else if depth = CV_16S then
    if cn = 1 then VPI_IMAGE_FORMAT_S16
    else if cn = 2 then
      VPI_DETAIL_MAKE_NONCOLOR_FMT_1 VPI_MEM_LAYOUT_PL VPI_DATA_TYPE_SIGNED VPI_SWIZZLE_XY00
        VPI_PACKING_X16_Y16
    else if cn = 3 then
      VPI_DETAIL_MAKE_NONCOLOR_FMT_1 VPI_MEM_LAYOUT_PL VPI_DATA_TYPE_SIGNED VPI_SWIZZLE_XYZ0
        VPI_PACKING_X16_Y16_Z16
    else if cn = 4 then
      VPI_DETAIL_MAKE_NONCOLOR_FMT_1 VPI_MEM_LAYOUT_PL VPI_DATA_TYPE_SIGNED VPI_SWIZZLE_XYZW
        VPI_PACKING_X16_Y16_Z16_W16
    else VPI_IMAGE_FORMAT_INVALID
  else if depth = CV_32S then
    if cn = 1 then
      VPI_DETAIL_MAKE_NONCOLOR_FMT_1 VPI_MEM_LAYOUT_PL VPI_DATA_TYPE_SIGNED VPI_SWIZZLE_X000
        VPI_PACKING_X32
    else if cn = 2 then
      VPI_DETAIL_MAKE_NONCOLOR_FMT_1 VPI_MEM_LAYOUT_PL VPI_DATA_TYPE_SIGNED VPI_SWIZZLE_XY00
        VPI_PACKING_X32_Y32
    else if cn = 3 then
      VPI_DETAIL_MAKE_NONCOLOR_FMT_1 VPI_MEM_LAYOUT_PL VPI_DATA_TYPE_SIGNED VPI_SWIZZLE_XYZ0
        VPI_PACKING_X32_Y32_Z32
    else if cn = 4 then
      VPI_DETAIL_MAKE_NONCOLOR_FMT_1 VPI_MEM_LAYOUT_PL VPI_DATA_TYPE_SIGNED VPI_SWIZZLE_XYZW
        VPI_PACKING_X32_Y32_Z32_W32
    else VPI_IMAGE_FORMAT_INVALID
  else if depth = CV_32F then
    if cn = 1 then VPI_IMAGE_FORMAT_F32
    else if cn = 2 then VPI_IMAGE_FORMAT_2F32
    else if cn = 3 then
      VPI_DETAIL_MAKE_COLOR_FMT_1 VPI_COLOR_MODEL_RGB VPI_COLOR_SPEC_UNDEFINED VPI_MEM_LAYOUT_PL
        VPI_DATA_TYPE_FLOAT VPI_SWIZZLE_ZYX1 VPI_PACKING_X32_Y32_Z32
    else if cn = 4 then
      VPI_DETAIL_MAKE_COLOR_FMT_1 VPI_COLOR_MODEL_RGB VPI_COLOR_SPEC_UNDEFINED VPI_MEM_LAYOUT_PL
        VPI_DATA_TYPE_FLOAT VPI_SWIZZLE_WZYX VPI_PACKING_X32_Y32_Z32_W32
    else VPI_IMAGE_FORMAT_INVALID
  else if depth = CV_64F then
    if cn = 1 then
      VPI_DETAIL_MAKE_NONCOLOR_FMT_1 VPI_MEM_LAYOUT_PL VPI_DATA_TYPE_FLOAT VPI_SWIZZLE_X000
        VPI_PACKING_X64
    else if cn = 2 then
      VPI_DETAIL_MAKE_NONCOLOR_FMT_1 VPI_MEM_LAYOUT_PL VPI_DATA_TYPE_FLOAT VPI_SWIZZLE_XY00
        VPI_PACKING_X64_Y64
    else if cn = 3 then
      VPI_DETAIL_MAKE_COLOR_FMT_1 VPI_COLOR_MODEL_RGB VPI_COLOR_SPEC_UNDEFINED VPI_MEM_LAYOUT_PL
        VPI_DATA_TYPE_FLOAT VPI_SWIZZLE_ZYX1 VPI_PACKING_X64_Y64_Z64
    else if cn = 4 then
      VPI_DETAIL_MAKE_COLOR_FMT_1 VPI_COLOR_MODEL_RGB VPI_COLOR_SPEC_UNDEFINED VPI_MEM_LAYOUT_PL
        VPI_DATA_TYPE_FLOAT VPI_SWIZZLE_WZYX VPI_PACKING_X64_Y64_Z64_W64
    else VPI_IMAGE_FORMAT_INVALID
  else VPI_IMAGE_FORMAT_INVALID

/-- Embeds `ToImageFormatFromOpenCVType(int cvType)`. -/
def ToImageFormatFromOpenCVType (cvType : Int) : Int :=
  imgFormatOfDepthAndChannels (CV_MAT_DEPTH cvType) (CV_MAT_CN cvType)

/-! ## Vocabulary of the later statements -/

/-- The enumerators of `VPIPacking` whose documentation comment in `DataLayout.h` states a
channel count in words ("No channels", "One", "Two", "Three" or "Four" ... channels), each
with the stated count, in source order. The comments of `VPI_PACKING_X8_Y8__X8_Z8` and
`VPI_PACKING_Y8_X8__Z8_X8` count pixels and words, `VPI_PACKING_X64_Y64` has no comment and
`VPI_PACKING_INVALID` is no packing; they are left out. -/
def documentedChannelCounts : List (Int × Nat) :=
  [(VPI_PACKING_0, 0), (VPI_PACKING_X1, 1), (VPI_PACKING_X2, 1), (VPI_PACKING_X4, 1),
   (VPI_PACKING_X8, 1), (VPI_PACKING_X4Y4, 2), (VPI_PACKING_X3Y3Z2, 3), (VPI_PACKING_X16, 1),
   (VPI_PACKING_b6X10, 1), (VPI_PACKING_X10b6, 1), (VPI_PACKING_b4X12, 1), (VPI_PACKING_X12b4,
   1), (VPI_PACKING_b2X14, 1), (VPI_PACKING_X8_Y8, 2), (VPI_PACKING_X5Y5Z6, 3),
   (VPI_PACKING_X5Y6Z5, 3), (VPI_PACKING_X6Y5Z5, 3), (VPI_PACKING_b4X4Y4Z4, 3),
   (VPI_PACKING_b1X5Y5Z5, 3), (VPI_PACKING_X5Y5b1Z5, 3), (VPI_PACKING_X1Y5Z5W5, 4),
   (VPI_PACKING_X4Y4Z4W4, 4), (VPI_PACKING_X5Y1Z5W5, 4), (VPI_PACKING_X5Y5Z1W5, 4),
   (VPI_PACKING_X5Y5Z5W1, 4), (VPI_PACKING_X24, 1), (VPI_PACKING_X8_Y8_Z8, 3), (VPI_PACKING_X32,
   1), (VPI_PACKING_b12X20, 1), (VPI_PACKING_X16_Y16, 2), (VPI_PACKING_X10b6_Y10b6, 2),
   (VPI_PACKING_X12b4_Y12b4, 2), (VPI_PACKING_X10Y11Z11, 3), (VPI_PACKING_X11Y11Z10, 3),
   (VPI_PACKING_X8_Y8_Z8_W8, 4), (VPI_PACKING_X2Y10Z10W10, 4), (VPI_PACKING_X10Y10Z10W2, 4),
   (VPI_PACKING_X48, 1), (VPI_PACKING_X16_Y16_Z16, 3), (VPI_PACKING_X64, 1),
   (VPI_PACKING_X32_Y32, 2), (VPI_PACKING_X16_Y16_Z16_W16, 4), (VPI_PACKING_X96, 1),
   (VPI_PACKING_X32_Y32_Z32, 3), (VPI_PACKING_X128, 1), (VPI_PACKING_X32_Y32_Z32_W32, 4),
   (VPI_PACKING_X192, 1), (VPI_PACKING_X64_Y64_Z64, 3), (VPI_PACKING_X256, 1),
   (VPI_PACKING_X64_Y64_Z64_W64, 4)]

/-- The enumerators of `VPIPacking` defined by implicit increment, each with the last
enumerator before it that has an explicit `VPI_DETAIL_BPP_NCH` value. -/
def implicitPackings : List (Int × Int) :=
  [(VPI_PACKING_b6X10, VPI_PACKING_X16), (VPI_PACKING_X10b6, VPI_PACKING_X16),
   (VPI_PACKING_b4X12, VPI_PACKING_X16), (VPI_PACKING_X12b4, VPI_PACKING_X16),
   (VPI_PACKING_b2X14, VPI_PACKING_X16), (VPI_PACKING_X5Y6Z5, VPI_PACKING_X5Y5Z6),
   (VPI_PACKING_X6Y5Z5, VPI_PACKING_X5Y5Z6), (VPI_PACKING_b4X4Y4Z4, VPI_PACKING_X5Y5Z6),
   (VPI_PACKING_b1X5Y5Z5, VPI_PACKING_X5Y5Z6), (VPI_PACKING_X5Y5b1Z5, VPI_PACKING_X5Y5Z6),
   (VPI_PACKING_X4Y4Z4W4, VPI_PACKING_X1Y5Z5W5), (VPI_PACKING_X5Y1Z5W5, VPI_PACKING_X1Y5Z5W5),
   (VPI_PACKING_X5Y5Z1W5, VPI_PACKING_X1Y5Z5W5), (VPI_PACKING_X5Y5Z5W1, VPI_PACKING_X1Y5Z5W5),
   (VPI_PACKING_X8_Y8__X8_Z8, VPI_PACKING_X1Y5Z5W5), (VPI_PACKING_Y8_X8__Z8_X8,
   VPI_PACKING_X1Y5Z5W5), (VPI_PACKING_b12X20, VPI_PACKING_X32), (VPI_PACKING_X10b6_Y10b6,
   VPI_PACKING_X16_Y16), (VPI_PACKING_X12b4_Y12b4, VPI_PACKING_X16_Y16), (VPI_PACKING_X11Y11Z10,
   VPI_PACKING_X10Y11Z11), (VPI_PACKING_X2Y10Z10W10, VPI_PACKING_X8_Y8_Z8_W8),
   (VPI_PACKING_X10Y10Z10W2, VPI_PACKING_X8_Y8_Z8_W8)]

/-- The packing value rebuilt from the plane 0 field of a format: `(b << 6) | (c << 4) | s`
with the sub-packing `s` in bits 35..37, the channel count minus one `c` in bits 38..39 and
the bpp code `b` in bits 40..43. -/
def plane0Packing (fmt : Int) : Nat :=
  (VPI_DETAIL_GET_BITFIELD fmt 40 4 <<< 6) ||| (VPI_DETAIL_GET_BITFIELD fmt 38 2 <<< 4) |||
    VPI_DETAIL_GET_BITFIELD fmt 35 3

/-- The OpenCV depths that `ToImageFormatFromOpenCVType` has a `case` for. -/
def openCVDepths : List Int := [CV_8U, CV_8S, CV_16U, CV_16S, CV_32S, CV_32F, CV_64F]

/-- The width in bits of one element of an OpenCV depth. -/
def depthBits (depth : Int) : Int :=
  if depth = CV_8U ∨ depth = CV_8S then 8
  else if depth = CV_16U ∨ depth = CV_16S then 16
  else if depth = CV_32S ∨ depth = CV_32F then 32
  else 64

/-- The VPI data type that matches an OpenCV depth: unsigned for 8U and 16U, signed for 8S,
16S and 32S, floating point for 32F and 64F. -/
def depthDataType (depth : Int) : Int :=
  if depth = CV_8U ∨ depth = CV_16U then VPI_DATA_TYPE_UNSIGNED
  else if depth = CV_8S ∨ depth = CV_16S ∨ depth = CV_32S then VPI_DATA_TYPE_SIGNED
  else VPI_DATA_TYPE_FLOAT

/-- The selector that the swizzle of a pixel type is said to hold in slot `i` (0..3) for a
packing of `k` channels: X, Y, Z, W in order in the first `k` slots and 0 in the others. -/
def pixelTypeSelector (k i : Nat) : Int :=
  if i < k then
    ([VPI_CHANNEL_X, VPI_CHANNEL_Y, VPI_CHANNEL_Z, VPI_CHANNEL_W] : List Int).getD i
      VPI_CHANNEL_0
  else VPI_CHANNEL_0

/-! ## Arithmetic form of the encoding -/

theorem toU64_lt (v : Int) : toU64 v < 2 ^ 64 := by
  unfold toU64; omega

theorem toU64_natCast (n : Nat) : toU64 (n : Int) = n % 2 ^ 64 := by
  unfold toU64; omega

theorem set_bitfield_eq (v : Int) (o s : Nat) (h : o + s ≤ 64) :
    VPI_DETAIL_SET_BITFIELD v o s = toU64 v % 2 ^ s * 2 ^ o := by
  unfold VPI_DETAIL_SET_BITFIELD
  rw [Nat.shiftLeft_eq, Nat.shiftLeft_eq, Nat.one_mul, Nat.and_pow_two_sub_one_eq_mod]
  apply Nat.mod_eq_of_lt
  calc toU64 v % 2 ^ s * 2 ^ o < 2 ^ s * 2 ^ o :=
        Nat.mul_lt_mul_of_pos_right (Nat.mod_lt _ (by positivity)) (by positivity)
    _ = 2 ^ (s + o) := (Nat.pow_add 2 s o).symm
    _ ≤ 2 ^ 64 := Nat.pow_le_pow_right (by norm_num) (by omega)

theorem get_bitfield_eq (v : Int) (o s : Nat) :
    VPI_DETAIL_GET_BITFIELD v o s = toU64 v / 2 ^ o % 2 ^ s := by
  unfold VPI_DETAIL_GET_BITFIELD
  rw [Nat.shiftLeft_eq, Nat.one_mul, Nat.and_pow_two_sub_one_eq_mod, Nat.shiftRight_eq_div_pow]

theorem lor_eq_add (a b k : Nat) (ha : a < 2 ^ k) (hb : 2 ^ k ∣ b) : a ||| b = a + b := by
  obtain ⟨c, rfl⟩ := hb
  rw [Nat.lor_comm, Nat.add_comm]
  exact (Nat.mul_add_lt_is_or ha c).symm

theorem toI64_of_lt {n : Nat} (h : n < 2 ^ 63) : toI64 n = n := by
  unfold toI64
  have : n % 2 ^ 64 = n := Nat.mod_eq_of_lt (by omega)
  rw [this, if_pos h]

theorem and_low63 (x : Nat) : x &&& (2 ^ 63 - 1) = x % 2 ^ 63 :=
  Nat.and_pow_two_sub_one_eq_mod x 63

theorem handle_signedness_eq (dt : Int) (rest : Nat) (h : rest < 2 ^ 63) :
    VPI_DETAIL_HANDLE_DATATYPE_SIGNEDNESS dt rest
      = (rest : Int) - ((toU64 dt / 4 % 2 : Nat) : Int) * 2 ^ 63 := by
  have hg : VPI_DETAIL_GET_BITFIELD dt 2 1 = toU64 dt / 4 % 2 := by
    rw [get_bitfield_eq]; norm_num
  unfold VPI_DETAIL_HANDLE_DATATYPE_SIGNEDNESS
  rw [hg]
  rcases Nat.mod_two_eq_zero_or_one (toU64 dt / 4) with h0 | h1
  · rw [h0, toI64_of_lt h]; simp
  · rw [h1, if_pos (by decide)]
    have e : not64 rest &&& not64 (1 <<< 63) = 2 ^ 63 - 1 - rest := by
      have e1 : not64 (1 <<< 63) = 2 ^ 63 - 1 := by decide
      rw [e1, and_low63]; unfold not64; omega
    unfold signednessSum
    rw [e, toI64_of_lt (by omega)]
    unfold wrapI64 toI64 toU64
    split <;> split <;> omega

theorem colorModelField_lt (cm cs css : Int) : colorModelField cm cs css < 2 ^ 19 := by
  unfold colorModelField
  split_ifs <;> omega

theorem colorModelBits_eq (cm cs css : Int) :
    colorModelBits cm cs css = colorModelField cm cs css * 2 ^ 16 := by
  have hone : toU64 1 = 1 := by decide
  have hseven : toU64 7 = 7 := by decide
  have hall : toU64 (((1 <<< 19 : Nat) - 1 : Nat) : Int) = 2 ^ 19 - 1 := by decide
  have h10 : (7 : Int) + 2 + 1 = 10 := by norm_num
  have h9 : (2 : Int) + 7 = 9 := by norm_num
  unfold colorModelBits colorModelField VPI_COLOR_MODEL_YCbCr VPI_COLOR_MODEL_UNDEFINED
    VPI_COLOR_MODEL_RAW
  rw [h10, h9]
  simp only [set_bitfield_eq _ 20 15 (by norm_num), set_bitfield_eq _ 17 3 (by norm_num),
    set_bitfield_eq _ 16 19 (by norm_num), set_bitfield_eq _ 16 1 (by norm_num),
    set_bitfield_eq _ 21 6 (by norm_num), set_bitfield_eq _ 20 1 (by norm_num), hone, hseven,
    hall]
  have hA := Nat.mod_lt (toU64 cs) (show 0 < 2 ^ 15 by norm_num)
  have hB := Nat.mod_lt (toU64 css) (show 0 < 2 ^ 3 by norm_num)
  have hC := Nat.mod_lt (toU64 (cm - 2)) (show 0 < 2 ^ 3 by norm_num)
  have hD := Nat.mod_lt (toU64 cs) (show 0 < 2 ^ 6 by norm_num)
  have hE := Nat.mod_lt (toU64 (cm - 10)) (show 0 < 2 ^ 6 by norm_num)
  generalize toU64 cs % 2 ^ 15 = A at *
  generalize toU64 css % 2 ^ 3 = B at *
  generalize toU64 (cm - 2) % 2 ^ 3 = C at *
  generalize toU64 cs % 2 ^ 6 = D at *
  generalize toU64 (cm - 10) % 2 ^ 6 = E at *
  split_ifs
  · rw [Nat.lor_comm, lor_eq_add (B * 2 ^ 17) (A * 2 ^ 20) 20 (by omega) (by omega)]
    omega
  · norm_num
  · rw [Nat.lor_comm (A * 2 ^ 20), lor_eq_add (C * 2 ^ 17) (A * 2 ^ 20) 20 (by omega) (by omega),
      lor_eq_add _ (C * 2 ^ 17 + A * 2 ^ 20) 17 (by omega) (by omega)]
    omega
  · rw [lor_eq_add (7 % 2 ^ 3 * 2 ^ 17) (D * 2 ^ 21) 21 (by omega) (by omega),
      lor_eq_add _ (7 % 2 ^ 3 * 2 ^ 17 + D * 2 ^ 21) 17 (by omega) (by omega)]
    omega
  · rw [lor_eq_add (1 % 2 ^ 1 * 2 ^ 20) (E * 2 ^ 21) 21 (by omega) (by omega),
      lor_eq_add (7 % 2 ^ 3 * 2 ^ 17) (1 % 2 ^ 1 * 2 ^ 20 + E * 2 ^ 21) 20 (by omega) (by omega),
      lor_eq_add _ (7 % 2 ^ 3 * 2 ^ 17 + (1 % 2 ^ 1 * 2 ^ 20 + E * 2 ^ 21)) 17 (by omega)
        (by omega)]
    omega

theorem lor8_eq_add (d s m c f0 f1 f2 f3 : Nat) (hs : s < 2 ^ 12) (hm : m < 2 ^ 3)
    (hc : c < 2 ^ 19) (h0 : f0 < 2 ^ 9) (h1 : f1 < 2 ^ 7) (h2 : f2 < 2 ^ 7) (h3 : f3 < 2 ^ 3) :
    d * 2 ^ 61 ||| s ||| m * 2 ^ 12 ||| c * 2 ^ 16 ||| f0 * 2 ^ 35 ||| f1 * 2 ^ 44 |||
        f2 * 2 ^ 51 ||| f3 * 2 ^ 58
      = s + m * 2 ^ 12 + c * 2 ^ 16 + f0 * 2 ^ 35 + f1 * 2 ^ 44 + f2 * 2 ^ 51 + f3 * 2 ^ 58
        + d * 2 ^ 61 := by
  have e1 : s ||| m * 2 ^ 12 = s + m * 2 ^ 12 := lor_eq_add _ _ 12 (by omega) (by omega)
  have e2 : s + m * 2 ^ 12 ||| c * 2 ^ 16 = s + m * 2 ^ 12 + c * 2 ^ 16 :=
    lor_eq_add _ _ 16 (by omega) (by omega)
  have e3 : s + m * 2 ^ 12 + c * 2 ^ 16 ||| f0 * 2 ^ 35
      = s + m * 2 ^ 12 + c * 2 ^ 16 + f0 * 2 ^ 35 := lor_eq_add _ _ 35 (by omega) (by omega)
  have e4 : s + m * 2 ^ 12 + c * 2 ^ 16 + f0 * 2 ^ 35 ||| f1 * 2 ^ 44
      = s + m * 2 ^ 12 + c * 2 ^ 16 + f0 * 2 ^ 35 + f1 * 2 ^ 44 :=
    lor_eq_add _ _ 44 (by omega) (by omega)
  have e5 : s + m * 2 ^ 12 + c * 2 ^ 16 + f0 * 2 ^ 35 + f1 * 2 ^ 44 ||| f2 * 2 ^ 51
      = s + m * 2 ^ 12 + c * 2 ^ 16 + f0 * 2 ^ 35 + f1 * 2 ^ 44 + f2 * 2 ^ 51 :=
    lor_eq_add _ _ 51 (by omega) (by omega)
  have e6 : s + m * 2 ^ 12 + c * 2 ^ 16 + f0 * 2 ^ 35 + f1 * 2 ^ 44 + f2 * 2 ^ 51 ||| f3 * 2 ^ 58
      = s + m * 2 ^ 12 + c * 2 ^ 16 + f0 * 2 ^ 35 + f1 * 2 ^ 44 + f2 * 2 ^ 51 + f3 * 2 ^ 58 :=
    lor_eq_add _ _ 58 (by omega) (by omega)
  have e7 : s + m * 2 ^ 12 + c * 2 ^ 16 + f0 * 2 ^ 35 + f1 * 2 ^ 44 + f2 * 2 ^ 51 + f3 * 2 ^ 58
        ||| d * 2 ^ 61
      = s + m * 2 ^ 12 + c * 2 ^ 16 + f0 * 2 ^ 35 + f1 * 2 ^ 44 + f2 * 2 ^ 51 + f3 * 2 ^ 58
        + d * 2 ^ 61 := lor_eq_add _ _ 61 (by omega) (by omega)
  rw [← e7, ← e6, ← e5, ← e4, ← e3, ← e2, ← e1]
  ac_rfl

theorem fmtPattern_eq (cm cs css ml dt sw p0 p1 p2 p3 : Int) :
    fmtPattern cm cs css ml dt sw p0 p1 p2 p3
      = toU64 sw % 2 ^ 12 + toU64 ml % 2 ^ 3 * 2 ^ 12 + colorModelField cm cs css * 2 ^ 16
        + VPI_DETAIL_ENCODE_PACKING p0 2 3 4 % 2 ^ 9 * 2 ^ 35
        + VPI_DETAIL_ENCODE_PACKING p1 1 3 3 % 2 ^ 7 * 2 ^ 44
        + VPI_DETAIL_ENCODE_PACKING p2 1 3 3 % 2 ^ 7 * 2 ^ 51
        + VPI_DETAIL_ENCODE_PACKING p3 0 0 3 % 2 ^ 3 * 2 ^ 58
        + toU64 dt % 2 ^ 2 * 2 ^ 61 := by
  have hdt : toU64 (andInt dt 0x3) % 2 ^ 2 = toU64 dt % 2 ^ 2 := by
    unfold andInt
    have h3 : toU64 3 = 2 ^ 2 - 1 := by decide
    rw [h3, Nat.and_pow_two_sub_one_eq_mod, toU64_natCast]; omega
  have hp : ∀ (n k : Nat), k ≤ 64 → toU64 (n : Int) % 2 ^ k = n % 2 ^ k := by
    intro n k hk
    rw [toU64_natCast]
    exact Nat.mod_mod_of_dvd n (Nat.pow_dvd_pow 2 hk)
  unfold fmtPattern
  rw [colorModelBits_eq, set_bitfield_eq _ 61 2 (by norm_num),
    set_bitfield_eq _ 0 (4 * 3) (by norm_num), set_bitfield_eq _ 12 3 (by norm_num),
    set_bitfield_eq _ 35 9 (by norm_num), set_bitfield_eq _ 44 7 (by norm_num),
    set_bitfield_eq _ 51 7 (by norm_num), set_bitfield_eq _ 58 3 (by norm_num), hdt,
    hp _ 9 (by norm_num), hp _ 7 (by norm_num), hp _ 7 (by norm_num), hp _ 3 (by norm_num)]
  have h := lor8_eq_add (toU64 dt % 2 ^ 2) (toU64 sw % 2 ^ 12) (toU64 ml % 2 ^ 3)
    (colorModelField cm cs css) (VPI_DETAIL_ENCODE_PACKING p0 2 3 4 % 2 ^ 9)
    (VPI_DETAIL_ENCODE_PACKING p1 1 3 3 % 2 ^ 7) (VPI_DETAIL_ENCODE_PACKING p2 1 3 3 % 2 ^ 7)
    (VPI_DETAIL_ENCODE_PACKING p3 0 0 3 % 2 ^ 3) (Nat.mod_lt _ (by norm_num))
    (Nat.mod_lt _ (by norm_num)) (colorModelField_lt cm cs css) (Nat.mod_lt _ (by norm_num))
    (Nat.mod_lt _ (by norm_num)) (Nat.mod_lt _ (by norm_num)) (Nat.mod_lt _ (by norm_num))
  rw [← h]
  norm_num

theorem fmtPattern_lt (cm cs css ml dt sw p0 p1 p2 p3 : Int) :
    fmtPattern cm cs css ml dt sw p0 p1 p2 p3 < 2 ^ 63 := by
  rw [fmtPattern_eq]
  have hc := colorModelField_lt cm cs css
  omega

theorem make_eq (cm cs css ml dt sw p0 p1 p2 p3 : Int) :
    VPI_DETAIL_MAKE_FMT_HELPER cm cs css ml dt sw p0 p1 p2 p3
      = (fmtPattern cm cs css ml dt sw p0 p1 p2 p3 : Int)
        - ((toU64 dt / 4 % 2 : Nat) : Int) * 2 ^ 63 := by
  unfold VPI_DETAIL_MAKE_FMT_HELPER
  exact handle_signedness_eq dt _ (fmtPattern_lt cm cs css ml dt sw p0 p1 p2 p3)

theorem toU64_sub_sign (P b : Nat) (hP : P < 2 ^ 63) (hb : b ≤ 1) :
    toU64 ((P : Int) - (b : Int) * 2 ^ 63) = P + b * 2 ^ 63 := by
  unfold toU64
  omega

theorem toU64_make (cm cs css ml dt sw p0 p1 p2 p3 : Int) :
    toU64 (VPI_DETAIL_MAKE_FMT_HELPER cm cs css ml dt sw p0 p1 p2 p3)
      = toU64 sw % 2 ^ 12 + toU64 ml % 2 ^ 3 * 2 ^ 12 + colorModelField cm cs css * 2 ^ 16
        + VPI_DETAIL_ENCODE_PACKING p0 2 3 4 % 2 ^ 9 * 2 ^ 35
        + VPI_DETAIL_ENCODE_PACKING p1 1 3 3 % 2 ^ 7 * 2 ^ 44
        + VPI_DETAIL_ENCODE_PACKING p2 1 3 3 % 2 ^ 7 * 2 ^ 51
        + VPI_DETAIL_ENCODE_PACKING p3 0 0 3 % 2 ^ 3 * 2 ^ 58
        + toU64 dt % 2 ^ 3 * 2 ^ 61 := by
  have h := fmtPattern_lt cm cs css ml dt sw p0 p1 p2 p3
  have e := fmtPattern_eq cm cs css ml dt sw p0 p1 p2 p3
  rw [make_eq, toU64_sub_sign _ _ h (by omega)]
  omega

theorem make_fields (cm cs css ml dt sw p0 p1 p2 p3 : Int) :
    VPI_DETAIL_GET_BITFIELD (VPI_DETAIL_MAKE_FMT_HELPER cm cs css ml dt sw p0 p1 p2 p3) 0 12
      = toU64 sw % 2 ^ 12 ∧
    VPI_DETAIL_GET_BITFIELD (VPI_DETAIL_MAKE_FMT_HELPER cm cs css ml dt sw p0 p1 p2 p3) 12 3
      = toU64 ml % 2 ^ 3 ∧
    VPI_DETAIL_GET_BITFIELD (VPI_DETAIL_MAKE_FMT_HELPER cm cs css ml dt sw p0 p1 p2 p3) 16 19
      = colorModelField cm cs css ∧
    VPI_DETAIL_GET_BITFIELD (VPI_DETAIL_MAKE_FMT_HELPER cm cs css ml dt sw p0 p1 p2 p3) 35 9
      = VPI_DETAIL_ENCODE_PACKING p0 2 3 4 % 2 ^ 9 ∧
    VPI_DETAIL_GET_BITFIELD (VPI_DETAIL_MAKE_FMT_HELPER cm cs css ml dt sw p0 p1 p2 p3) 44 7
      = VPI_DETAIL_ENCODE_PACKING p1 1 3 3 % 2 ^ 7 ∧
    VPI_DETAIL_GET_BITFIELD (VPI_DETAIL_MAKE_FMT_HELPER cm cs css ml dt sw p0 p1 p2 p3) 51 7
      = VPI_DETAIL_ENCODE_PACKING p2 1 3 3 % 2 ^ 7 ∧
    VPI_DETAIL_GET_BITFIELD (VPI_DETAIL_MAKE_FMT_HELPER cm cs css ml dt sw p0 p1 p2 p3) 58 3
      = VPI_DETAIL_ENCODE_PACKING p3 0 0 3 % 2 ^ 3 ∧
    VPI_DETAIL_GET_BITFIELD (VPI_DETAIL_MAKE_FMT_HELPER cm cs css ml dt sw p0 p1 p2 p3) 61 3
      = toU64 dt % 2 ^ 3 := by
  have hc := colorModelField_lt cm cs css
  simp only [get_bitfield_eq, toU64_make]
  refine ⟨?_, ?_, ?_, ?_, ?_, ?_, ?_, ?_⟩ <;> omega

theorem get_bitfield_sub (v : Int) (o s o' s' : Nat) (h1 : o ≤ o') (h2 : o' + s' ≤ o + s) :
    VPI_DETAIL_GET_BITFIELD v o' s' = VPI_DETAIL_GET_BITFIELD v o s / 2 ^ (o' - o) % 2 ^ s' := by
  rw [get_bitfield_eq, get_bitfield_eq]
  apply Nat.eq_of_testBit_eq
  intro i
  simp only [Nat.testBit_mod_two_pow, ← Nat.shiftRight_eq_div_pow, Nat.testBit_shiftRight]
  by_cases hi : i < s'
  · have e1 : o' + i = o + (o' - o + i) := by omega
    have e2 : o' - o + i < s := by omega
    simp [hi, e1, e2]
  · simp [hi]

theorem sameOutside_of (lo hi : Nat) (a b : Int) (h1 : toU64 a % 2 ^ lo = toU64 b % 2 ^ lo)
    (h2 : toU64 a / 2 ^ hi = toU64 b / 2 ^ hi) : sameOutside lo hi a b := by
  intro i _ hi'
  rcases hi' with hlt | hge
  · have ha := Nat.testBit_mod_two_pow (toU64 a) lo i
    have hb := Nat.testBit_mod_two_pow (toU64 b) lo i
    rw [h1] at ha
    rw [ha] at hb
    simpa [hlt] using hb
  · have ha := @Nat.testBit_shiftRight hi (i - hi) (toU64 a)
    have hb := @Nat.testBit_shiftRight hi (i - hi) (toU64 b)
    rw [Nat.shiftRight_eq_div_pow] at ha hb
    rw [h2] at ha
    rw [ha] at hb
    have e : hi + (i - hi) = i := by omega
    rw [e] at hb
    exact hb

theorem make_swizzle_eq (x y z w : Int) :
    VPI_DETAIL_MAKE_SWIZZLE x y z w
      = toU64 x % 2 ^ 3 + toU64 y % 2 ^ 3 * 2 ^ 3 + toU64 z % 2 ^ 3 * 2 ^ 6
        + toU64 w % 2 ^ 3 * 2 ^ 9 := by
  unfold VPI_DETAIL_MAKE_SWIZZLE
  rw [set_bitfield_eq _ 0 3 (by norm_num), set_bitfield_eq _ 3 3 (by norm_num),
    set_bitfield_eq _ 6 3 (by norm_num), set_bitfield_eq _ 9 3 (by norm_num)]
  have hx := Nat.mod_lt (toU64 x) (show 0 < 2 ^ 3 by norm_num)
  have hy := Nat.mod_lt (toU64 y) (show 0 < 2 ^ 3 by norm_num)
  have hz := Nat.mod_lt (toU64 z) (show 0 < 2 ^ 3 by norm_num)
  have hw := Nat.mod_lt (toU64 w) (show 0 < 2 ^ 3 by norm_num)
  generalize toU64 x % 2 ^ 3 = a at *
  generalize toU64 y % 2 ^ 3 = b at *
  generalize toU64 z % 2 ^ 3 = c at *
  generalize toU64 w % 2 ^ 3 = d at *
  rw [lor_eq_add (a * 2 ^ 0) (b * 2 ^ 3) 3 (by omega) (by omega),
    lor_eq_add (a * 2 ^ 0 + b * 2 ^ 3) (c * 2 ^ 6) 6 (by omega) (by omega),
    lor_eq_add (a * 2 ^ 0 + b * 2 ^ 3 + c * 2 ^ 6) (d * 2 ^ 9) 9 (by omega) (by omega)]
  omega

theorem make_swizzle_lt (x y z w : Int) : VPI_DETAIL_MAKE_SWIZZLE x y z w < 2 ^ 12 := by
  rw [make_swizzle_eq]
  omega

theorem predefinedColorSpecs_range :
    ∀ c ∈ predefinedColorSpecs, 0 ≤ c ∧ c < 2 ^ 15 := by
  decide

theorem plane0_field_injective :
    ∀ p ∈ predefinedPackings, ∀ q ∈ predefinedPackings,
      VPI_DETAIL_ENCODE_PACKING p 2 3 4 % 2 ^ 9 = VPI_DETAIL_ENCODE_PACKING q 2 3 4 % 2 ^ 9 →
      p = q := by
  decide

theorem plane12_field_injective :
    ∀ p ∈ predefinedPackings, ∀ q ∈ predefinedPackings, fitsPlane12 p → fitsPlane12 q →
      VPI_DETAIL_ENCODE_PACKING p 1 3 3 % 2 ^ 7 = VPI_DETAIL_ENCODE_PACKING q 1 3 3 % 2 ^ 7 →
      p = q := by
  decide

theorem plane3_field_injective :
    ∀ p ∈ wholeWordPackings, ∀ q ∈ wholeWordPackings,
      VPI_DETAIL_ENCODE_PACKING p 0 0 3 % 2 ^ 3 = VPI_DETAIL_ENCODE_PACKING q 0 0 3 % 2 ^ 3 →
      p = q := by
  decide

theorem toU64_of_nonneg (v : Int) (h0 : 0 ≤ v) (h1 : v < 2 ^ 64) : toU64 v = v.toNat := by
  unfold toU64
  omega

theorem colorModelField_cases (cs css : Int) :
    colorModelField 0 cs css = 524287 ∧
    colorModelField 1 cs css = toU64 css % 8 * 2 + toU64 cs % 2 ^ 15 * 16 ∧
    colorModelField 2 cs css = 1 + toU64 cs % 2 ^ 15 * 16 ∧
    colorModelField 9 cs css = 15 + toU64 cs % 64 * 32 ∧
    colorModelField 10 cs css = 31 := by
  have z : toU64 0 = 0 := by decide
  refine ⟨?_, ?_, ?_, ?_, ?_⟩ <;> simp [colorModelField, z]

theorem validArgs_color (a : FormatArgs) (ha : validArgs a) :
    (0 ≤ a.ColorSpecOrRawPattern ∧ a.ColorSpecOrRawPattern < 2 ^ 15) ∧
    (0 ≤ a.Subsampling ∧ a.Subsampling ≤ 5) ∧
    ((a.ColorModel = 0 ∧ a.ColorSpecOrRawPattern = 15362 ∧ a.Subsampling = 0) ∨
      a.ColorModel = 1 ∨
      (a.ColorModel = 2 ∧ a.Subsampling = 0) ∨
      (a.ColorModel = 9 ∧ a.ColorSpecOrRawPattern ≤ 13 ∧ a.Subsampling = 0) ∨
      (a.ColorModel = 10 ∧ a.ColorSpecOrRawPattern = 15362 ∧ a.Subsampling = 0)) := by
  obtain ⟨hcm, hcs, hcss, -⟩ := ha
  have u : VPI_COLOR_SPEC_UNDEFINED = 15362 := by decide
  have hcm' : a.ColorModel = 0 ∨ a.ColorModel = 1 ∨ a.ColorModel = 2 ∨ a.ColorModel = 9 ∨
      a.ColorModel = 10 := by
    simpa [VPI_COLOR_MODEL_UNDEFINED, VPI_COLOR_MODEL_YCbCr, VPI_COLOR_MODEL_RGB,
      VPI_COLOR_MODEL_RAW, VPI_COLOR_MODEL_XYZ] using hcm
  rcases hcm' with h | h | h | h | h <;>
    simp [h, VPI_COLOR_MODEL_YCbCr, VPI_COLOR_MODEL_RGB, VPI_COLOR_MODEL_RAW, VPI_CSS_NONE, u]
      at hcs hcss
  · omega
  · have := predefinedColorSpecs_range _ hcs
    omega
  · have := predefinedColorSpecs_range _ hcs
    omega
  · omega
  · omega

theorem color_fields_injective (a b : FormatArgs) (ha : validArgs a) (hb : validArgs b)
    (h : colorModelField a.ColorModel a.ColorSpecOrRawPattern a.Subsampling
      = colorModelField b.ColorModel b.ColorSpecOrRawPattern b.Subsampling) :
    a.ColorModel = b.ColorModel ∧ a.ColorSpecOrRawPattern = b.ColorSpecOrRawPattern ∧
      a.Subsampling = b.Subsampling := by
  obtain ⟨csA, cssA, hA⟩ := validArgs_color a ha
  obtain ⟨csB, cssB, hB⟩ := validArgs_color b hb
  have e1 := toU64_of_nonneg _ csA.1 (by omega)
  have e2 := toU64_of_nonneg _ csB.1 (by omega)
  have e3 := toU64_of_nonneg _ cssA.1 (by omega)
  have e4 := toU64_of_nonneg _ cssB.1 (by omega)
  rcases hA with ⟨ca, hA⟩ | ca | ⟨ca, hA⟩ | ⟨ca, hA⟩ | ⟨ca, hA⟩ <;>
    rcases hB with ⟨cb, hB⟩ | cb | ⟨cb, hB⟩ | ⟨cb, hB⟩ | ⟨cb, hB⟩ <;>
    rw [ca, cb] at h <;>
    simp only [colorModelField_cases, e1, e2, e3, e4] at h <;>
    omega

/-! ## Packing codes -/

/-- C1. For every bit width in `supportedBpp` and every channel count 1..4 the packing code
`VPI_DETAIL_BPP_NCH(bpp, ch)` decodes back to `(bpp, ch)`: the channel count is
`VPI_DETAIL_EXTRACT_PACKING_CHANNELS`, the bit width is read from bits 6..9 and, when they
are 0, from the sub-code in bits 0..3; hence the code is injective on this domain. -/
theorem C1_packing_round_trip :
    (∀ bpp ∈ supportedBpp, ∀ ch ∈ ([1, 2, 3, 4] : List Int),
      (VPI_DETAIL_EXTRACT_PACKING_CHANNELS (VPI_DETAIL_BPP_NCH bpp ch) : Int) = ch ∧
      decodeBpp (VPI_DETAIL_GET_BITFIELD (VPI_DETAIL_BPP_NCH bpp ch) 6 4)
        (VPI_DETAIL_GET_BITFIELD (VPI_DETAIL_BPP_NCH bpp ch) 0 4) = some bpp) ∧
    (∀ bpp ∈ supportedBpp, ∀ ch ∈ ([1, 2, 3, 4] : List Int),
      ∀ bpp' ∈ supportedBpp, ∀ ch' ∈ ([1, 2, 3, 4] : List Int),
      VPI_DETAIL_BPP_NCH bpp ch = VPI_DETAIL_BPP_NCH bpp' ch' → bpp = bpp' ∧ ch = ch') := by
  decide

/-- C1 at 24 bits per pixel in 3 channels (the code of `VPI_PACKING_X8_Y8_Z8`). -/
theorem C1_packing_round_trip_witness :
    (VPI_DETAIL_EXTRACT_PACKING_CHANNELS (VPI_DETAIL_BPP_NCH 24 3) : Int) = 3 ∧
      decodeBpp (VPI_DETAIL_GET_BITFIELD (VPI_DETAIL_BPP_NCH 24 3) 6 4)
        (VPI_DETAIL_GET_BITFIELD (VPI_DETAIL_BPP_NCH 24 3) 0 4) = some 24 :=
  C1_packing_round_trip.1 24 (by decide) 3 (by decide)

/-! ## Invertibility of the encoder -/

/-- C2, refuted as stated: pairs of valid descriptions with different plane packings and the
same encoded value. The fourth plane X16 against b6X10 (the 3-bit field of plane 3 holds
the bpp code only); the second plane X256 against X16 (the field of plane 1 holds three
bits of the bpp code); the planes X8, X8, X192, X1 against X8, X3Y3Z2 (the field of
plane 1 holds one bit of the channel count, and X192 and X1 are stored as 0 like absent
planes). -/
theorem C2_encoder_not_injective :
    (validArgs collidingArgsX16 ∧ validArgs collidingArgsB6X10 ∧
      collidingArgsX16.encode = collidingArgsB6X10.encode ∧
      collidingArgsX16 ≠ collidingArgsB6X10) ∧
    (validArgs collidingArgsX256 ∧ validArgs collidingArgsPlane1X16 ∧
      collidingArgsX256.encode = collidingArgsPlane1X16.encode ∧
      collidingArgsX256 ≠ collidingArgsPlane1X16) ∧
    (validArgs collidingArgsFourPlanes ∧ validArgs collidingArgsTwoPlanes ∧
      collidingArgsFourPlanes.encode = collidingArgsTwoPlanes.encode ∧
      collidingArgsFourPlanes ≠ collidingArgsTwoPlanes) := by
  decide

/-- C2, amended. For two valid descriptions with equal encoded values, the colour model,
the colour spec or raw pattern, the chroma subsampling, the memory layout, the data type,
the swizzle and the packing of plane 0 are equal; the packings of planes 1 and 2 are equal
when both fit the plane field (at most two channels, at most 128 bits per pixel), and the
packings of plane 3 are equal when both are among absent, X8, X16, X24, X32, X48, X64. -/
theorem C2_encoder_injective_up_to_planes (a b : FormatArgs) (ha : validArgs a)
    (hb : validArgs b) (h : a.encode = b.encode) :
    a.ColorModel = b.ColorModel ∧ a.ColorSpecOrRawPattern = b.ColorSpecOrRawPattern ∧
    a.Subsampling = b.Subsampling ∧ a.MemLayout = b.MemLayout ∧ a.DataType = b.DataType ∧
    a.Swizzle = b.Swizzle ∧ a.Packing0 = b.Packing0 ∧
    (fitsPlane12 a.Packing1 → fitsPlane12 b.Packing1 → a.Packing1 = b.Packing1) ∧
    (fitsPlane12 a.Packing2 → fitsPlane12 b.Packing2 → a.Packing2 = b.Packing2) ∧
    (a.Packing3 ∈ wholeWordPackings → b.Packing3 ∈ wholeWordPackings →
      a.Packing3 = b.Packing3) := by
  have fa := make_fields a.ColorModel a.ColorSpecOrRawPattern a.Subsampling a.MemLayout
    a.DataType a.Swizzle a.Packing0 a.Packing1 a.Packing2 a.Packing3
  have fb := make_fields b.ColorModel b.ColorSpecOrRawPattern b.Subsampling b.MemLayout
    b.DataType b.Swizzle b.Packing0 b.Packing1 b.Packing2 b.Packing3
  have h' : VPI_DETAIL_MAKE_FMT_HELPER a.ColorModel a.ColorSpecOrRawPattern a.Subsampling
      a.MemLayout a.DataType a.Swizzle a.Packing0 a.Packing1 a.Packing2 a.Packing3
      = VPI_DETAIL_MAKE_FMT_HELPER b.ColorModel b.ColorSpecOrRawPattern b.Subsampling
        b.MemLayout b.DataType b.Swizzle b.Packing0 b.Packing1 b.Packing2 b.Packing3 := h
  rw [h'] at fa
  obtain ⟨a0, a1, a2, a3, a4, a5, a6, a7⟩ := fa
  obtain ⟨b0, b1, b2, b3, b4, b5, b6, b7⟩ := fb
  rw [b0] at a0
  rw [b1] at a1
  rw [b2] at a2
  rw [b3] at a3
  rw [b4] at a4
  rw [b5] at a5
  rw [b6] at a6
  rw [b7] at a7
  have hcol := color_fields_injective a b ha hb a2.symm
  obtain ⟨-, -, -, hmlA, hdtA, hswA, hpA, -, -, -⟩ := ha
  obtain ⟨-, -, -, hmlB, hdtB, hswB, hpB, -, -, -⟩ := hb
  have swA : 0 ≤ a.Swizzle ∧ a.Swizzle < 2 ^ 12 := by
    have := make_swizzle_lt (VPI_DETAIL_GET_BITFIELD a.Swizzle 0 3)
      (VPI_DETAIL_GET_BITFIELD a.Swizzle 3 3) (VPI_DETAIL_GET_BITFIELD a.Swizzle 6 3)
      (VPI_DETAIL_GET_BITFIELD a.Swizzle 9 3)
    rw [hswA.1]
    omega
  have swB : 0 ≤ b.Swizzle ∧ b.Swizzle < 2 ^ 12 := by
    have := make_swizzle_lt (VPI_DETAIL_GET_BITFIELD b.Swizzle 0 3)
      (VPI_DETAIL_GET_BITFIELD b.Swizzle 3 3) (VPI_DETAIL_GET_BITFIELD b.Swizzle 6 3)
      (VPI_DETAIL_GET_BITFIELD b.Swizzle 9 3)
    rw [hswB.1]
    omega
  rw [toU64_of_nonneg _ swA.1 (by omega), toU64_of_nonneg _ swB.1 (by omega)] at a0
  rw [toU64_of_nonneg _ (by omega) (by omega), toU64_of_nonneg _ (by omega) (by omega)] at a1 a7
  refine ⟨hcol.1, hcol.2.1, hcol.2.2, by omega, by omega, by omega, ?_, ?_, ?_, ?_⟩
  · exact plane0_field_injective _ hpA.1 _ hpB.1 a3.symm
  · intro h1 h2
    exact plane12_field_injective _ hpA.2.1 _ hpB.2.1 h1 h2 a4.symm
  · intro h1 h2
    exact plane12_field_injective _ hpA.2.2.1 _ hpB.2.2.1 h1 h2 a5.symm
  · intro h1 h2
    exact plane3_field_injective _ h1 _ h2 a6.symm

/-- C2, amended, at the two descriptions that differ in the fourth plane packing only: their
encoded values are equal and the packings of plane 1 are equal. -/
theorem C2_encoder_injective_up_to_planes_witness :
    validArgs collidingArgsX16 ∧ validArgs collidingArgsB6X10 ∧
    collidingArgsX16.encode = collidingArgsB6X10.encode ∧
    collidingArgsX16.Packing1 = collidingArgsB6X10.Packing1 :=
  ⟨by decide, by decide, by decide,
    (C2_encoder_injective_up_to_planes collidingArgsX16 collidingArgsB6X10 (by decide)
      (by decide) (by decide)).2.2.2.2.2.2.2.1 (by decide) (by decide)⟩

/-! ## Fields of an encoded format -/

/-- C3. For a swizzle below `2 ^ 12`, a memory layout in 1..7 and a data type in 1..4
(UNSIGNED, SIGNED, FLOAT, FLOATISP), whatever the other arguments, the swizzle, the
memory layout and the data type are read back from the bit fields (0, 12), (12, 3) and
(61, 3) of the encoded format viewed as a 64-bit pattern. -/
theorem C3_field_recovery (cm cs css ml dt sw p0 p1 p2 p3 : Int)
    (hsw : 0 ≤ sw ∧ sw < 2 ^ 12) (hml : 1 ≤ ml ∧ ml ≤ 7) (hdt : 1 ≤ dt ∧ dt ≤ 4) :
    (VPI_DETAIL_GET_BITFIELD (VPI_DETAIL_MAKE_FMT_HELPER cm cs css ml dt sw p0 p1 p2 p3) 0 12
        : Int) = sw ∧
    (VPI_DETAIL_GET_BITFIELD (VPI_DETAIL_MAKE_FMT_HELPER cm cs css ml dt sw p0 p1 p2 p3) 12 3
        : Int) = ml ∧
    (VPI_DETAIL_GET_BITFIELD (VPI_DETAIL_MAKE_FMT_HELPER cm cs css ml dt sw p0 p1 p2 p3) 61 3
        : Int) = dt := by
  have hc := colorModelField_lt cm cs css
  have e1 : toU64 sw = sw.toNat := by unfold toU64; omega
  have e2 : toU64 ml = ml.toNat := by unfold toU64; omega
  have e3 : toU64 dt = dt.toNat := by unfold toU64; omega
  simp only [get_bitfield_eq, toU64_make, e1, e2, e3]
  refine ⟨?_, ?_, ?_⟩ <;> omega

/-- C3 at the arguments of `VPI_IMAGE_FORMAT_S16`. -/
theorem C3_field_recovery_witness :
    (VPI_DETAIL_GET_BITFIELD VPI_IMAGE_FORMAT_S16 0 12 : Int) = VPI_SWIZZLE_X000 ∧
    (VPI_DETAIL_GET_BITFIELD VPI_IMAGE_FORMAT_S16 12 3 : Int) = VPI_MEM_LAYOUT_PL ∧
    (VPI_DETAIL_GET_BITFIELD VPI_IMAGE_FORMAT_S16 61 3 : Int) = VPI_DATA_TYPE_SIGNED :=
  C3_field_recovery VPI_COLOR_MODEL_UNDEFINED VPI_COLOR_SPEC_UNDEFINED VPI_CSS_NONE
    VPI_MEM_LAYOUT_PL VPI_DATA_TYPE_SIGNED VPI_SWIZZLE_X000 VPI_PACKING_X16 0 0 0
    (by decide) (by decide) (by decide)

/-- C4. Changing exactly one of the arguments Swizzle, MemLayout, Packing0, Packing1,
Packing2, Packing3, DataType of `VPI_DETAIL_MAKE_FMT_HELPER` leaves every bit of the
result outside that argument's own field unchanged (Swizzle bits 0..11, MemLayout 12..14,
Packing0 35..43, Packing1 44..50, Packing2 51..57, Packing3 58..60, DataType 61..63),
for all argument values, in range or not. -/
theorem C4_disjoint_bitfields (cm cs css ml dt sw p0 p1 p2 p3 : Int) :
    (∀ sw' : Int, sameOutside 0 12
      (VPI_DETAIL_MAKE_FMT_HELPER cm cs css ml dt sw p0 p1 p2 p3)
      (VPI_DETAIL_MAKE_FMT_HELPER cm cs css ml dt sw' p0 p1 p2 p3)) ∧
    (∀ ml' : Int, sameOutside 12 15
      (VPI_DETAIL_MAKE_FMT_HELPER cm cs css ml dt sw p0 p1 p2 p3)
      (VPI_DETAIL_MAKE_FMT_HELPER cm cs css ml' dt sw p0 p1 p2 p3)) ∧
    (∀ p0' : Int, sameOutside 35 44
      (VPI_DETAIL_MAKE_FMT_HELPER cm cs css ml dt sw p0 p1 p2 p3)
      (VPI_DETAIL_MAKE_FMT_HELPER cm cs css ml dt sw p0' p1 p2 p3)) ∧
    (∀ p1' : Int, sameOutside 44 51
      (VPI_DETAIL_MAKE_FMT_HELPER cm cs css ml dt sw p0 p1 p2 p3)
      (VPI_DETAIL_MAKE_FMT_HELPER cm cs css ml dt sw p0 p1' p2 p3)) ∧
    (∀ p2' : Int, sameOutside 51 58
      (VPI_DETAIL_MAKE_FMT_HELPER cm cs css ml dt sw p0 p1 p2 p3)
      (VPI_DETAIL_MAKE_FMT_HELPER cm cs css ml dt sw p0 p1 p2' p3)) ∧
    (∀ p3' : Int, sameOutside 58 61
      (VPI_DETAIL_MAKE_FMT_HELPER cm cs css ml dt sw p0 p1 p2 p3)
      (VPI_DETAIL_MAKE_FMT_HELPER cm cs css ml dt sw p0 p1 p2 p3')) ∧
    (∀ dt' : Int, sameOutside 61 64
      (VPI_DETAIL_MAKE_FMT_HELPER cm cs css ml dt sw p0 p1 p2 p3)
      (VPI_DETAIL_MAKE_FMT_HELPER cm cs css ml dt' sw p0 p1 p2 p3)) := by
  have hc := colorModelField_lt cm cs css
  refine ⟨?_, ?_, ?_, ?_, ?_, ?_, ?_⟩ <;> intro x <;>
    refine sameOutside_of _ _ _ _ ?_ ?_ <;> rw [toU64_make, toU64_make] <;> omega

/-! ## Sign of an encoded format -/

/-- C5, refuted as stated: `VPI_IMAGE_FORMAT_S8` and `VPI_IMAGE_FORMAT_U8` do not have
opposite signs, both are non-negative. -/
theorem C5_sign_counterexample :
    ¬ ((VPI_IMAGE_FORMAT_S8 < 0 ∧ 0 ≤ VPI_IMAGE_FORMAT_U8) ∨
        (0 ≤ VPI_IMAGE_FORMAT_S8 ∧ VPI_IMAGE_FORMAT_U8 < 0)) := by
  decide

/-- C5, amended. For all other arguments, the formats encoded with
`VPI_DATA_TYPE_SIGNED` and with `VPI_DATA_TYPE_UNSIGNED` are both non-negative; they agree
on every bit outside the data-type field 61..63, which holds 2 and 1. The sign bit is
bit 2 of the data type: with a memory layout in 1..7 the format encoded with
`VPI_DATA_TYPE_FLOATISP` is negative, and it too agrees with the unsigned one outside
bits 61..63. -/
theorem C5_sign_of_data_type (cm cs css ml sw p0 p1 p2 p3 : Int) :
    0 ≤ VPI_DETAIL_MAKE_FMT_HELPER cm cs css ml VPI_DATA_TYPE_SIGNED sw p0 p1 p2 p3 ∧
    0 ≤ VPI_DETAIL_MAKE_FMT_HELPER cm cs css ml VPI_DATA_TYPE_UNSIGNED sw p0 p1 p2 p3 ∧
    sameOutside 61 64
      (VPI_DETAIL_MAKE_FMT_HELPER cm cs css ml VPI_DATA_TYPE_SIGNED sw p0 p1 p2 p3)
      (VPI_DETAIL_MAKE_FMT_HELPER cm cs css ml VPI_DATA_TYPE_UNSIGNED sw p0 p1 p2 p3) ∧
    VPI_DETAIL_GET_BITFIELD
      (VPI_DETAIL_MAKE_FMT_HELPER cm cs css ml VPI_DATA_TYPE_SIGNED sw p0 p1 p2 p3) 61 3 = 2 ∧
    VPI_DETAIL_GET_BITFIELD
      (VPI_DETAIL_MAKE_FMT_HELPER cm cs css ml VPI_DATA_TYPE_UNSIGNED sw p0 p1 p2 p3) 61 3 = 1 ∧
    (1 ≤ ml ∧ ml ≤ 7 →
      VPI_DETAIL_MAKE_FMT_HELPER cm cs css ml VPI_DATA_TYPE_FLOATISP sw p0 p1 p2 p3 < 0 ∧
      sameOutside 61 64
        (VPI_DETAIL_MAKE_FMT_HELPER cm cs css ml VPI_DATA_TYPE_FLOATISP sw p0 p1 p2 p3)
        (VPI_DETAIL_MAKE_FMT_HELPER cm cs css ml VPI_DATA_TYPE_UNSIGNED sw p0 p1 p2 p3)) := by
  have hc := colorModelField_lt cm cs css
  have d1 : toU64 VPI_DATA_TYPE_UNSIGNED = 1 := by decide
  have d2 : toU64 VPI_DATA_TYPE_SIGNED = 2 := by decide
  have d4 : toU64 VPI_DATA_TYPE_FLOATISP = 4 := by decide
  have hS := fmtPattern_lt cm cs css ml VPI_DATA_TYPE_SIGNED sw p0 p1 p2 p3
  have hF := fmtPattern_lt cm cs css ml VPI_DATA_TYPE_FLOATISP sw p0 p1 p2 p3
  refine ⟨?_, ?_, ?_, ?_, ?_, ?_⟩
  · rw [make_eq, d2]; omega
  · rw [make_eq, d1]; omega
  · refine sameOutside_of _ _ _ _ ?_ ?_ <;> rw [toU64_make, toU64_make] <;> omega
  · rw [get_bitfield_eq, toU64_make, d2]; omega
  · rw [get_bitfield_eq, toU64_make, d1]; omega
  · intro _
    refine ⟨?_, ?_⟩
    · rw [make_eq, d4]; omega
    · refine sameOutside_of _ _ _ _ ?_ ?_ <;> rw [toU64_make, toU64_make] <;> omega

/-- C5, amended, at the arguments of `VPI_IMAGE_FORMAT_S8`, pitch linear. -/
theorem C5_sign_of_data_type_witness :
    (1 ≤ VPI_MEM_LAYOUT_PL ∧ VPI_MEM_LAYOUT_PL ≤ 7) ∧
    0 ≤ VPI_IMAGE_FORMAT_S8 ∧ 0 ≤ VPI_IMAGE_FORMAT_U8 ∧
    VPI_DETAIL_MAKE_FMT_HELPER VPI_COLOR_MODEL_UNDEFINED VPI_COLOR_SPEC_UNDEFINED VPI_CSS_NONE
      VPI_MEM_LAYOUT_PL VPI_DATA_TYPE_FLOATISP VPI_SWIZZLE_X000 VPI_PACKING_X8 0 0 0 < 0 :=
  have h := C5_sign_of_data_type VPI_COLOR_MODEL_UNDEFINED VPI_COLOR_SPEC_UNDEFINED
    VPI_CSS_NONE VPI_MEM_LAYOUT_PL VPI_SWIZZLE_X000 VPI_PACKING_X8 0 0 0
  ⟨by decide, h.1, h.2.1, (h.2.2.2.2.2 (by decide)).1⟩

/-! ## Predefined formats and data layout -/

/-- C6. The bit fields of `VPI_IMAGE_FORMAT_NV12` decode to colour model YCbCr (bit 16 clear,
bits 16..34 not all ones), chroma subsampling 4:2:0, pitch-linear memory layout, unsigned
data type, plane 0 packing `VPI_PACKING_X8` (one channel of 8 bits), plane 1 packing
`VPI_PACKING_X8_Y8` (two channels, 16 bits per pixel), and absent planes 2 and 3. -/
theorem C6_nv12_fields :
    VPI_DETAIL_GET_BITFIELD VPI_IMAGE_FORMAT_NV12 16 1 = 0 ∧
    VPI_DETAIL_GET_BITFIELD VPI_IMAGE_FORMAT_NV12 16 19 ≠ 2 ^ 19 - 1 ∧
    (VPI_DETAIL_GET_BITFIELD VPI_IMAGE_FORMAT_NV12 17 3 : Int) = VPI_CSS_420 ∧
    (VPI_DETAIL_GET_BITFIELD VPI_IMAGE_FORMAT_NV12 12 3 : Int) = VPI_MEM_LAYOUT_PITCH_LINEAR ∧
    (VPI_DETAIL_GET_BITFIELD VPI_IMAGE_FORMAT_NV12 61 3 : Int) = VPI_DATA_TYPE_UNSIGNED ∧
    VPI_DETAIL_GET_BITFIELD VPI_IMAGE_FORMAT_NV12 38 2 + 1 = 1 ∧
    decodeBpp (VPI_DETAIL_GET_BITFIELD VPI_IMAGE_FORMAT_NV12 40 4)
      (VPI_DETAIL_GET_BITFIELD VPI_IMAGE_FORMAT_NV12 35 3) = some 8 ∧
    ((VPI_DETAIL_GET_BITFIELD VPI_IMAGE_FORMAT_NV12 40 4 <<< 6 |||
        VPI_DETAIL_GET_BITFIELD VPI_IMAGE_FORMAT_NV12 38 2 <<< 4 |||
        VPI_DETAIL_GET_BITFIELD VPI_IMAGE_FORMAT_NV12 35 3 : Nat) : Int) = VPI_PACKING_X8 ∧
    VPI_DETAIL_GET_BITFIELD VPI_IMAGE_FORMAT_NV12 47 1 + 1 = 2 ∧
    decodeBpp (VPI_DETAIL_GET_BITFIELD VPI_IMAGE_FORMAT_NV12 48 3)
      (VPI_DETAIL_GET_BITFIELD VPI_IMAGE_FORMAT_NV12 44 3) = some 16 ∧
    ((VPI_DETAIL_GET_BITFIELD VPI_IMAGE_FORMAT_NV12 48 3 <<< 6 |||
        VPI_DETAIL_GET_BITFIELD VPI_IMAGE_FORMAT_NV12 47 1 <<< 4 |||
        VPI_DETAIL_GET_BITFIELD VPI_IMAGE_FORMAT_NV12 44 3 : Nat) : Int) = VPI_PACKING_X8_Y8 ∧
    VPI_DETAIL_GET_BITFIELD VPI_IMAGE_FORMAT_NV12 51 7 = 0 ∧
    VPI_DETAIL_GET_BITFIELD VPI_IMAGE_FORMAT_NV12 58 3 = 0 := by
  decide

/-- C7. The scenario format has one plane (plane fields 1..3 zero, plane 0 field non-zero),
3 channels in plane 0 and colour model RGB (bits 16..34 not all ones, bit 16 set, bits 17..19
below 7 and equal to RGB - 2); it agrees with `VPI_IMAGE_FORMAT_RGB8` on memory layout,
data type, swizzle, every plane field and bits 16..19, on every bit outside 20..34, and
differs from it. -/
theorem C7_scenario :
    VPI_DETAIL_GET_BITFIELD scenarioFormat 44 7 = 0 ∧
    VPI_DETAIL_GET_BITFIELD scenarioFormat 51 7 = 0 ∧
    VPI_DETAIL_GET_BITFIELD scenarioFormat 58 3 = 0 ∧
    VPI_DETAIL_GET_BITFIELD scenarioFormat 35 9 ≠ 0 ∧
    VPI_DETAIL_GET_BITFIELD scenarioFormat 38 2 + 1 = 3 ∧
    VPI_DETAIL_GET_BITFIELD scenarioFormat 16 19 ≠ 2 ^ 19 - 1 ∧
    VPI_DETAIL_GET_BITFIELD scenarioFormat 16 1 = 1 ∧
    VPI_DETAIL_GET_BITFIELD scenarioFormat 17 3 < 7 ∧
    ((2 + VPI_DETAIL_GET_BITFIELD scenarioFormat 17 3 : Nat) : Int) = VPI_COLOR_MODEL_RGB ∧
    VPI_DETAIL_GET_BITFIELD scenarioFormat 12 3
      = VPI_DETAIL_GET_BITFIELD VPI_IMAGE_FORMAT_RGB8 12 3 ∧
    VPI_DETAIL_GET_BITFIELD scenarioFormat 61 3
      = VPI_DETAIL_GET_BITFIELD VPI_IMAGE_FORMAT_RGB8 61 3 ∧
    VPI_DETAIL_GET_BITFIELD scenarioFormat 0 12
      = VPI_DETAIL_GET_BITFIELD VPI_IMAGE_FORMAT_RGB8 0 12 ∧
    VPI_DETAIL_GET_BITFIELD scenarioFormat 35 9
      = VPI_DETAIL_GET_BITFIELD VPI_IMAGE_FORMAT_RGB8 35 9 ∧
    VPI_DETAIL_GET_BITFIELD scenarioFormat 44 7
      = VPI_DETAIL_GET_BITFIELD VPI_IMAGE_FORMAT_RGB8 44 7 ∧
    VPI_DETAIL_GET_BITFIELD scenarioFormat 51 7
      = VPI_DETAIL_GET_BITFIELD VPI_IMAGE_FORMAT_RGB8 51 7 ∧
    VPI_DETAIL_GET_BITFIELD scenarioFormat 58 3
      = VPI_DETAIL_GET_BITFIELD VPI_IMAGE_FORMAT_RGB8 58 3 ∧
    VPI_DETAIL_GET_BITFIELD scenarioFormat 16 4
      = VPI_DETAIL_GET_BITFIELD VPI_IMAGE_FORMAT_RGB8 16 4 ∧
    sameOutside 20 35 scenarioFormat VPI_IMAGE_FORMAT_RGB8 ∧
    scenarioFormat ≠ VPI_IMAGE_FORMAT_RGB8 := by
  decide

/-- C8. Two encodings that differ only in the colour spec agree on every bit outside 20..34,
hence on the fields of memory layout (12, 3), data type (61, 3), swizzle (0, 12), chroma
subsampling (17, 3) and of the four plane packings (35, 9), (44, 7), (51, 7), (58, 3),
which also give the plane count. This holds for every colour model, in particular for
YCbCr and the RGB-like models 2..8, whose colour spec is stored in bits 20..34. -/
theorem C8_color_spec_frame (cm cs cs' css ml dt sw p0 p1 p2 p3 : Int) :
    sameOutside 20 35 (VPI_DETAIL_MAKE_FMT_HELPER cm cs css ml dt sw p0 p1 p2 p3)
      (VPI_DETAIL_MAKE_FMT_HELPER cm cs' css ml dt sw p0 p1 p2 p3) ∧
    VPI_DETAIL_GET_BITFIELD (VPI_DETAIL_MAKE_FMT_HELPER cm cs css ml dt sw p0 p1 p2 p3) 12 3
      = VPI_DETAIL_GET_BITFIELD (VPI_DETAIL_MAKE_FMT_HELPER cm cs' css ml dt sw p0 p1 p2 p3) 12 3 ∧
    VPI_DETAIL_GET_BITFIELD (VPI_DETAIL_MAKE_FMT_HELPER cm cs css ml dt sw p0 p1 p2 p3) 61 3
      = VPI_DETAIL_GET_BITFIELD (VPI_DETAIL_MAKE_FMT_HELPER cm cs' css ml dt sw p0 p1 p2 p3) 61 3 ∧
    VPI_DETAIL_GET_BITFIELD (VPI_DETAIL_MAKE_FMT_HELPER cm cs css ml dt sw p0 p1 p2 p3) 0 12
      = VPI_DETAIL_GET_BITFIELD (VPI_DETAIL_MAKE_FMT_HELPER cm cs' css ml dt sw p0 p1 p2 p3) 0 12 ∧
    VPI_DETAIL_GET_BITFIELD (VPI_DETAIL_MAKE_FMT_HELPER cm cs css ml dt sw p0 p1 p2 p3) 17 3
      = VPI_DETAIL_GET_BITFIELD (VPI_DETAIL_MAKE_FMT_HELPER cm cs' css ml dt sw p0 p1 p2 p3) 17 3 ∧
    VPI_DETAIL_GET_BITFIELD (VPI_DETAIL_MAKE_FMT_HELPER cm cs css ml dt sw p0 p1 p2 p3) 35 9
      = VPI_DETAIL_GET_BITFIELD (VPI_DETAIL_MAKE_FMT_HELPER cm cs' css ml dt sw p0 p1 p2 p3) 35 9 ∧
    VPI_DETAIL_GET_BITFIELD (VPI_DETAIL_MAKE_FMT_HELPER cm cs css ml dt sw p0 p1 p2 p3) 44 7
      = VPI_DETAIL_GET_BITFIELD (VPI_DETAIL_MAKE_FMT_HELPER cm cs' css ml dt sw p0 p1 p2 p3) 44 7 ∧
    VPI_DETAIL_GET_BITFIELD (VPI_DETAIL_MAKE_FMT_HELPER cm cs css ml dt sw p0 p1 p2 p3) 51 7
      = VPI_DETAIL_GET_BITFIELD (VPI_DETAIL_MAKE_FMT_HELPER cm cs' css ml dt sw p0 p1 p2 p3) 51 7 ∧
    VPI_DETAIL_GET_BITFIELD (VPI_DETAIL_MAKE_FMT_HELPER cm cs css ml dt sw p0 p1 p2 p3) 58 3
      = VPI_DETAIL_GET_BITFIELD (VPI_DETAIL_MAKE_FMT_HELPER cm cs' css ml dt sw p0 p1 p2 p3) 58 3 := by
  have e : colorModelField cm cs css % 16 = colorModelField cm cs' css % 16 ∧
      colorModelField cm cs css < 2 ^ 19 ∧ colorModelField cm cs' css < 2 ^ 19 := by
    unfold colorModelField
    split_ifs <;> omega
  obtain ⟨e1, e2, e3⟩ := e
  refine ⟨?_, ?_, ?_, ?_, ?_, ?_, ?_, ?_, ?_⟩
  · refine sameOutside_of _ _ _ _ ?_ ?_ <;> rw [toU64_make, toU64_make] <;> omega
  all_goals try simp only [make_fields]
  rw [get_bitfield_sub _ 16 19 17 3 (by norm_num) (by norm_num),
    get_bitfield_sub _ 16 19 17 3 (by norm_num) (by norm_num)]
  simp only [make_fields]
  omega

/-! ## What the encoder does not check -/

/-- C9, refuted as stated: the swizzle XYZW selects 4 channels, the planes X8 and X8_Y8 hold
3, and the encoder still returns a value other than `VPI_IMAGE_FORMAT_INVALID`. -/
theorem C9_make_counterexample :
    swizzleChannelCount VPI_SWIZZLE_XYZW = 4 ∧
    packingChannelCount VPI_PACKING_X8 + packingChannelCount VPI_PACKING_X8_Y8
      + packingChannelCount 0 + packingChannelCount 0 = 3 ∧
    VPI_DETAIL_MAKE_FMT_HELPER VPI_COLOR_MODEL_YCbCr VPI_COLOR_SPEC_BT601 VPI_CSS_420
      VPI_MEM_LAYOUT_PL VPI_DATA_TYPE_UNSIGNED VPI_SWIZZLE_XYZW VPI_PACKING_X8 VPI_PACKING_X8_Y8
      0 0 ≠ VPI_IMAGE_FORMAT_INVALID := by
  decide

/-- C9, amended. The encoder does not compare the channel count of the swizzle with the
channel counts of the planes: for every argument tuple with a memory layout in 1..7,
whether the counts agree or not, the result differs from `VPI_IMAGE_FORMAT_INVALID` and
holds the swizzle as given in bits 0..11. -/
theorem C9_make_unchecked (cm cs css ml dt sw p0 p1 p2 p3 : Int) (hml : 1 ≤ ml ∧ ml ≤ 7) :
    VPI_DETAIL_MAKE_FMT_HELPER cm cs css ml dt sw p0 p1 p2 p3 ≠ VPI_IMAGE_FORMAT_INVALID ∧
    VPI_DETAIL_GET_BITFIELD (VPI_DETAIL_MAKE_FMT_HELPER cm cs css ml dt sw p0 p1 p2 p3) 0 12
      = toU64 sw % 2 ^ 12 := by
  refine ⟨?_, (make_fields cm cs css ml dt sw p0 p1 p2 p3).1⟩
  intro h
  have h2 := (make_fields cm cs css ml dt sw p0 p1 p2 p3).2.1
  rw [h] at h2
  have e1 : toU64 ml = ml.toNat := by unfold toU64; omega
  have e0 : VPI_DETAIL_GET_BITFIELD VPI_IMAGE_FORMAT_INVALID 12 3 = 0 := by decide
  rw [e0, e1] at h2
  omega

/-- C9, amended, at the swizzle XYZW (4 channels) with the planes X8 and X8_Y8 (3 channels). -/
theorem C9_make_unchecked_witness :
    swizzleChannelCount VPI_SWIZZLE_XYZW ≠
      packingChannelCount VPI_PACKING_X8 + packingChannelCount VPI_PACKING_X8_Y8
        + packingChannelCount 0 + packingChannelCount 0 ∧
    VPI_DETAIL_MAKE_FMT_HELPER VPI_COLOR_MODEL_YCbCr VPI_COLOR_SPEC_BT601 VPI_CSS_420
      VPI_MEM_LAYOUT_PL VPI_DATA_TYPE_UNSIGNED VPI_SWIZZLE_XYZW VPI_PACKING_X8 VPI_PACKING_X8_Y8
      0 0 ≠ VPI_IMAGE_FORMAT_INVALID :=
  ⟨by decide, (C9_make_unchecked VPI_COLOR_MODEL_YCbCr VPI_COLOR_SPEC_BT601 VPI_CSS_420
    VPI_MEM_LAYOUT_PL VPI_DATA_TYPE_UNSIGNED VPI_SWIZZLE_XYZW VPI_PACKING_X8 VPI_PACKING_X8_Y8
    0 0 (by decide)).1⟩

/-- C10, refuted as stated: with the fourth plane packing `VPI_PACKING_X96` (bpp code 6,
96 bits per pixel) the encoder returns a value other than `VPI_IMAGE_FORMAT_INVALID`. -/
theorem C10_wide_fourth_plane_counterexample :
    decodeBpp (VPI_DETAIL_GET_BITFIELD VPI_PACKING_X96 6 4)
      (VPI_DETAIL_GET_BITFIELD VPI_PACKING_X96 0 4) = some 96 ∧
    VPI_DETAIL_MAKE_FMT_HELPER VPI_COLOR_MODEL_UNDEFINED VPI_COLOR_SPEC_UNDEFINED VPI_CSS_NONE
      VPI_MEM_LAYOUT_PL VPI_DATA_TYPE_UNSIGNED VPI_SWIZZLE_XYZW VPI_PACKING_X8 VPI_PACKING_X8
      VPI_PACKING_X8 VPI_PACKING_X96 ≠ VPI_IMAGE_FORMAT_INVALID := by
  decide

/-- C10, amended. The encoder does not reject a fourth plane of more than 64 bits per pixel:
for every memory layout in 1..7, every data type and every predefined packing of more
than 64 bits per pixel as `Packing3`, the result differs from
`VPI_IMAGE_FORMAT_INVALID`, and its plane 3 field (bits 58..60) holds the low three bits
of the packing's bpp code. -/
theorem C10_wide_fourth_plane (cm cs css ml dt sw p0 p1 p2 p3 : Int)
    (hml : 1 ≤ ml ∧ ml ≤ 7) (hp3 : p3 ∈ widePackings) :
    VPI_DETAIL_MAKE_FMT_HELPER cm cs css ml dt sw p0 p1 p2 p3 ≠ VPI_IMAGE_FORMAT_INVALID ∧
    VPI_DETAIL_GET_BITFIELD (VPI_DETAIL_MAKE_FMT_HELPER cm cs css ml dt sw p0 p1 p2 p3) 58 3
      = VPI_DETAIL_GET_BITFIELD p3 6 4 % 2 ^ 3 := by
  have hw : ∀ p ∈ widePackings,
      VPI_DETAIL_ENCODE_PACKING p 0 0 3 % 2 ^ 3 = VPI_DETAIL_GET_BITFIELD p 6 4 % 2 ^ 3 := by
    decide
  refine ⟨?_, ?_⟩
  · intro h
    have h2 := (make_fields cm cs css ml dt sw p0 p1 p2 p3).2.1
    rw [h] at h2
    have e1 : toU64 ml = ml.toNat := by unfold toU64; omega
    have e0 : VPI_DETAIL_GET_BITFIELD VPI_IMAGE_FORMAT_INVALID 12 3 = 0 := by decide
    rw [e0, e1] at h2
    omega
  · rw [(make_fields cm cs css ml dt sw p0 p1 p2 p3).2.2.2.2.2.2.1]
    exact hw p3 hp3

/-- C10, amended, at four planes X8, X8, X8, X96, pitch linear, unsigned. -/
theorem C10_wide_fourth_plane_witness :
    VPI_DETAIL_MAKE_FMT_HELPER VPI_COLOR_MODEL_UNDEFINED VPI_COLOR_SPEC_UNDEFINED VPI_CSS_NONE
      VPI_MEM_LAYOUT_PL VPI_DATA_TYPE_UNSIGNED VPI_SWIZZLE_XYZW VPI_PACKING_X8 VPI_PACKING_X8
      VPI_PACKING_X8 VPI_PACKING_X96 ≠ VPI_IMAGE_FORMAT_INVALID :=
  (C10_wide_fourth_plane VPI_COLOR_MODEL_UNDEFINED VPI_COLOR_SPEC_UNDEFINED VPI_CSS_NONE
    VPI_MEM_LAYOUT_PL VPI_DATA_TYPE_UNSIGNED VPI_SWIZZLE_XYZW VPI_PACKING_X8 VPI_PACKING_X8
    VPI_PACKING_X8 VPI_PACKING_X96 (by decide) (by decide)).1


/-! ## Arithmetic form of the packing and colour-spec codes -/

theorem lor3_eq_add (hi mid lo k1 k2 : Nat) (hlo : lo < 2 ^ k1) (hmid : 2 ^ k1 ∣ mid)
    (hsum : lo + mid < 2 ^ k2) (hhi : 2 ^ k2 ∣ hi) : hi ||| mid ||| lo = lo + mid + hi := by
  rw [← lor_eq_add (lo + mid) hi k2 hsum hhi, ← lor_eq_add lo mid k1 hlo hmid]
  ac_rfl

theorem encode_packing_plane0 (P : Int) :
    VPI_DETAIL_ENCODE_PACKING P 2 3 4
      = toU64 P % 2 ^ 3 + toU64 P / 2 ^ 4 % 2 ^ 2 * 2 ^ 3 + toU64 P / 2 ^ 6 % 2 ^ 4 * 2 ^ 5 := by
  unfold VPI_DETAIL_ENCODE_PACKING VPI_DETAIL_ADJUST_BPP_ENCODING
  rw [if_neg (by omega), set_bitfield_eq _ (3 + 2) 4 (by norm_num),
    set_bitfield_eq _ 3 2 (by norm_num), set_bitfield_eq _ 0 3 (by norm_num)]
  simp only [get_bitfield_eq, toU64_natCast]
  generalize toU64 P = u
  refine (lor3_eq_add _ _ _ 3 5 ?_ ?_ ?_ ?_).trans ?_ <;> omega

theorem encode_packing_plane12 (P : Int) :
    VPI_DETAIL_ENCODE_PACKING P 1 3 3
      = toU64 P % 2 ^ 3 + toU64 P / 2 ^ 4 % 2 ^ 1 * 2 ^ 3 + toU64 P / 2 ^ 6 % 2 ^ 3 * 2 ^ 4 := by
  unfold VPI_DETAIL_ENCODE_PACKING VPI_DETAIL_ADJUST_BPP_ENCODING
  rw [if_neg (by omega), set_bitfield_eq _ (3 + 1) 3 (by norm_num),
    set_bitfield_eq _ 3 1 (by norm_num), set_bitfield_eq _ 0 3 (by norm_num)]
  simp only [get_bitfield_eq, toU64_natCast]
  generalize toU64 P = u
  refine (lor3_eq_add _ _ _ 3 4 ?_ ?_ ?_ ?_).trans ?_ <;> omega

theorem encode_packing_plane3 (P : Int) :
    VPI_DETAIL_ENCODE_PACKING P 0 0 3
      = if toU64 P / 2 ^ 6 % 2 ^ 4 = 0 ∧ toU64 P % 2 ^ 4 = 4 then 7
        else toU64 P / 2 ^ 6 % 2 ^ 3 := by
  have hm : toU64 (-1) = 2 ^ 64 - 1 := by decide
  unfold VPI_DETAIL_ENCODE_PACKING VPI_DETAIL_ADJUST_BPP_ENCODING
  rw [set_bitfield_eq _ (0 + 0) 3 (by norm_num), set_bitfield_eq _ 0 0 (by norm_num),
    set_bitfield_eq _ 0 0 (by norm_num)]
  simp only [get_bitfield_eq, toU64_natCast, hm]
  generalize toU64 P = u
  refine (lor3_eq_add _ _ _ 0 0 ?_ ?_ ?_ ?_).trans ?_
  · omega
  · omega
  · omega
  · omega
  · simp only [pow_zero, Nat.mod_one, Nat.div_one, zero_mul, mul_one, add_zero, zero_add,
      true_and]
    split_ifs <;> omega

theorem bpp_nch_eq (bpp chcount : Int) :
    VPI_DETAIL_BPP_NCH bpp chcount
      = toU64 (if bpp ≤ 2 then bpp else if bpp = 4 then 3 else if bpp = 8 then 4 else 0) % 2 ^ 4
        + toU64 (chcount - 1) % 2 ^ 2 * 2 ^ 4
        + toU64 (VPI_DETAIL_ENCODE_BPP bpp) % 2 ^ 4 * 2 ^ 6 := by
  unfold VPI_DETAIL_BPP_NCH
  rw [set_bitfield_eq _ 6 4 (by norm_num), set_bitfield_eq _ 4 2 (by norm_num),
    set_bitfield_eq _ 0 4 (by norm_num)]
  refine (lor3_eq_add _ _ _ 4 6 ?_ ?_ ?_ ?_).trans ?_ <;> omega

theorem make_color_spec_eq (CSpace Encoding XferFunc Range LocHoriz LocVert : Int) :
    VPI_DETAIL_MAKE_COLOR_SPEC CSpace Encoding XferFunc Range LocHoriz LocVert
      = toU64 CSpace % 2 ^ 3 + toU64 XferFunc % 2 ^ 4 * 2 ^ 3 + toU64 Encoding % 2 ^ 3 * 2 ^ 7
        + toU64 LocHoriz % 2 ^ 2 * 2 ^ 10 + toU64 LocVert % 2 ^ 2 * 2 ^ 12
        + toU64 Range % 2 ^ 1 * 2 ^ 14 := by
  unfold VPI_DETAIL_MAKE_COLOR_SPEC
  rw [set_bitfield_eq _ 0 3 (by norm_num), set_bitfield_eq _ 3 4 (by norm_num),
    set_bitfield_eq _ 7 3 (by norm_num), set_bitfield_eq _ 10 2 (by norm_num),
    set_bitfield_eq _ 12 2 (by norm_num), set_bitfield_eq _ 14 1 (by norm_num)]
  have h1 := Nat.mod_lt (toU64 CSpace) (show 0 < 2 ^ 3 by norm_num)
  have h2 := Nat.mod_lt (toU64 XferFunc) (show 0 < 2 ^ 4 by norm_num)
  have h3 := Nat.mod_lt (toU64 Encoding) (show 0 < 2 ^ 3 by norm_num)
  have h4 := Nat.mod_lt (toU64 LocHoriz) (show 0 < 2 ^ 2 by norm_num)
  have h5 := Nat.mod_lt (toU64 LocVert) (show 0 < 2 ^ 2 by norm_num)
  have h6 := Nat.mod_lt (toU64 Range) (show 0 < 2 ^ 1 by norm_num)
  generalize toU64 CSpace % 2 ^ 3 = a at *
  generalize toU64 XferFunc % 2 ^ 4 = b at *
  generalize toU64 Encoding % 2 ^ 3 = c at *
  generalize toU64 LocHoriz % 2 ^ 2 = d at *
  generalize toU64 LocVert % 2 ^ 2 = e at *
  generalize toU64 Range % 2 ^ 1 = f at *
  rw [lor_eq_add (a * 2 ^ 0) (b * 2 ^ 3) 3 (by omega) (by omega),
    lor_eq_add (a * 2 ^ 0 + b * 2 ^ 3) (c * 2 ^ 7) 7 (by omega) (by omega),
    lor_eq_add (a * 2 ^ 0 + b * 2 ^ 3 + c * 2 ^ 7) (d * 2 ^ 10) 10 (by omega) (by omega),
    lor_eq_add (a * 2 ^ 0 + b * 2 ^ 3 + c * 2 ^ 7 + d * 2 ^ 10) (e * 2 ^ 12) 12 (by omega)
      (by omega),
    lor_eq_add (a * 2 ^ 0 + b * 2 ^ 3 + c * 2 ^ 7 + d * 2 ^ 10 + e * 2 ^ 12) (f * 2 ^ 14) 14
      (by omega) (by omega)]
  omega


theorem plane12_field_bpp :
    ∀ p ∈ predefinedPackings, ∀ q ∈ predefinedPackings,
      VPI_DETAIL_GET_BITFIELD p 6 4 ≤ 7 → VPI_DETAIL_GET_BITFIELD q 6 4 ≤ 7 →
      VPI_DETAIL_ENCODE_PACKING p 1 3 3 % 2 ^ 7 = VPI_DETAIL_ENCODE_PACKING q 1 3 3 % 2 ^ 7 →
      packingBitsPerPixel p = packingBitsPerPixel q ∧
        (packingChannelCount p = packingChannelCount q ∨
          packingChannelCount p = packingChannelCount q + 2 ∨
          packingChannelCount q = packingChannelCount p + 2) := by
  decide

theorem plane3_field_bpp :
    ∀ p ∈ predefinedPackings, ∀ q ∈ predefinedPackings,
      VPI_DETAIL_GET_BITFIELD p 6 4 ≤ 5 → VPI_DETAIL_GET_BITFIELD q 6 4 ≤ 5 →
      VPI_DETAIL_ENCODE_PACKING p 0 0 3 % 2 ^ 3 = VPI_DETAIL_ENCODE_PACKING q 0 0 3 % 2 ^ 3 →
      VPI_DETAIL_ENCODE_PACKING p 0 0 3 % 2 ^ 3 ≠ 0 →
      packingBitsPerPixel p = packingBitsPerPixel q := by
  decide

/-! ## Plane fields -/

/-- C11, refuted as stated: in plane 1 the packings X8 (one channel) and X3Y3Z2 (three
channels) give the same field 44..50, and in plane 3 the packings X16 (one channel) and
X8_Y8 (two channels), both of 16 bits per pixel, give the same field 58..60. -/
theorem C11_plane_field_counterexample :
    (packingChannelCount VPI_PACKING_X8 ≠ packingChannelCount VPI_PACKING_X3Y3Z2 ∧
      VPI_DETAIL_GET_BITFIELD
        (VPI_DETAIL_MAKE_FMT_HELPER VPI_COLOR_MODEL_UNDEFINED VPI_COLOR_SPEC_UNDEFINED
          VPI_CSS_NONE VPI_MEM_LAYOUT_PL VPI_DATA_TYPE_UNSIGNED VPI_SWIZZLE_XY00 VPI_PACKING_X8
          VPI_PACKING_X8 0 0) 44 7
        = VPI_DETAIL_GET_BITFIELD
          (VPI_DETAIL_MAKE_FMT_HELPER VPI_COLOR_MODEL_UNDEFINED VPI_COLOR_SPEC_UNDEFINED
            VPI_CSS_NONE VPI_MEM_LAYOUT_PL VPI_DATA_TYPE_UNSIGNED VPI_SWIZZLE_XY00
            VPI_PACKING_X8 VPI_PACKING_X3Y3Z2 0 0) 44 7) ∧
    (packingChannelCount VPI_PACKING_X16 ≠ packingChannelCount VPI_PACKING_X8_Y8 ∧
      packingBitsPerPixel VPI_PACKING_X16 = some 16 ∧
      packingBitsPerPixel VPI_PACKING_X8_Y8 = some 16 ∧
      VPI_DETAIL_GET_BITFIELD
        (VPI_DETAIL_MAKE_FMT_HELPER VPI_COLOR_MODEL_UNDEFINED VPI_COLOR_SPEC_UNDEFINED
          VPI_CSS_NONE VPI_MEM_LAYOUT_PL VPI_DATA_TYPE_UNSIGNED VPI_SWIZZLE_XYZW VPI_PACKING_X8
          VPI_PACKING_X8 VPI_PACKING_X8 VPI_PACKING_X16) 58 3
        = VPI_DETAIL_GET_BITFIELD
          (VPI_DETAIL_MAKE_FMT_HELPER VPI_COLOR_MODEL_UNDEFINED VPI_COLOR_SPEC_UNDEFINED
            VPI_CSS_NONE VPI_MEM_LAYOUT_PL VPI_DATA_TYPE_UNSIGNED VPI_SWIZZLE_XYZW
            VPI_PACKING_X8 VPI_PACKING_X8 VPI_PACKING_X8 VPI_PACKING_X8_Y8) 58 3) := by
  decide

/-- C11, amended. For predefined packings in two encoded formats: equal plane 0 fields
(bits 35..43) give equal packings, hence equal channel count and bits per pixel; equal
plane 1 fields (44..50) or plane 2 fields (51..57) of packings of at most 128 bits per
pixel give equal bits per pixel and channel counts that are equal or differ by 2; equal
non-zero plane 3 fields (58..60) of packings of at most 64 bits per pixel give equal bits
per pixel. -/
theorem C11_plane_field_determines (a b : FormatArgs) :
    (a.Packing0 ∈ predefinedPackings → b.Packing0 ∈ predefinedPackings →
      VPI_DETAIL_GET_BITFIELD a.encode 35 9 = VPI_DETAIL_GET_BITFIELD b.encode 35 9 →
      a.Packing0 = b.Packing0) ∧
    (a.Packing1 ∈ predefinedPackings → b.Packing1 ∈ predefinedPackings →
      VPI_DETAIL_GET_BITFIELD a.Packing1 6 4 ≤ 7 → VPI_DETAIL_GET_BITFIELD b.Packing1 6 4 ≤ 7 →
      VPI_DETAIL_GET_BITFIELD a.encode 44 7 = VPI_DETAIL_GET_BITFIELD b.encode 44 7 →
      packingBitsPerPixel a.Packing1 = packingBitsPerPixel b.Packing1 ∧
        (packingChannelCount a.Packing1 = packingChannelCount b.Packing1 ∨
          packingChannelCount a.Packing1 = packingChannelCount b.Packing1 + 2 ∨
          packingChannelCount b.Packing1 = packingChannelCount a.Packing1 + 2)) ∧
    (a.Packing2 ∈ predefinedPackings → b.Packing2 ∈ predefinedPackings →
      VPI_DETAIL_GET_BITFIELD a.Packing2 6 4 ≤ 7 → VPI_DETAIL_GET_BITFIELD b.Packing2 6 4 ≤ 7 →
      VPI_DETAIL_GET_BITFIELD a.encode 51 7 = VPI_DETAIL_GET_BITFIELD b.encode 51 7 →
      packingBitsPerPixel a.Packing2 = packingBitsPerPixel b.Packing2 ∧
        (packingChannelCount a.Packing2 = packingChannelCount b.Packing2 ∨
          packingChannelCount a.Packing2 = packingChannelCount b.Packing2 + 2 ∨
          packingChannelCount b.Packing2 = packingChannelCount a.Packing2 + 2)) ∧
    (a.Packing3 ∈ predefinedPackings → b.Packing3 ∈ predefinedPackings →
      VPI_DETAIL_GET_BITFIELD a.Packing3 6 4 ≤ 5 → VPI_DETAIL_GET_BITFIELD b.Packing3 6 4 ≤ 5 →
      VPI_DETAIL_GET_BITFIELD a.encode 58 3 = VPI_DETAIL_GET_BITFIELD b.encode 58 3 →
      VPI_DETAIL_GET_BITFIELD a.encode 58 3 ≠ 0 →
      packingBitsPerPixel a.Packing3 = packingBitsPerPixel b.Packing3) := by
  unfold FormatArgs.encode
  simp only [make_fields]
  refine ⟨?_, ?_, ?_, ?_⟩
  · intro ha hb h
    exact plane0_field_injective _ ha _ hb h
  · intro ha hb ha' hb' h
    exact plane12_field_bpp _ ha _ hb ha' hb' h
  · intro ha hb ha' hb' h
    exact plane12_field_bpp _ ha _ hb ha' hb' h
  · intro ha hb ha' hb' h h0
    exact plane3_field_bpp _ ha _ hb ha' hb' h h0

/-- C11, amended, at the formats `VPI_IMAGE_FORMAT_NV12` and `VPI_IMAGE_FORMAT_NV12_BL`: equal
plane 1 fields, and the plane 1 packings have equal bits per pixel. -/
theorem C11_plane_field_determines_witness :
    VPI_DETAIL_GET_BITFIELD VPI_IMAGE_FORMAT_NV12 44 7
      = VPI_DETAIL_GET_BITFIELD VPI_IMAGE_FORMAT_NV12_BL 44 7 ∧
    packingBitsPerPixel VPI_PACKING_X8_Y8 = packingBitsPerPixel VPI_PACKING_X8_Y8 :=
  ⟨by decide,
    ((C11_plane_field_determines
      (ycbcrArgs VPI_COLOR_SPEC_BT601 VPI_CSS_420 VPI_MEM_LAYOUT_PL VPI_DATA_TYPE_UNSIGNED
        VPI_SWIZZLE_XYZ0 VPI_PACKING_X8 VPI_PACKING_X8_Y8)
      (ycbcrArgs VPI_COLOR_SPEC_BT601 VPI_CSS_420 VPI_MEM_LAYOUT_BL VPI_DATA_TYPE_UNSIGNED
        VPI_SWIZZLE_XYZ0 VPI_PACKING_X8 VPI_PACKING_X8_Y8)).2.1
      (by decide) (by decide) (by decide) (by decide) (by decide)).1⟩


/-! ## The bpp step function -/

/-- C12, refuted as stated: `VPI_DETAIL_ENCODE_BPP` does not return 1, 2, 3, 4 for the bit
counts 1, 2, 4, 8; it returns 0 for each of them. -/
theorem C12_encode_bpp_small_counterexample :
    ¬ (VPI_DETAIL_ENCODE_BPP 1 = 1 ∧ VPI_DETAIL_ENCODE_BPP 2 = 2 ∧ VPI_DETAIL_ENCODE_BPP 4 = 3 ∧
        VPI_DETAIL_ENCODE_BPP 8 = 4) ∧
    VPI_DETAIL_ENCODE_BPP 1 = 0 ∧ VPI_DETAIL_ENCODE_BPP 2 = 0 ∧ VPI_DETAIL_ENCODE_BPP 4 = 0 ∧
    VPI_DETAIL_ENCODE_BPP 8 = 0 := by
  decide

/-- C12, amended. The step function `VPI_DETAIL_ENCODE_BPP` returns 0 for every bit count of
at most 8; the small bit counts are told apart by the separate sub-code that
`VPI_DETAIL_BPP_NCH` stores in bits 0..3 of the packing: the raw value for the bit counts
1 and 2, 3 for the bit count 4 and 4 for the bit count 8, for every channel count. -/
theorem C12_small_bit_counts (bpp chcount : Int) :
    (bpp ≤ 8 → VPI_DETAIL_ENCODE_BPP bpp = 0) ∧
    VPI_DETAIL_GET_BITFIELD (VPI_DETAIL_BPP_NCH 1 chcount) 0 4 = 1 ∧
    VPI_DETAIL_GET_BITFIELD (VPI_DETAIL_BPP_NCH 2 chcount) 0 4 = 2 ∧
    VPI_DETAIL_GET_BITFIELD (VPI_DETAIL_BPP_NCH 4 chcount) 0 4 = 3 ∧
    VPI_DETAIL_GET_BITFIELD (VPI_DETAIL_BPP_NCH 8 chcount) 0 4 = 4 := by
  have t1 : toU64 1 = 1 := by decide
  have t2 : toU64 2 = 2 := by decide
  have t3 : toU64 3 = 3 := by decide
  have t4 : toU64 4 = 4 := by decide
  refine ⟨?_, ?_, ?_, ?_, ?_⟩
  · intro h
    unfold VPI_DETAIL_ENCODE_BPP
    rw [if_pos h]
  all_goals
    rw [get_bitfield_eq, toU64_natCast, bpp_nch_eq]
    norm_num [t1, t2, t3, t4]
    omega

/-- C12, amended, at the bit count 4 in one channel (`VPI_PACKING_X4`). -/
theorem C12_small_bit_counts_witness :
    VPI_DETAIL_ENCODE_BPP 4 = 0 ∧ VPI_DETAIL_GET_BITFIELD VPI_PACKING_X4 0 4 = 3 :=
  ⟨(C12_small_bit_counts 4 1).1 (by decide), (C12_small_bit_counts 4 1).2.2.2.1⟩

/-- C13. The step function `VPI_DETAIL_ENCODE_BPP` is monotone on the integers, hence on the
non-negative bit counts, and above 8 it equals bits/8 - 1 on 9..32, bits/16 + 1 on 33..64, bits/32 + 3 on 65..128
and bits/64 + 5 above 128; no value drops at the boundaries 32/33, 64/65, 128/129. -/
theorem C13_encode_bpp_monotone (a b : Int) (hab : a ≤ b) :
    VPI_DETAIL_ENCODE_BPP a ≤ VPI_DETAIL_ENCODE_BPP b ∧
    (9 ≤ b ∧ b ≤ 32 → VPI_DETAIL_ENCODE_BPP b = b / 8 - 1) ∧
    (33 ≤ b ∧ b ≤ 64 → VPI_DETAIL_ENCODE_BPP b = b / 16 + 1) ∧
    (65 ≤ b ∧ b ≤ 128 → VPI_DETAIL_ENCODE_BPP b = b / 32 + 3) ∧
    (129 ≤ b → VPI_DETAIL_ENCODE_BPP b = b / 64 + 5) ∧
    VPI_DETAIL_ENCODE_BPP 32 ≤ VPI_DETAIL_ENCODE_BPP 33 ∧
    VPI_DETAIL_ENCODE_BPP 64 ≤ VPI_DETAIL_ENCODE_BPP 65 ∧
    VPI_DETAIL_ENCODE_BPP 128 ≤ VPI_DETAIL_ENCODE_BPP 129 := by
  refine ⟨?_, ?_, ?_, ?_, ?_, by decide, by decide, by decide⟩
  · unfold VPI_DETAIL_ENCODE_BPP
    split_ifs <;> omega
  all_goals
    intro h
    unfold VPI_DETAIL_ENCODE_BPP
    split_ifs <;> omega

/-- C13 at the boundary 64 to 65. -/
theorem C13_encode_bpp_monotone_witness :
    VPI_DETAIL_ENCODE_BPP 64 ≤ VPI_DETAIL_ENCODE_BPP 65 ∧ VPI_DETAIL_ENCODE_BPP 65 = 65 / 32 + 3 :=
  ⟨(C13_encode_bpp_monotone 64 65 (by decide)).1,
    (C13_encode_bpp_monotone 64 65 (by decide)).2.2.2.1 (by decide)⟩

/-- C14, refuted as stated: the packings X16 and X12b4 have the same channel count, the same
bpp code and the same two low bits of the sub-packing, and yet different plane 0 fields; a
field with only 2 bits of sub-packing could not tell them apart. The third bit of the
sub-packing sits at bit 37, below the channel count. -/
theorem C14_plane_layout_counterexample :
    VPI_DETAIL_GET_BITFIELD VPI_PACKING_X16 4 2 = VPI_DETAIL_GET_BITFIELD VPI_PACKING_X12b4 4 2 ∧
    VPI_DETAIL_GET_BITFIELD VPI_PACKING_X16 6 4 = VPI_DETAIL_GET_BITFIELD VPI_PACKING_X12b4 6 4 ∧
    VPI_DETAIL_GET_BITFIELD VPI_PACKING_X16 0 4 % 2 ^ 2
      = VPI_DETAIL_GET_BITFIELD VPI_PACKING_X12b4 0 4 % 2 ^ 2 ∧
    VPI_DETAIL_GET_BITFIELD
        (VPI_DETAIL_MAKE_NONCOLOR_FMT_1 VPI_MEM_LAYOUT_PL VPI_DATA_TYPE_UNSIGNED
          VPI_SWIZZLE_X000 VPI_PACKING_X16) 35 9
      ≠ VPI_DETAIL_GET_BITFIELD
        (VPI_DETAIL_MAKE_NONCOLOR_FMT_1 VPI_MEM_LAYOUT_PL VPI_DATA_TYPE_UNSIGNED
          VPI_SWIZZLE_X000 VPI_PACKING_X12b4) 35 9 ∧
    VPI_DETAIL_GET_BITFIELD
        (VPI_DETAIL_MAKE_NONCOLOR_FMT_1 VPI_MEM_LAYOUT_PL VPI_DATA_TYPE_UNSIGNED
          VPI_SWIZZLE_X000 VPI_PACKING_X12b4) 37 1 = 1 := by
  decide

/-- C14, amended. In the encoded format the packing of plane 0 occupies the 9-bit field
35..43 made of 3 bits of sub-packing (35..37), 2 bits of channel count minus one (38..39)
and 4 bits of bpp code (40..43); the packings of planes 1 and 2 occupy the 7-bit fields
44..50 and 51..57, each made of 3 bits of sub-packing, 1 bit of channel count minus one
and 3 bits of bpp code; the packing of plane 3 occupies the 3-bit field 58..60, which
holds 7 for an 8-bit packing (bpp code 0, sub-code 4) and else 3 bits of bpp code. -/
theorem C14_plane_field_layout (cm cs css ml dt sw p0 p1 p2 p3 : Int) :
    VPI_DETAIL_GET_BITFIELD (VPI_DETAIL_MAKE_FMT_HELPER cm cs css ml dt sw p0 p1 p2 p3) 35 3
      = VPI_DETAIL_GET_BITFIELD p0 0 4 % 2 ^ 3 ∧
    VPI_DETAIL_GET_BITFIELD (VPI_DETAIL_MAKE_FMT_HELPER cm cs css ml dt sw p0 p1 p2 p3) 38 2
      = VPI_DETAIL_GET_BITFIELD p0 4 2 ∧
    VPI_DETAIL_GET_BITFIELD (VPI_DETAIL_MAKE_FMT_HELPER cm cs css ml dt sw p0 p1 p2 p3) 40 4
      = VPI_DETAIL_GET_BITFIELD p0 6 4 ∧
    VPI_DETAIL_GET_BITFIELD (VPI_DETAIL_MAKE_FMT_HELPER cm cs css ml dt sw p0 p1 p2 p3) 44 3
      = VPI_DETAIL_GET_BITFIELD p1 0 4 % 2 ^ 3 ∧
    VPI_DETAIL_GET_BITFIELD (VPI_DETAIL_MAKE_FMT_HELPER cm cs css ml dt sw p0 p1 p2 p3) 47 1
      = VPI_DETAIL_GET_BITFIELD p1 4 2 % 2 ^ 1 ∧
    VPI_DETAIL_GET_BITFIELD (VPI_DETAIL_MAKE_FMT_HELPER cm cs css ml dt sw p0 p1 p2 p3) 48 3
      = VPI_DETAIL_GET_BITFIELD p1 6 4 % 2 ^ 3 ∧
    VPI_DETAIL_GET_BITFIELD (VPI_DETAIL_MAKE_FMT_HELPER cm cs css ml dt sw p0 p1 p2 p3) 51 3
      = VPI_DETAIL_GET_BITFIELD p2 0 4 % 2 ^ 3 ∧
    VPI_DETAIL_GET_BITFIELD (VPI_DETAIL_MAKE_FMT_HELPER cm cs css ml dt sw p0 p1 p2 p3) 54 1
      = VPI_DETAIL_GET_BITFIELD p2 4 2 % 2 ^ 1 ∧
    VPI_DETAIL_GET_BITFIELD (VPI_DETAIL_MAKE_FMT_HELPER cm cs css ml dt sw p0 p1 p2 p3) 55 3
      = VPI_DETAIL_GET_BITFIELD p2 6 4 % 2 ^ 3 ∧
    VPI_DETAIL_GET_BITFIELD (VPI_DETAIL_MAKE_FMT_HELPER cm cs css ml dt sw p0 p1 p2 p3) 58 3
      = (if VPI_DETAIL_GET_BITFIELD p3 6 4 = 0 ∧ VPI_DETAIL_GET_BITFIELD p3 0 4 = 4 then 7
        else VPI_DETAIL_GET_BITFIELD p3 6 4 % 2 ^ 3) := by
  have f := make_fields cm cs css ml dt sw p0 p1 p2 p3
  obtain ⟨-, -, -, f0, f1, f2, f3, -⟩ := f
  refine ⟨?_, ?_, ?_, ?_, ?_, ?_, ?_, ?_, ?_, ?_⟩
  · rw [get_bitfield_sub _ 35 9 35 3 (by norm_num) (by norm_num), f0, encode_packing_plane0,
      get_bitfield_eq]
    simp only [Nat.reduceSub]
    omega
  · rw [get_bitfield_sub _ 35 9 38 2 (by norm_num) (by norm_num), f0, encode_packing_plane0,
      get_bitfield_eq]
    simp only [Nat.reduceSub]
    omega
  · rw [get_bitfield_sub _ 35 9 40 4 (by norm_num) (by norm_num), f0, encode_packing_plane0,
      get_bitfield_eq]
    have hs := Nat.mod_lt (toU64 p0) (show 0 < 2 ^ 3 by norm_num)
    have hc := Nat.mod_lt (toU64 p0 / 2 ^ 4) (show 0 < 2 ^ 2 by norm_num)
    have hb := Nat.mod_lt (toU64 p0 / 2 ^ 6) (show 0 < 2 ^ 4 by norm_num)
    generalize toU64 p0 % 2 ^ 3 = s at *
    generalize toU64 p0 / 2 ^ 4 % 2 ^ 2 = c at *
    generalize toU64 p0 / 2 ^ 6 % 2 ^ 4 = b at *
    simp only [Nat.reduceSub]
    omega
  · rw [get_bitfield_sub _ 44 7 44 3 (by norm_num) (by norm_num), f1, encode_packing_plane12,
      get_bitfield_eq]
    simp only [Nat.reduceSub]
    omega
  · rw [get_bitfield_sub _ 44 7 47 1 (by norm_num) (by norm_num), f1, encode_packing_plane12,
      get_bitfield_eq]
    simp only [Nat.reduceSub]
    omega
  · rw [get_bitfield_sub _ 44 7 48 3 (by norm_num) (by norm_num), f1, encode_packing_plane12,
      get_bitfield_eq]
    have hs := Nat.mod_lt (toU64 p1) (show 0 < 2 ^ 3 by norm_num)
    have hc := Nat.mod_lt (toU64 p1 / 2 ^ 4) (show 0 < 2 ^ 1 by norm_num)
    have hb := Nat.mod_lt (toU64 p1 / 2 ^ 6) (show 0 < 2 ^ 3 by norm_num)
    have hr : toU64 p1 / 2 ^ 6 % 2 ^ 4 % 2 ^ 3 = toU64 p1 / 2 ^ 6 % 2 ^ 3 := by omega
    rw [hr]
    generalize toU64 p1 % 2 ^ 3 = s at *
    generalize toU64 p1 / 2 ^ 4 % 2 ^ 1 = c at *
    generalize toU64 p1 / 2 ^ 6 % 2 ^ 3 = b at *
    simp only [Nat.reduceSub]
    omega
  · rw [get_bitfield_sub _ 51 7 51 3 (by norm_num) (by norm_num), f2, encode_packing_plane12,
      get_bitfield_eq]
    simp only [Nat.reduceSub]
    omega
  · rw [get_bitfield_sub _ 51 7 54 1 (by norm_num) (by norm_num), f2, encode_packing_plane12,
      get_bitfield_eq]
    simp only [Nat.reduceSub]
    omega
  · rw [get_bitfield_sub _ 51 7 55 3 (by norm_num) (by norm_num), f2, encode_packing_plane12,
      get_bitfield_eq]
    have hs := Nat.mod_lt (toU64 p2) (show 0 < 2 ^ 3 by norm_num)
    have hc := Nat.mod_lt (toU64 p2 / 2 ^ 4) (show 0 < 2 ^ 1 by norm_num)
    have hb := Nat.mod_lt (toU64 p2 / 2 ^ 6) (show 0 < 2 ^ 3 by norm_num)
    have hr : toU64 p2 / 2 ^ 6 % 2 ^ 4 % 2 ^ 3 = toU64 p2 / 2 ^ 6 % 2 ^ 3 := by omega
    rw [hr]
    generalize toU64 p2 % 2 ^ 3 = s at *
    generalize toU64 p2 / 2 ^ 4 % 2 ^ 1 = c at *
    generalize toU64 p2 / 2 ^ 6 % 2 ^ 3 = b at *
    simp only [Nat.reduceSub]
    omega
  · rw [f3, encode_packing_plane3, get_bitfield_eq, get_bitfield_eq]
    simp only [pow_zero, Nat.div_one]
    split_ifs <;> omega


/-! ## Colour model and sentinels -/

/-- C15. For every colour model in 0..73 and all other arguments, the priority-ordered decoder
of bits 16..34 returns the colour model that was encoded; and no colour model in 1..73
produces the all-ones pattern of the undefined colour model in bits 16..34. -/
theorem C15_color_model_decodable (m cs css ml dt sw p0 p1 p2 p3 : Int)
    (hm : 0 ≤ m ∧ m ≤ 73) :
    decodeColorModel (VPI_DETAIL_MAKE_FMT_HELPER m cs css ml dt sw p0 p1 p2 p3) = m ∧
    (1 ≤ m →
      VPI_DETAIL_GET_BITFIELD (VPI_DETAIL_MAKE_FMT_HELPER m cs css ml dt sw p0 p1 p2 p3) 16 19
        ≠ 2 ^ 19 - 1) := by
  have hdec : decodeColorModel (VPI_DETAIL_MAKE_FMT_HELPER m cs css ml dt sw p0 p1 p2 p3)
      = m := by
    have f := (make_fields m cs css ml dt sw p0 p1 p2 p3).2.2.1
    have e2 : m ≤ 1 ∨ toU64 (m - 2) = (m - 2).toNat := by
      by_cases h : m ≤ 1
      · exact Or.inl h
      · exact Or.inr (toU64_of_nonneg _ (by omega) (by omega))
    have e10 : m ≤ 9 ∨ toU64 (m - 10) = (m - 10).toNat := by
      by_cases h : m ≤ 9
      · exact Or.inl h
      · exact Or.inr (toU64_of_nonneg _ (by omega) (by omega))
    unfold decodeColorModel VPI_COLOR_MODEL_UNDEFINED VPI_COLOR_MODEL_YCbCr VPI_COLOR_MODEL_RAW
    rw [get_bitfield_sub _ 16 19 16 1 (by norm_num) (by norm_num),
      get_bitfield_sub _ 16 19 17 3 (by norm_num) (by norm_num),
      get_bitfield_sub _ 16 19 20 1 (by norm_num) (by norm_num),
      get_bitfield_sub _ 16 19 21 6 (by norm_num) (by norm_num), f]
    simp only [Nat.reduceSub]
    have hA := Nat.mod_lt (toU64 cs) (show 0 < 2 ^ 15 by norm_num)
    have hB := Nat.mod_lt (toU64 css) (show 0 < 2 ^ 3 by norm_num)
    have hD := Nat.mod_lt (toU64 cs) (show 0 < 2 ^ 6 by norm_num)
    generalize toU64 cs % 2 ^ 15 = A at *
    generalize toU64 css % 2 ^ 3 = B at *
    generalize toU64 cs % 2 ^ 6 = D at *
    unfold colorModelField
    split_ifs <;> omega
  refine ⟨hdec, ?_⟩
  intro h1 hall
  unfold decodeColorModel VPI_COLOR_MODEL_UNDEFINED at hdec
  rw [if_pos hall] at hdec
  omega

/-- C15 at the colour model `VPI_COLOR_MODEL_XYZ` with the arguments of a one-plane format. -/
theorem C15_color_model_decodable_witness :
    decodeColorModel
      (VPI_DETAIL_MAKE_COLOR_FMT_1 VPI_COLOR_MODEL_XYZ VPI_COLOR_SPEC_UNDEFINED
        VPI_MEM_LAYOUT_PL VPI_DATA_TYPE_UNSIGNED VPI_SWIZZLE_XYZ1 VPI_PACKING_X8_Y8_Z8)
      = VPI_COLOR_MODEL_XYZ :=
  (C15_color_model_decodable VPI_COLOR_MODEL_XYZ VPI_COLOR_SPEC_UNDEFINED VPI_CSS_NONE
    VPI_MEM_LAYOUT_PL VPI_DATA_TYPE_UNSIGNED VPI_SWIZZLE_XYZ1 VPI_PACKING_X8_Y8_Z8 0 0 0
    (by decide)).1

/-- C16. With a memory layout in 1..7, whatever the data type (in particular the valid ones
1..4) and the other arguments, the encoded format is neither `VPI_IMAGE_FORMAT_INVALID` nor `VPI_IMAGE_FORMAT_FORCE64`; bit 15
of every encoded format is 0, while it is 1 in `VPI_IMAGE_FORMAT_FORCE64`. -/
theorem C16_sentinels_apart (cm cs css ml dt sw p0 p1 p2 p3 : Int) (hml : 1 ≤ ml ∧ ml ≤ 7) :
    VPI_DETAIL_MAKE_FMT_HELPER cm cs css ml dt sw p0 p1 p2 p3 ≠ VPI_IMAGE_FORMAT_INVALID ∧
    VPI_DETAIL_MAKE_FMT_HELPER cm cs css ml dt sw p0 p1 p2 p3 ≠ VPI_IMAGE_FORMAT_FORCE64 ∧
    VPI_DETAIL_GET_BITFIELD (VPI_DETAIL_MAKE_FMT_HELPER cm cs css ml dt sw p0 p1 p2 p3) 15 1 = 0 ∧
    VPI_DETAIL_GET_BITFIELD VPI_IMAGE_FORMAT_FORCE64 15 1 = 1 := by
  have hc := colorModelField_lt cm cs css
  have b15 : VPI_DETAIL_GET_BITFIELD
      (VPI_DETAIL_MAKE_FMT_HELPER cm cs css ml dt sw p0 p1 p2 p3) 15 1 = 0 := by
    rw [get_bitfield_eq, toU64_make]
    omega
  have f15 : VPI_DETAIL_GET_BITFIELD VPI_IMAGE_FORMAT_FORCE64 15 1 = 1 := by decide
  have i12 : VPI_DETAIL_GET_BITFIELD VPI_IMAGE_FORMAT_INVALID 12 3 = 0 := by decide
  refine ⟨?_, ?_, b15, f15⟩
  · intro h
    have h2 := (make_fields cm cs css ml dt sw p0 p1 p2 p3).2.1
    rw [h, i12, toU64_of_nonneg _ (by omega) (by omega)] at h2
    omega
  · intro h
    rw [h, f15] at b15
    omega

/-- C16 at the arguments of `VPI_IMAGE_FORMAT_F32`. -/
theorem C16_sentinels_apart_witness :
    VPI_IMAGE_FORMAT_F32 ≠ VPI_IMAGE_FORMAT_INVALID ∧
    VPI_IMAGE_FORMAT_F32 ≠ VPI_IMAGE_FORMAT_FORCE64 :=
  ⟨(C16_sentinels_apart VPI_COLOR_MODEL_UNDEFINED VPI_COLOR_SPEC_UNDEFINED VPI_CSS_NONE
      VPI_MEM_LAYOUT_PL VPI_DATA_TYPE_FLOAT VPI_SWIZZLE_X000 VPI_PACKING_X32 0 0 0
      (by decide)).1,
    (C16_sentinels_apart VPI_COLOR_MODEL_UNDEFINED VPI_COLOR_SPEC_UNDEFINED VPI_CSS_NONE
      VPI_MEM_LAYOUT_PL VPI_DATA_TYPE_FLOAT VPI_SWIZZLE_X000 VPI_PACKING_X32 0 0 0
      (by decide)).2.1⟩

/-! ## The predefined image formats -/

set_option maxRecDepth 8192 in
/-- C17. The 23 predefined image formats are pairwise distinct 64-bit values. -/
theorem C17_predefined_formats_distinct :
    predefinedImageFormats.length = 23 ∧ predefinedImageFormats.Nodup := by
  decide

/-- C18, refuted as stated: in `VPI_IMAGE_FORMAT_UYVY` the swizzle XYZ1 selects 3 channels,
while the packing Y8_X8__Z8_X8 of its only plane has 4 channels by
`VPI_DETAIL_EXTRACT_PACKING_CHANNELS`. -/
theorem C18_channel_count_counterexample :
    (ycbcrArgs VPI_COLOR_SPEC_BT601 VPI_CSS_422 VPI_MEM_LAYOUT_PL VPI_DATA_TYPE_UNSIGNED
      VPI_SWIZZLE_XYZ1 VPI_PACKING_Y8_X8__Z8_X8 VPI_PACKING_0).encode = VPI_IMAGE_FORMAT_UYVY ∧
    swizzleChannelCount VPI_SWIZZLE_XYZ1 = 3 ∧
    VPI_DETAIL_EXTRACT_PACKING_CHANNELS VPI_PACKING_Y8_X8__Z8_X8 = 4 := by
  decide

/-- C18, amended. The tuples of `predefinedFormatArgs` encode to the 23 predefined image
formats. For each of them whose plane 0 packing is not one of the two-pixel packings
X8_Y8__X8_Z8 and Y8_X8__Z8_X8 (the 15 formats other than UYVY and YUYV), the swizzle
channel count equals the sum over the planes present of
`VPI_DETAIL_EXTRACT_PACKING_CHANNELS`; for the 8 packed 4:2:2 formats UYVY and YUYV the
swizzle XYZ1 selects 3 channels and the packing of the single plane has 4. -/
theorem C18_predefined_channel_counts :
    predefinedFormatArgs.map FormatArgs.encode = predefinedImageFormats ∧
    ∀ a ∈ predefinedFormatArgs,
      (a.Packing0 ∉ twoPixelPackings →
        swizzleChannelCount a.Swizzle =
          packingChannelCount a.Packing0 + packingChannelCount a.Packing1
            + packingChannelCount a.Packing2 + packingChannelCount a.Packing3) ∧
      (a.Packing0 ∈ twoPixelPackings →
        swizzleChannelCount a.Swizzle = 3 ∧
        packingChannelCount a.Packing0 + packingChannelCount a.Packing1
            + packingChannelCount a.Packing2 + packingChannelCount a.Packing3 = 4) := by
  decide

/-- C18, amended, at the tuple of `VPI_IMAGE_FORMAT_NV12`: 3 channels on both sides. -/
theorem C18_predefined_channel_counts_witness :
    swizzleChannelCount VPI_SWIZZLE_XYZ0 =
      packingChannelCount VPI_PACKING_X8 + packingChannelCount VPI_PACKING_X8_Y8
        + packingChannelCount VPI_PACKING_0 + packingChannelCount VPI_PACKING_0 :=
  (C18_predefined_channel_counts.2
    (ycbcrArgs VPI_COLOR_SPEC_BT601 VPI_CSS_420 VPI_MEM_LAYOUT_PL VPI_DATA_TYPE_UNSIGNED
      VPI_SWIZZLE_XYZ0 VPI_PACKING_X8 VPI_PACKING_X8_Y8) (by decide)).1 (by decide)


/-! ## Swizzle and colour-spec codes -/

theorem make_swizzle_toNat (x y z w : Int)
    (hx : 0 ≤ x ∧ x ≤ 7) (hy : 0 ≤ y ∧ y ≤ 7) (hz : 0 ≤ z ∧ z ≤ 7) (hw : 0 ≤ w ∧ w ≤ 7) :
    VPI_DETAIL_MAKE_SWIZZLE x y z w = x.toNat + y.toNat * 8 + z.toNat * 64 + w.toNat * 512 := by
  rw [make_swizzle_eq, toU64_of_nonneg x hx.1 (by omega), toU64_of_nonneg y hy.1 (by omega),
    toU64_of_nonneg z hz.1 (by omega), toU64_of_nonneg w hw.1 (by omega)]
  omega

theorem make_swizzle_fields (x y z w : Int)
    (hx : 0 ≤ x ∧ x ≤ 7) (hy : 0 ≤ y ∧ y ≤ 7) (hz : 0 ≤ z ∧ z ≤ 7) (hw : 0 ≤ w ∧ w ≤ 7) :
    (VPI_DETAIL_GET_BITFIELD (VPI_DETAIL_MAKE_SWIZZLE x y z w) 0 3 : Int) = x ∧
    (VPI_DETAIL_GET_BITFIELD (VPI_DETAIL_MAKE_SWIZZLE x y z w) 3 3 : Int) = y ∧
    (VPI_DETAIL_GET_BITFIELD (VPI_DETAIL_MAKE_SWIZZLE x y z w) 6 3 : Int) = z ∧
    (VPI_DETAIL_GET_BITFIELD (VPI_DETAIL_MAKE_SWIZZLE x y z w) 9 3 : Int) = w := by
  simp only [get_bitfield_eq, toU64_natCast]
  rw [make_swizzle_toNat x y z w hx hy hz hw]
  refine ⟨?_, ?_, ?_, ?_⟩ <;> omega

theorem make_swizzle_injective (x y z w x' y' z' w' : Int)
    (hx : 0 ≤ x ∧ x ≤ 7) (hy : 0 ≤ y ∧ y ≤ 7) (hz : 0 ≤ z ∧ z ≤ 7) (hw : 0 ≤ w ∧ w ≤ 7)
    (hx' : 0 ≤ x' ∧ x' ≤ 7) (hy' : 0 ≤ y' ∧ y' ≤ 7) (hz' : 0 ≤ z' ∧ z' ≤ 7)
    (hw' : 0 ≤ w' ∧ w' ≤ 7)
    (h : VPI_DETAIL_MAKE_SWIZZLE x y z w = VPI_DETAIL_MAKE_SWIZZLE x' y' z' w') :
    x = x' ∧ y = y' ∧ z = z' ∧ w = w' := by
  rw [make_swizzle_toNat x y z w hx hy hz hw, make_swizzle_toNat x' y' z' w' hx' hy' hz' hw'] at h
  omega

theorem make_swizzle_valid_ne_invalid (x y z w : Int)
    (hx : 0 ≤ x ∧ x ≤ 5) (hy : 0 ≤ y ∧ y ≤ 5) (hz : 0 ≤ z ∧ z ≤ 5) (hw : 0 ≤ w ∧ w ≤ 5) :
    (VPI_DETAIL_MAKE_SWIZZLE x y z w : Int) ≠ VPI_SWIZZLE_INVALID := by
  have hinv : VPI_SWIZZLE_INVALID = 4095 := by decide
  rw [hinv, make_swizzle_toNat x y z w (by omega) (by omega) (by omega) (by omega)]
  omega

theorem make_color_spec_natCast (a b c d e f : Nat) (ha : a ≤ 7) (hb : b ≤ 15) (hc : c ≤ 7)
    (hd : d ≤ 1) (he : e ≤ 3) (hf : f ≤ 3) :
    VPI_DETAIL_MAKE_COLOR_SPEC a c b d e f
      = a + b * 8 + c * 128 + e * 1024 + f * 4096 + d * 16384 := by
  rw [make_color_spec_eq]
  simp only [toU64_natCast]
  omega

theorem make_color_spec_fields (space encoding xfer range locH locV : Int)
    (hs : 0 ≤ space ∧ space ≤ 7) (hx : 0 ≤ xfer ∧ xfer ≤ 15)
    (he : 0 ≤ encoding ∧ encoding ≤ 7) (hr : 0 ≤ range ∧ range ≤ 1)
    (hh : 0 ≤ locH ∧ locH ≤ 3) (hv : 0 ≤ locV ∧ locV ≤ 3) :
    VPI_DETAIL_MAKE_COLOR_SPEC space encoding xfer range locH locV < 2 ^ 15 ∧
    (VPI_DETAIL_GET_BITFIELD (VPI_DETAIL_MAKE_COLOR_SPEC space encoding xfer range locH locV)
      0 3 : Int) = space ∧
    (VPI_DETAIL_GET_BITFIELD (VPI_DETAIL_MAKE_COLOR_SPEC space encoding xfer range locH locV)
      3 4 : Int) = xfer ∧
    (VPI_DETAIL_GET_BITFIELD (VPI_DETAIL_MAKE_COLOR_SPEC space encoding xfer range locH locV)
      7 3 : Int) = encoding ∧
    (VPI_DETAIL_GET_BITFIELD (VPI_DETAIL_MAKE_COLOR_SPEC space encoding xfer range locH locV)
      10 2 : Int) = locH ∧
    (VPI_DETAIL_GET_BITFIELD (VPI_DETAIL_MAKE_COLOR_SPEC space encoding xfer range locH locV)
      12 2 : Int) = locV ∧
    (VPI_DETAIL_GET_BITFIELD (VPI_DETAIL_MAKE_COLOR_SPEC space encoding xfer range locH locV)
      14 1 : Int) = range := by
  obtain ⟨hs0, hs1⟩ := hs
  obtain ⟨hx0, hx1⟩ := hx
  obtain ⟨he0, he1⟩ := he
  obtain ⟨hr0, hr1⟩ := hr
  obtain ⟨hh0, hh1⟩ := hh
  obtain ⟨hv0, hv1⟩ := hv
  lift space to Nat using hs0
  lift xfer to Nat using hx0
  lift encoding to Nat using he0
  lift range to Nat using hr0
  lift locH to Nat using hh0
  lift locV to Nat using hv0
  simp only [get_bitfield_eq, toU64_natCast, Nat.cast_inj]
  rw [make_color_spec_natCast space xfer encoding range locH locV (by omega) (by omega)
    (by omega) (by omega) (by omega) (by omega)]
  refine ⟨?_, ?_, ?_, ?_, ?_, ?_, ?_⟩ <;> omega

theorem color_spec_in_format (cm cspec css ml dt sw p0 p1 p2 p3 : Int)
    (hc : 0 ≤ cspec ∧ cspec < 2 ^ 15) (hcm : cm = VPI_COLOR_MODEL_YCbCr ∨ (2 ≤ cm ∧ cm ≤ 8)) :
    (VPI_DETAIL_GET_BITFIELD
      (VPI_DETAIL_MAKE_FMT_HELPER cm cspec css ml dt sw p0 p1 p2 p3) 20 15 : Int) = cspec := by
  have ec := toU64_of_nonneg cspec hc.1 (by omega)
  rw [get_bitfield_sub _ 16 19 20 15 (by norm_num) (by norm_num),
    (make_fields cm cspec css ml dt sw p0 p1 p2 p3).2.2.1]
  simp only [Nat.reduceSub]
  have hB := Nat.mod_lt (toU64 css) (show 0 < 2 ^ 3 by norm_num)
  have hC := Nat.mod_lt (toU64 (cm - 2)) (show 0 < 2 ^ 3 by norm_num)
  generalize toU64 css % 2 ^ 3 = B at *
  generalize toU64 (cm - 2) % 2 ^ 3 = C at *
  unfold colorModelField VPI_COLOR_MODEL_YCbCr at *
  rw [ec]
  split_ifs <;> omega

/-! ## Swizzle and colour-spec round trips -/

/-- C19 (confirmed). For channel selectors in 0..7 the swizzle code built by
VPI_DETAIL_MAKE_SWIZZLE fits in 12 bits, the selectors of x, y, z and w are read back from
bits 0..2, 3..5, 6..8 and 9..11, two swizzle codes are equal only if all four selectors are
equal, and a code whose selectors are all valid (0..5) differs from VPI_SWIZZLE_INVALID;
in particular VPI_SWIZZLE_YZWX reads back as Y, Z, W, X. -/
theorem C19_swizzle_round_trip (x y z w x' y' z' w' : Int)
    (hx : 0 ≤ x ∧ x ≤ 7) (hy : 0 ≤ y ∧ y ≤ 7) (hz : 0 ≤ z ∧ z ≤ 7) (hw : 0 ≤ w ∧ w ≤ 7)
    (hx' : 0 ≤ x' ∧ x' ≤ 7) (hy' : 0 ≤ y' ∧ y' ≤ 7) (hz' : 0 ≤ z' ∧ z' ≤ 7)
    (hw' : 0 ≤ w' ∧ w' ≤ 7) :
    VPI_DETAIL_MAKE_SWIZZLE x y z w < 2 ^ 12 ∧
    ((VPI_DETAIL_GET_BITFIELD (VPI_DETAIL_MAKE_SWIZZLE x y z w) 0 3 : Int) = x ∧
     (VPI_DETAIL_GET_BITFIELD (VPI_DETAIL_MAKE_SWIZZLE x y z w) 3 3 : Int) = y ∧
     (VPI_DETAIL_GET_BITFIELD (VPI_DETAIL_MAKE_SWIZZLE x y z w) 6 3 : Int) = z ∧
     (VPI_DETAIL_GET_BITFIELD (VPI_DETAIL_MAKE_SWIZZLE x y z w) 9 3 : Int) = w) ∧
    (VPI_DETAIL_MAKE_SWIZZLE x y z w = VPI_DETAIL_MAKE_SWIZZLE x' y' z' w' →
      x = x' ∧ y = y' ∧ z = z' ∧ w = w') ∧
    (x ≤ 5 ∧ y ≤ 5 ∧ z ≤ 5 ∧ w ≤ 5 →
      (VPI_DETAIL_MAKE_SWIZZLE x y z w : Int) ≠ VPI_SWIZZLE_INVALID) ∧
    ((VPI_DETAIL_GET_BITFIELD VPI_SWIZZLE_YZWX 0 3 : Int) = VPI_CHANNEL_Y ∧
     (VPI_DETAIL_GET_BITFIELD VPI_SWIZZLE_YZWX 3 3 : Int) = VPI_CHANNEL_Z ∧
     (VPI_DETAIL_GET_BITFIELD VPI_SWIZZLE_YZWX 6 3 : Int) = VPI_CHANNEL_W ∧
     (VPI_DETAIL_GET_BITFIELD VPI_SWIZZLE_YZWX 9 3 : Int) = VPI_CHANNEL_X) :=
  ⟨make_swizzle_lt x y z w,
   make_swizzle_fields x y z w hx hy hz hw,
   make_swizzle_injective x y z w x' y' z' w' hx hy hz hw hx' hy' hz' hw',
   fun h => make_swizzle_valid_ne_invalid x y z w ⟨hx.1, h.1⟩ ⟨hy.1, h.2.1⟩ ⟨hz.1, h.2.2.1⟩
     ⟨hw.1, h.2.2.2⟩,
   by decide⟩

/-- C19 instance: the swizzle XYZ1 reads back the constant-one selector in its w position and
is not the invalid swizzle. -/
theorem C19_swizzle_round_trip_witness :
    (VPI_DETAIL_GET_BITFIELD VPI_SWIZZLE_XYZ1 9 3 : Int) = VPI_CHANNEL_1 ∧
    (VPI_SWIZZLE_XYZ1 : Int) ≠ VPI_SWIZZLE_INVALID :=
  have h := C19_swizzle_round_trip VPI_CHANNEL_X VPI_CHANNEL_Y VPI_CHANNEL_Z VPI_CHANNEL_1
    VPI_CHANNEL_Z VPI_CHANNEL_Y VPI_CHANNEL_X VPI_CHANNEL_1
    (by decide) (by decide) (by decide) (by decide) (by decide) (by decide) (by decide)
    (by decide)
  ⟨h.2.1.2.2.2, h.2.2.2.1 (by decide)⟩

/-- C20 (confirmed). For components within their field ranges the colour-spec code built by
VPI_DETAIL_MAKE_COLOR_SPEC fits in 15 bits and each of the six components (colour space,
transfer function, YCbCr encoding, horizontal and vertical chroma location, range) is read
back from its own bit field; every predefined colour spec fits in 15 bits, and placed in an
image format of a colour model that carries a colour spec (YCbCr or the models 2..8) it is
read back unchanged from bits 20..34 of the format. -/
theorem C20_color_spec_round_trip (space encoding xfer range locH locV : Int)
    (hs : 0 ≤ space ∧ space ≤ 7) (hx : 0 ≤ xfer ∧ xfer ≤ 15)
    (he : 0 ≤ encoding ∧ encoding ≤ 7) (hr : 0 ≤ range ∧ range ≤ 1)
    (hh : 0 ≤ locH ∧ locH ≤ 3) (hv : 0 ≤ locV ∧ locV ≤ 3) :
    (VPI_DETAIL_MAKE_COLOR_SPEC space encoding xfer range locH locV < 2 ^ 15 ∧
     (VPI_DETAIL_GET_BITFIELD (VPI_DETAIL_MAKE_COLOR_SPEC space encoding xfer range locH locV)
       0 3 : Int) = space ∧
     (VPI_DETAIL_GET_BITFIELD (VPI_DETAIL_MAKE_COLOR_SPEC space encoding xfer range locH locV)
       3 4 : Int) = xfer ∧
     (VPI_DETAIL_GET_BITFIELD (VPI_DETAIL_MAKE_COLOR_SPEC space encoding xfer range locH locV)
       7 3 : Int) = encoding ∧
     (VPI_DETAIL_GET_BITFIELD (VPI_DETAIL_MAKE_COLOR_SPEC space encoding xfer range locH locV)
       10 2 : Int) = locH ∧
     (VPI_DETAIL_GET_BITFIELD (VPI_DETAIL_MAKE_COLOR_SPEC space encoding xfer range locH locV)
       12 2 : Int) = locV ∧
     (VPI_DETAIL_GET_BITFIELD (VPI_DETAIL_MAKE_COLOR_SPEC space encoding xfer range locH locV)
       14 1 : Int) = range) ∧
    ∀ cspec ∈ predefinedColorSpecs, (0 ≤ cspec ∧ cspec < 2 ^ 15) ∧
      ∀ cm css ml dt sw p0 p1 p2 p3 : Int,
        cm = VPI_COLOR_MODEL_YCbCr ∨ (2 ≤ cm ∧ cm ≤ 8) →
        (VPI_DETAIL_GET_BITFIELD
          (VPI_DETAIL_MAKE_FMT_HELPER cm cspec css ml dt sw p0 p1 p2 p3) 20 15 : Int) = cspec :=
  ⟨make_color_spec_fields space encoding xfer range locH locV hs hx he hr hh hv,
   fun cspec hc => ⟨predefinedColorSpecs_range cspec hc,
     fun cm css ml dt sw p0 p1 p2 p3 hcm =>
       color_spec_in_format cm cspec css ml dt sw p0 p1 p2 p3
         (predefinedColorSpecs_range cspec hc) hcm⟩⟩

/-- C20 instance: the BT.601 colour spec reads back its YCbCr encoding, and the NV12 image
format reads back the BT.601 colour spec. -/
theorem C20_color_spec_round_trip_witness :
    (VPI_DETAIL_GET_BITFIELD VPI_COLOR_SPEC_BT601 7 3 : Int) = VPI_YCbCr_ENC_BT601 ∧
    (VPI_DETAIL_GET_BITFIELD VPI_IMAGE_FORMAT_NV12 20 15 : Int) = VPI_COLOR_SPEC_BT601 :=
  have h := C20_color_spec_round_trip VPI_COLOR_SPACE_BT709 VPI_YCbCr_ENC_BT601
    VPI_COLOR_XFER_BT709 VPI_COLOR_RANGE_LIMITED VPI_CHROMA_LOC_EVEN VPI_CHROMA_LOC_EVEN
    (by decide) (by decide) (by decide) (by decide) (by decide) (by decide)
  ⟨h.1.2.2.2.1, by decide⟩

/-! ## Channel counts of the packings -/

/-- C21, refuted as stated: the documentation of `VPI_PACKING_0` says "No channels", and
`VPI_DETAIL_EXTRACT_PACKING_CHANNELS` gives 1 for it. -/
theorem C21_packing_0_counterexample :
    (VPI_PACKING_0, 0) ∈ documentedChannelCounts ∧
    VPI_DETAIL_EXTRACT_PACKING_CHANNELS VPI_PACKING_0 = 1 ∧
    VPI_DETAIL_EXTRACT_PACKING_CHANNELS VPI_PACKING_0 ≠ 0 := by
  decide

/-- C21, amended. For each of the 49 predefined packings other than `VPI_PACKING_0` whose
documentation states a channel count, `VPI_DETAIL_EXTRACT_PACKING_CHANNELS` (bits 4..5 plus
one) equals the documented count and lies between 1 and 4; for `VPI_PACKING_0` it gives 1,
and the count that treats `VPI_PACKING_0` apart (`packingChannelCount`) equals the
documented count for all 50 of them. -/
theorem C21_documented_channel_counts :
    documentedChannelCounts.length = 50 ∧
    (∀ e ∈ documentedChannelCounts, e.1 ∈ predefinedPackings) ∧
    (∀ e ∈ documentedChannelCounts, e.1 ≠ VPI_PACKING_0 →
      VPI_DETAIL_EXTRACT_PACKING_CHANNELS e.1 = VPI_DETAIL_GET_BITFIELD e.1 4 2 + 1 ∧
      VPI_DETAIL_EXTRACT_PACKING_CHANNELS e.1 = e.2 ∧ 1 ≤ e.2 ∧ e.2 ≤ 4) ∧
    VPI_DETAIL_EXTRACT_PACKING_CHANNELS VPI_PACKING_0 = 1 ∧
    (∀ e ∈ documentedChannelCounts, packingChannelCount e.1 = e.2) := by
  decide

/-- C21, amended, at `VPI_PACKING_X8_Y8_Z8_W8`, documented as four 8-bit channels. -/
theorem C21_documented_channel_counts_witness :
    VPI_DETAIL_EXTRACT_PACKING_CHANNELS VPI_PACKING_X8_Y8_Z8_W8 = 4 :=
  (C21_documented_channel_counts.2.2.1 (VPI_PACKING_X8_Y8_Z8_W8, 4) (by decide)
    (by decide)).2.1

/-! ## Integer versions -/

/-- C22, refuted as stated: the triple (1, 0, 0) precedes (2148, 0, 0), and yet
`NV_VPI_MAKE_VERSION(2148, 0, 0)`, which does not fit the type `int`, is -2146967296 and
lies below `NV_VPI_MAKE_VERSION(1, 0, 0)`. -/
theorem C22_version_order_counterexample :
    NV_VPI_MAKE_VERSION 2148 0 0 = -2146967296 ∧
    NV_VPI_MAKE_VERSION 1 0 0 = 1000000 ∧
    ¬ (NV_VPI_MAKE_VERSION 1 0 0 < NV_VPI_MAKE_VERSION 2148 0 0 ↔
      (1 : Int) < 2148 ∨ ((1 : Int) = 2148 ∧ ((0 : Int) < 0 ∨ ((0 : Int) = 0 ∧ (0 : Int) < 0)))) := by
  decide

/-- C22, amended. For major numbers in 0..2146 and minor and patch numbers in 0..99,
`NV_VPI_MAKE_VERSION` is `MAJOR * 1000000 + MINOR * 10000 + PATCH * 100` without overflow
of the type `int`, and it orders version triples as the lexicographic order does;
`NV_VPI_VERSION` is the version made of the header's major, minor and patch numbers plus
its tweak number. The bound 2146 is the largest for the whole range of minor and patch
numbers: at major 2147 the version 2147.99.99 lies below 2147.0.0. -/
theorem C22_version_order (M1 m1 p1 M2 m2 p2 : Int)
    (hM1 : 0 ≤ M1 ∧ M1 ≤ 2146) (hm1 : 0 ≤ m1 ∧ m1 ≤ 99) (hp1 : 0 ≤ p1 ∧ p1 ≤ 99)
    (hM2 : 0 ≤ M2 ∧ M2 ≤ 2146) (hm2 : 0 ≤ m2 ∧ m2 ≤ 99) (hp2 : 0 ≤ p2 ∧ p2 ≤ 99) :
    (NV_VPI_MAKE_VERSION M1 m1 p1 = M1 * 1000000 + m1 * 10000 + p1 * 100 ∧
      0 ≤ NV_VPI_MAKE_VERSION M1 m1 p1 ∧ NV_VPI_MAKE_VERSION M1 m1 p1 ≤ INT32_MAX) ∧
    (NV_VPI_MAKE_VERSION M1 m1 p1 < NV_VPI_MAKE_VERSION M2 m2 p2 ↔
      M1 < M2 ∨ (M1 = M2 ∧ (m1 < m2 ∨ (m1 = m2 ∧ p1 < p2)))) ∧
    NV_VPI_VERSION = 1001200 ∧
    NV_VPI_VERSION
      = NV_VPI_MAKE_VERSION NV_VPI_VERSION_MAJOR NV_VPI_VERSION_MINOR NV_VPI_VERSION_PATCH
        + NV_VPI_VERSION_TWEAK ∧
    NV_VPI_MAKE_VERSION 2147 99 99 < NV_VPI_MAKE_VERSION 2147 0 0 := by
  have e : ∀ M m p : Int, 0 ≤ M ∧ M ≤ 2146 → 0 ≤ m ∧ m ≤ 99 → 0 ≤ p ∧ p ≤ 99 →
      NV_VPI_MAKE_VERSION M m p = M * 1000000 + m * 10000 + p * 100 := by
    intro M m p hM hm hp
    unfold NV_VPI_MAKE_VERSION wrapI32
    omega
  rw [e M1 m1 p1 hM1 hm1 hp1, e M2 m2 p2 hM2 hm2 hp2]
  unfold INT32_MAX
  refine ⟨⟨rfl, ?_, ?_⟩, ?_, by decide, by decide, by decide⟩ <;> omega

/-- C22, amended, at the versions 1.0.12 and 1.1.0: the older one has the smaller integer. -/
theorem C22_version_order_witness :
    NV_VPI_MAKE_VERSION 1 0 12 < NV_VPI_MAKE_VERSION 1 1 0 :=
  (C22_version_order 1 0 12 1 1 0 (by decide) (by decide) (by decide) (by decide) (by decide)
    (by decide)).2.1.2 (by decide)

/-! ## Formats inferred from OpenCV matrix types -/

theorem opencv_layout_table :
    ∀ d ∈ openCVDepths, ∀ n ∈ ([1, 2, 3, 4] : List Int),
      imgFormatOfDepthAndChannels d n ≠ VPI_IMAGE_FORMAT_INVALID ∧
      (VPI_DETAIL_GET_BITFIELD (imgFormatOfDepthAndChannels d n) 12 3 : Int)
        = VPI_MEM_LAYOUT_PITCH_LINEAR ∧
      VPI_DETAIL_GET_BITFIELD (imgFormatOfDepthAndChannels d n) 44 7 = 0 ∧
      VPI_DETAIL_GET_BITFIELD (imgFormatOfDepthAndChannels d n) 51 7 = 0 ∧
      VPI_DETAIL_GET_BITFIELD (imgFormatOfDepthAndChannels d n) 58 3 = 0 ∧
      (VPI_DETAIL_GET_BITFIELD (imgFormatOfDepthAndChannels d n) 61 3 : Int)
        = depthDataType d ∧
      (VPI_DETAIL_EXTRACT_PACKING_CHANNELS (plane0Packing (imgFormatOfDepthAndChannels d n))
        : Int) = n ∧
      packingBitsPerPixel (plane0Packing (imgFormatOfDepthAndChannels d n))
        = some (n * depthBits d) := by
  decide

theorem mem_openCVDepths (d : Int) : d ∈ openCVDepths ↔ 0 ≤ d ∧ d ≤ 6 := by
  have e : openCVDepths = [0, 1, 2, 3, 4, 5, 6] := by decide
  rw [e]
  simp only [List.mem_cons, List.mem_singleton, List.not_mem_nil, or_false]
  omega

theorem opencv_other_types (d n : Int) (h : ¬ (d ∈ openCVDepths ∧ 1 ≤ n ∧ n ≤ 4)) :
    imgFormatOfDepthAndChannels d n = VPI_IMAGE_FORMAT_INVALID := by
  rw [mem_openCVDepths] at h
  have c0 : CV_8U = 0 := rfl
  have c1 : CV_8S = 1 := rfl
  have c2 : CV_16U = 2 := rfl
  have c3 : CV_16S = 3 := rfl
  have c4 : CV_32S = 4 := rfl
  have c5 : CV_32F = 5 := rfl
  have c6 : CV_64F = 6 := rfl
  unfold imgFormatOfDepthAndChannels
  by_cases hd : 0 ≤ d ∧ d ≤ 6
  · have n1 : ¬ n = 1 := by omega
    have n2 : ¬ n = 2 := by omega
    have n3 : ¬ n = 3 := by omega
    have n4 : ¬ n = 4 := by omega
    simp only [if_neg n1, if_neg n2, if_neg n3, if_neg n4, ite_self]
  · have d0 : ¬ d = CV_8U := by omega
    have d1 : ¬ d = CV_8S := by omega
    have d2 : ¬ d = CV_16U := by omega
    have d3 : ¬ d = CV_16S := by omega
    have d4 : ¬ d = CV_32S := by omega
    have d5 : ¬ d = CV_32F := by omega
    have d6 : ¬ d = CV_64F := by omega
    simp only [if_neg d0, if_neg d1, if_neg d2, if_neg d3, if_neg d4, if_neg d5, if_neg d6]

theorem opencv_type_ranges (cvType : Int) :
    0 ≤ CV_MAT_DEPTH cvType ∧ CV_MAT_DEPTH cvType ≤ 7 ∧
    1 ≤ CV_MAT_CN cvType ∧ CV_MAT_CN cvType ≤ 512 := by
  have h7 : toU64 7 = 7 := by decide
  have hm : toU64 ((512 - 1) * 8) = 4088 := by decide
  have a := @Nat.and_le_right (toU64 cvType) 7
  have b := @Nat.and_le_right (toU64 cvType) 4088
  unfold CV_MAT_DEPTH CV_MAT_CN andInt
  rw [h7, hm]
  omega

/-- C23, the code at the failing inputs. For 3 channels of the depths 8U, 16U, 32F and 64F
`ToImageFormatFromOpenCVType` returns a format of colour model RGB with the BGR swizzle
ZYX1, and for 4 channels of depth 8U it returns `VPI_IMAGE_FORMAT_BGRA8` with the BGRA
swizzle ZYXW; for 4 channels of the depths 16U, 32F and 64F (the types 26, 29 and 30) it
returns a format of colour model RGB whose swizzle is WZYX, which is not ZYXW. -/
theorem C23_opencv_four_channel_swizzle :
    (decodeColorModel (ToImageFormatFromOpenCVType (CV_MAKETYPE CV_8U 3)) = VPI_COLOR_MODEL_RGB ∧
      (VPI_DETAIL_GET_BITFIELD (ToImageFormatFromOpenCVType (CV_MAKETYPE CV_8U 3)) 0 12 : Int)
        = VPI_SWIZZLE_ZYX1 ∧
      decodeColorModel (ToImageFormatFromOpenCVType (CV_MAKETYPE CV_16U 3))
        = VPI_COLOR_MODEL_RGB ∧
      (VPI_DETAIL_GET_BITFIELD (ToImageFormatFromOpenCVType (CV_MAKETYPE CV_16U 3)) 0 12 : Int)
        = VPI_SWIZZLE_ZYX1 ∧
      decodeColorModel (ToImageFormatFromOpenCVType (CV_MAKETYPE CV_32F 3))
        = VPI_COLOR_MODEL_RGB ∧
      (VPI_DETAIL_GET_BITFIELD (ToImageFormatFromOpenCVType (CV_MAKETYPE CV_32F 3)) 0 12 : Int)
        = VPI_SWIZZLE_ZYX1 ∧
      decodeColorModel (ToImageFormatFromOpenCVType (CV_MAKETYPE CV_64F 3))
        = VPI_COLOR_MODEL_RGB ∧
      (VPI_DETAIL_GET_BITFIELD (ToImageFormatFromOpenCVType (CV_MAKETYPE CV_64F 3)) 0 12 : Int)
        = VPI_SWIZZLE_ZYX1) ∧
    (ToImageFormatFromOpenCVType (CV_MAKETYPE CV_8U 4) = VPI_IMAGE_FORMAT_BGRA8 ∧
      (VPI_DETAIL_GET_BITFIELD VPI_IMAGE_FORMAT_BGRA8 0 12 : Int) = VPI_SWIZZLE_ZYXW) ∧
    (CV_MAKETYPE CV_16U 4 = 26 ∧ CV_MAKETYPE CV_32F 4 = 29 ∧ CV_MAKETYPE CV_64F 4 = 30 ∧
      decodeColorModel (ToImageFormatFromOpenCVType 26) = VPI_COLOR_MODEL_RGB ∧
      (VPI_DETAIL_GET_BITFIELD (ToImageFormatFromOpenCVType 26) 0 12 : Int)
        = VPI_SWIZZLE_WZYX ∧
      decodeColorModel (ToImageFormatFromOpenCVType 29) = VPI_COLOR_MODEL_RGB ∧
      (VPI_DETAIL_GET_BITFIELD (ToImageFormatFromOpenCVType 29) 0 12 : Int)
        = VPI_SWIZZLE_WZYX ∧
      decodeColorModel (ToImageFormatFromOpenCVType 30) = VPI_COLOR_MODEL_RGB ∧
      (VPI_DETAIL_GET_BITFIELD (ToImageFormatFromOpenCVType 30) 0 12 : Int)
        = VPI_SWIZZLE_WZYX ∧
      VPI_SWIZZLE_WZYX ≠ VPI_SWIZZLE_ZYXW) := by
  decide

/-- C24. For every OpenCV type whose depth is one of 8U, 8S, 16U, 16S, 32S, 32F, 64F and
whose channel count n is in 1..4, `ToImageFormatFromOpenCVType` returns a format other than
`VPI_IMAGE_FORMAT_INVALID` that is pitch-linear, has no second, third or fourth plane, has
the data type of the depth, and whose plane 0 packing has n channels and n times the depth
width in bits per pixel; for every other type it returns `VPI_IMAGE_FORMAT_INVALID`. The
depth of a type is in 0..7 and its channel count in 1..512. -/
theorem C24_opencv_layout (cvType : Int) :
    (CV_MAT_DEPTH cvType ∈ openCVDepths ∧ 1 ≤ CV_MAT_CN cvType ∧ CV_MAT_CN cvType ≤ 4 →
      ToImageFormatFromOpenCVType cvType ≠ VPI_IMAGE_FORMAT_INVALID ∧
      (VPI_DETAIL_GET_BITFIELD (ToImageFormatFromOpenCVType cvType) 12 3 : Int)
        = VPI_MEM_LAYOUT_PITCH_LINEAR ∧
      VPI_DETAIL_GET_BITFIELD (ToImageFormatFromOpenCVType cvType) 44 7 = 0 ∧
      VPI_DETAIL_GET_BITFIELD (ToImageFormatFromOpenCVType cvType) 51 7 = 0 ∧
      VPI_DETAIL_GET_BITFIELD (ToImageFormatFromOpenCVType cvType) 58 3 = 0 ∧
      (VPI_DETAIL_GET_BITFIELD (ToImageFormatFromOpenCVType cvType) 61 3 : Int)
        = depthDataType (CV_MAT_DEPTH cvType) ∧
      (VPI_DETAIL_EXTRACT_PACKING_CHANNELS (plane0Packing (ToImageFormatFromOpenCVType cvType))
        : Int) = CV_MAT_CN cvType ∧
      packingBitsPerPixel (plane0Packing (ToImageFormatFromOpenCVType cvType))
        = some (CV_MAT_CN cvType * depthBits (CV_MAT_DEPTH cvType))) ∧
    (¬ (CV_MAT_DEPTH cvType ∈ openCVDepths ∧ 1 ≤ CV_MAT_CN cvType ∧ CV_MAT_CN cvType ≤ 4) →
      ToImageFormatFromOpenCVType cvType = VPI_IMAGE_FORMAT_INVALID) ∧
    (0 ≤ CV_MAT_DEPTH cvType ∧ CV_MAT_DEPTH cvType ≤ 7 ∧
      1 ≤ CV_MAT_CN cvType ∧ CV_MAT_CN cvType ≤ 512) := by
  refine ⟨?_, ?_, opencv_type_ranges cvType⟩
  · intro h
    have hn : CV_MAT_CN cvType ∈ ([1, 2, 3, 4] : List Int) := by
      simp only [List.mem_cons, List.mem_singleton, List.not_mem_nil, or_false]
      omega
    exact opencv_layout_table _ h.1 _ hn
  · intro h
    exact opencv_other_types _ _ h

/-- C24 at the type `CV_32FC2` (13): the format is `VPI_IMAGE_FORMAT_2F32`, not invalid, of
data type float, and `CV_16FC1` (7), a depth without a case, gives the invalid format. -/
theorem C24_opencv_layout_witness :
    ToImageFormatFromOpenCVType 13 = VPI_IMAGE_FORMAT_2F32 ∧
    ToImageFormatFromOpenCVType 13 ≠ VPI_IMAGE_FORMAT_INVALID ∧
    (VPI_DETAIL_GET_BITFIELD (ToImageFormatFromOpenCVType 13) 61 3 : Int)
      = VPI_DATA_TYPE_FLOAT ∧
    ToImageFormatFromOpenCVType 7 = VPI_IMAGE_FORMAT_INVALID :=
  ⟨by decide, ((C24_opencv_layout 13).1 (by decide)).1,
    ((C24_opencv_layout 13).1 (by decide)).2.2.2.2.2.1,
    (C24_opencv_layout 7).2.1 (by decide)⟩

/-! ## The sign transform -/

theorem signednessSum_eq (r : Nat) (h : r < 2 ^ 63) : signednessSum r = 2 ^ 63 - (r : Int) := by
  have e : not64 r &&& not64 (1 <<< 63) = 2 ^ 63 - 1 - r := by
    have e1 : not64 (1 <<< 63) = 2 ^ 63 - 1 := by decide
    rw [e1, and_low63]
    unfold not64
    omega
  unfold signednessSum
  rw [e, toI64_of_lt (by omega)]
  omega

theorem handle_negative_eq (dt : Int) (r : Nat) (hdt : VPI_DETAIL_GET_BITFIELD dt 2 1 ≠ 0)
    (h : r < 2 ^ 63) : VPI_DETAIL_HANDLE_DATATYPE_SIGNEDNESS dt r = (r : Int) - 2 ^ 63 := by
  rw [get_bitfield_eq] at hdt
  rw [handle_signedness_eq dt r h]
  have h1 : toU64 dt / 4 % 2 = 1 := by omega
  rw [h1]
  omega

/-- C25. In the negative branch of `VPI_DETAIL_HANDLE_DATATYPE_SIGNEDNESS`, for every pattern
`r` with `0 < r < 2 ^ 63`: the inner sum is `2 ^ 63 - r`, within the `int64_t` range, so that
nothing wraps; the result is `r - 2 ^ 63`, which is negative; its 64-bit pattern is `r` with
bit 63 set, bits 0..62 unchanged; `r` is the result plus `2 ^ 63`; and every bitfield that
lies below bit 63 reads the same from the result as from `r`. -/
theorem C25_sign_transform_exact (dt : Int) (r : Nat)
    (hdt : VPI_DETAIL_GET_BITFIELD dt 2 1 ≠ 0) (hr : 0 < r ∧ r < 2 ^ 63) :
    (signednessSum r = 2 ^ 63 - (r : Int) ∧ 1 ≤ signednessSum r ∧
      signednessSum r ≤ INT64_MAX) ∧
    VPI_DETAIL_HANDLE_DATATYPE_SIGNEDNESS dt r = -(signednessSum r) ∧
    VPI_DETAIL_HANDLE_DATATYPE_SIGNEDNESS dt r = (r : Int) - 2 ^ 63 ∧
    VPI_DETAIL_HANDLE_DATATYPE_SIGNEDNESS dt r < 0 ∧
    toU64 (VPI_DETAIL_HANDLE_DATATYPE_SIGNEDNESS dt r) = r + 2 ^ 63 ∧
    toU64 (VPI_DETAIL_HANDLE_DATATYPE_SIGNEDNESS dt r) % 2 ^ 63 = r ∧
    VPI_DETAIL_GET_BITFIELD (VPI_DETAIL_HANDLE_DATATYPE_SIGNEDNESS dt r) 63 1 = 1 ∧
    VPI_DETAIL_HANDLE_DATATYPE_SIGNEDNESS dt r + 2 ^ 63 = (r : Int) ∧
    ∀ o s : Nat, o + s ≤ 63 →
      VPI_DETAIL_GET_BITFIELD (VPI_DETAIL_HANDLE_DATATYPE_SIGNEDNESS dt r) o s
        = VPI_DETAIL_GET_BITFIELD (r : Int) o s := by
  have hs := signednessSum_eq r hr.2
  have hv := handle_negative_eq dt r hdt hr.2
  have hu : toU64 (VPI_DETAIL_HANDLE_DATATYPE_SIGNEDNESS dt r) = r + 2 ^ 63 := by
    rw [hv]
    unfold toU64
    omega
  have hn : toU64 (r : Int) = r := by
    rw [toU64_natCast]
    omega
  refine ⟨⟨hs, ?_, ?_⟩, ?_, hv, ?_, hu, ?_, ?_, ?_, ?_⟩
  · omega
  · unfold INT64_MAX
    omega
  · omega
  · omega
  · omega
  · rw [get_bitfield_eq, hu]
    omega
  · omega
  · intro o s hos
    rw [get_bitfield_sub _ 0 63 o s (Nat.zero_le o) (by omega),
      get_bitfield_sub (r : Int) 0 63 o s (Nat.zero_le o) (by omega), get_bitfield_eq,
      get_bitfield_eq, hu, hn]
    have e : (r + 2 ^ 63) / 2 ^ 0 % 2 ^ 63 = r / 2 ^ 0 % 2 ^ 63 := by omega
    rw [e]

/-- C25 at the pattern of `VPI_IMAGE_FORMAT_U8` with the data type `VPI_DATA_TYPE_FLOATISP`:
the result is negative and the memory-layout field 12..14 reads as in the pattern. -/
theorem C25_sign_transform_exact_witness :
    VPI_DETAIL_HANDLE_DATATYPE_SIGNEDNESS VPI_DATA_TYPE_FLOATISP
        (toU64 VPI_IMAGE_FORMAT_U8) < 0 ∧
    VPI_DETAIL_GET_BITFIELD (VPI_DETAIL_HANDLE_DATATYPE_SIGNEDNESS VPI_DATA_TYPE_FLOATISP
        (toU64 VPI_IMAGE_FORMAT_U8)) 12 3
      = VPI_DETAIL_GET_BITFIELD ((toU64 VPI_IMAGE_FORMAT_U8 : Nat) : Int) 12 3 :=
  ⟨(C25_sign_transform_exact VPI_DATA_TYPE_FLOATISP (toU64 VPI_IMAGE_FORMAT_U8) (by decide)
      (by decide)).2.2.2.1,
    (C25_sign_transform_exact VPI_DATA_TYPE_FLOATISP (toU64 VPI_IMAGE_FORMAT_U8) (by decide)
      (by decide)).2.2.2.2.2.2.2.2 12 3 (by decide)⟩

theorem signednessSum_mod (r : Nat) :
    signednessSum r = 2 ^ 63 - ((r % 2 ^ 63 : Nat) : Int) := by
  have e : not64 r &&& not64 (1 <<< 63) = 2 ^ 63 - 1 - r % 2 ^ 63 := by
    have e1 : not64 (1 <<< 63) = 2 ^ 63 - 1 := by decide
    rw [e1, and_low63]
    unfold not64
    omega
  unfold signednessSum
  rw [e, toI64_of_lt (by omega)]
  omega

/-- C26, refuted as stated: the pattern `2 ^ 63` is not zero, and the inner sum
`1 + (int64_t)(~r & ~(1ULL << 63))` is `INT64_MAX + 1` for it, outside the `int64_t`
range, as it is for the pattern 0. -/
theorem C26_sign_overflow_counterexample :
    (2 ^ 63 : Nat) ≠ 0 ∧ (2 ^ 63 : Nat) < 2 ^ 64 ∧
    signednessSum (2 ^ 63) = INT64_MAX + 1 ∧
    ¬ (signednessSum (2 ^ 63) ≤ INT64_MAX) := by
  decide

/-- C26, amended. For a 64-bit pattern `r`, the inner sum
`1 + (int64_t)(~r & ~(1ULL << 63))` stays within the `int64_t` range if and only if the low
63 bits of `r` are not all zero, that is if `r` is neither 0 nor `2 ^ 63`; the negation of
the sum is always in range. Every pattern that `VPI_DETAIL_MAKE_FMT_HELPER` hands to the
sign transform is below `2 ^ 63`, so there the sum is in range if and only if the pattern
is not zero; the pattern is zero exactly when all its fields are zero, so with a memory
layout in 1..7 it is not zero; the all-zero pattern, which the arguments YCbCr, 0, ..., 0
produce, gives `INT64_MAX + 1`. -/
theorem C26_sign_overflow (cm cs css ml dt sw p0 p1 p2 p3 : Int) (r : Nat) :
    ((-INT64_MAX - 1 ≤ signednessSum r ∧ signednessSum r ≤ INT64_MAX) ↔ r % 2 ^ 63 ≠ 0) ∧
    (r < 2 ^ 64 → (r % 2 ^ 63 ≠ 0 ↔ r ≠ 0 ∧ r ≠ 2 ^ 63)) ∧
    (-INT64_MAX - 1 ≤ -(signednessSum r) ∧ -(signednessSum r) ≤ INT64_MAX) ∧
    fmtPattern cm cs css ml dt sw p0 p1 p2 p3 < 2 ^ 63 ∧
    ((-INT64_MAX - 1 ≤ signednessSum (fmtPattern cm cs css ml dt sw p0 p1 p2 p3) ∧
        signednessSum (fmtPattern cm cs css ml dt sw p0 p1 p2 p3) ≤ INT64_MAX) ↔
      fmtPattern cm cs css ml dt sw p0 p1 p2 p3 ≠ 0) ∧
    (fmtPattern cm cs css ml dt sw p0 p1 p2 p3 = 0 ↔
      toU64 sw % 2 ^ 12 = 0 ∧ toU64 ml % 2 ^ 3 = 0 ∧ colorModelField cm cs css = 0 ∧
      VPI_DETAIL_ENCODE_PACKING p0 2 3 4 % 2 ^ 9 = 0 ∧
      VPI_DETAIL_ENCODE_PACKING p1 1 3 3 % 2 ^ 7 = 0 ∧
      VPI_DETAIL_ENCODE_PACKING p2 1 3 3 % 2 ^ 7 = 0 ∧
      VPI_DETAIL_ENCODE_PACKING p3 0 0 3 % 2 ^ 3 = 0 ∧ toU64 dt % 2 ^ 2 = 0) ∧
    (1 ≤ ml ∧ ml ≤ 7 →
      fmtPattern cm cs css ml dt sw p0 p1 p2 p3 ≠ 0 ∧
      signednessSum (fmtPattern cm cs css ml dt sw p0 p1 p2 p3) ≤ INT64_MAX) ∧
    fmtPattern VPI_COLOR_MODEL_YCbCr 0 0 0 VPI_DATA_TYPE_FLOATISP 0 0 0 0 0 = 0 ∧
    signednessSum 0 = INT64_MAX + 1 := by
  have hs := signednessSum_mod r
  have hp := fmtPattern_lt cm cs css ml dt sw p0 p1 p2 p3
  have hq := signednessSum_eq _ hp
  have he := fmtPattern_eq cm cs css ml dt sw p0 p1 p2 p3
  have hc := colorModelField_lt cm cs css
  have hm : 1 ≤ ml ∧ ml ≤ 7 → toU64 ml % 2 ^ 3 ≠ 0 := by
    intro h
    rw [toU64_of_nonneg ml (by omega) (by omega)]
    omega
  unfold INT64_MAX
  refine ⟨?_, ?_, ?_, hp, ?_, ?_, ?_, by decide, by decide⟩
  · omega
  · omega
  · omega
  · omega
  · omega
  · intro h
    have h1 := hm h
    omega

/-- C26, amended, at the pattern of `VPI_IMAGE_FORMAT_U8` (memory layout pitch-linear): not
zero, and the inner sum does not exceed `INT64_MAX`. -/
theorem C26_sign_overflow_witness :
    fmtPattern VPI_COLOR_MODEL_UNDEFINED VPI_COLOR_SPEC_UNDEFINED VPI_CSS_NONE
        VPI_MEM_LAYOUT_PL VPI_DATA_TYPE_UNSIGNED VPI_SWIZZLE_X000 VPI_PACKING_X8 0 0 0 ≠ 0 ∧
    signednessSum (fmtPattern VPI_COLOR_MODEL_UNDEFINED VPI_COLOR_SPEC_UNDEFINED VPI_CSS_NONE
        VPI_MEM_LAYOUT_PL VPI_DATA_TYPE_UNSIGNED VPI_SWIZZLE_X000 VPI_PACKING_X8 0 0 0)
      ≤ INT64_MAX :=
  (C26_sign_overflow VPI_COLOR_MODEL_UNDEFINED VPI_COLOR_SPEC_UNDEFINED VPI_CSS_NONE
    VPI_MEM_LAYOUT_PL VPI_DATA_TYPE_UNSIGNED VPI_SWIZZLE_X000 VPI_PACKING_X8 0 0 0
    1).2.2.2.2.2.2.1 (by decide)

/-! ## Arguments that do not reach the format -/

/-- C27. For every colour model other than YCbCr the format does not depend on the
Subsampling argument, and for the colour model UNDEFINED and every colour model of 10 or
more (such as `VPI_COLOR_MODEL_XYZ`) it depends neither on Subsampling nor on
ColorSpecOrRawPattern. -/
theorem C27_inapplicable_arguments (cm cs cs' css css' ml dt sw p0 p1 p2 p3 : Int) :
    (cm ≠ VPI_COLOR_MODEL_YCbCr →
      VPI_DETAIL_MAKE_FMT_HELPER cm cs css ml dt sw p0 p1 p2 p3
        = VPI_DETAIL_MAKE_FMT_HELPER cm cs css' ml dt sw p0 p1 p2 p3) ∧
    (cm = VPI_COLOR_MODEL_UNDEFINED ∨ 10 ≤ cm →
      VPI_DETAIL_MAKE_FMT_HELPER cm cs css ml dt sw p0 p1 p2 p3
        = VPI_DETAIL_MAKE_FMT_HELPER cm cs' css' ml dt sw p0 p1 p2 p3) ∧
    VPI_COLOR_MODEL_XYZ = 10 := by
  refine ⟨?_, ?_, by decide⟩
  · intro h
    have key : colorModelBits cm cs css = colorModelBits cm cs css' := by
      unfold colorModelBits
      rw [if_neg h, if_neg h]
    unfold VPI_DETAIL_MAKE_FMT_HELPER fmtPattern
    rw [key]
  · intro h
    have c0 : VPI_COLOR_MODEL_UNDEFINED = 0 := rfl
    have c1 : VPI_COLOR_MODEL_YCbCr = 1 := rfl
    have c9 : VPI_COLOR_MODEL_RAW = 9 := by decide
    have h1 : ¬ cm = VPI_COLOR_MODEL_YCbCr := by omega
    have key : colorModelBits cm cs css = colorModelBits cm cs' css' := by
      unfold colorModelBits
      rw [if_neg h1, if_neg h1]
      by_cases h0 : cm = VPI_COLOR_MODEL_UNDEFINED
      · rw [if_pos h0, if_pos h0]
      · have h2 : ¬ cm - 2 < 0x7 := by omega
        have h3 : ¬ cm = VPI_COLOR_MODEL_RAW := by omega
        rw [if_neg h0, if_neg h0, if_neg h2, if_neg h2, if_neg h3, if_neg h3]
    unfold VPI_DETAIL_MAKE_FMT_HELPER fmtPattern
    rw [key]

/-- C27 at the colour model RGB: `VPI_IMAGE_FORMAT_RGB8` comes out the same when the
subsampling argument is `VPI_CSS_420`; and at the colour model XYZ, when moreover the colour
spec is `VPI_COLOR_SPEC_BT601`. -/
theorem C27_inapplicable_arguments_witness :
    VPI_IMAGE_FORMAT_RGB8
      = VPI_DETAIL_MAKE_FMT_HELPER VPI_COLOR_MODEL_RGB VPI_COLOR_SPEC_UNDEFINED VPI_CSS_420
          VPI_MEM_LAYOUT_PL VPI_DATA_TYPE_UNSIGNED VPI_SWIZZLE_XYZ1 VPI_PACKING_X8_Y8_Z8 0 0 0 ∧
    VPI_DETAIL_MAKE_FMT_HELPER VPI_COLOR_MODEL_XYZ VPI_COLOR_SPEC_UNDEFINED VPI_CSS_NONE
        VPI_MEM_LAYOUT_PL VPI_DATA_TYPE_UNSIGNED VPI_SWIZZLE_XYZ1 VPI_PACKING_X8_Y8_Z8 0 0 0
      = VPI_DETAIL_MAKE_FMT_HELPER VPI_COLOR_MODEL_XYZ VPI_COLOR_SPEC_BT601 VPI_CSS_420
          VPI_MEM_LAYOUT_PL VPI_DATA_TYPE_UNSIGNED VPI_SWIZZLE_XYZ1 VPI_PACKING_X8_Y8_Z8 0 0 0 :=
  ⟨(C27_inapplicable_arguments VPI_COLOR_MODEL_RGB VPI_COLOR_SPEC_UNDEFINED
      VPI_COLOR_SPEC_UNDEFINED VPI_CSS_NONE VPI_CSS_420 VPI_MEM_LAYOUT_PL VPI_DATA_TYPE_UNSIGNED
      VPI_SWIZZLE_XYZ1 VPI_PACKING_X8_Y8_Z8 0 0 0).1 (by decide),
    (C27_inapplicable_arguments VPI_COLOR_MODEL_XYZ VPI_COLOR_SPEC_UNDEFINED
      VPI_COLOR_SPEC_BT601 VPI_CSS_NONE VPI_CSS_420 VPI_MEM_LAYOUT_PL VPI_DATA_TYPE_UNSIGNED
      VPI_SWIZZLE_XYZ1 VPI_PACKING_X8_Y8_Z8 0 0 0).2.1 (Or.inr (by decide))⟩

/-! ## Packings in the plane fields -/

theorem plane3_codes :
    ∀ p ∈ predefinedPackings,
      (packingBitsPerPixel p = some 8 → VPI_DETAIL_ENCODE_PACKING p 0 0 3 % 2 ^ 3 = 7) ∧
      (packingBitsPerPixel p = some 16 → VPI_DETAIL_ENCODE_PACKING p 0 0 3 % 2 ^ 3 = 1) ∧
      (packingBitsPerPixel p = some 24 → VPI_DETAIL_ENCODE_PACKING p 0 0 3 % 2 ^ 3 = 2) ∧
      (packingBitsPerPixel p = some 32 → VPI_DETAIL_ENCODE_PACKING p 0 0 3 % 2 ^ 3 = 3) ∧
      (packingBitsPerPixel p = some 48 → VPI_DETAIL_ENCODE_PACKING p 0 0 3 % 2 ^ 3 = 4) ∧
      (packingBitsPerPixel p = some 64 → VPI_DETAIL_ENCODE_PACKING p 0 0 3 % 2 ^ 3 = 5) ∧
      (p = VPI_PACKING_0 → VPI_DETAIL_ENCODE_PACKING p 0 0 3 % 2 ^ 3 = 0) ∧
      (packingBitsPerPixel p = some 128 → VPI_DETAIL_ENCODE_PACKING p 0 0 3 % 2 ^ 3 = 7) ∧
      (packingBitsPerPixel p = some 192 → VPI_DETAIL_ENCODE_PACKING p 0 0 3 % 2 ^ 3 = 0) ∧
      (p ∈ [VPI_PACKING_X1, VPI_PACKING_X2, VPI_PACKING_X4] →
        VPI_DETAIL_ENCODE_PACKING p 0 0 3 % 2 ^ 3 = 0) ∧
      (packingBitsPerPixel p = some 256 → VPI_DETAIL_ENCODE_PACKING p 0 0 3 % 2 ^ 3 = 1) := by
  decide

/-- C28. In the 3-bit plane 3 field 58..60 of a format, a predefined packing of 8 bits per
pixel (these are X8, X4Y4 and X3Y3Z2) is stored as 7, packings of 16, 24, 32, 48 and 64 bits
per pixel as 1, 2, 3, 4 and 5, and the absent plane as 0; a packing of 128 bits per pixel is
stored as 7 as well, one of 192 bits and the sub-byte packings X1, X2, X4 as 0, and one of
256 bits as 1. -/
theorem C28_fourth_plane_codes (cm cs css ml dt sw p0 p1 p2 p3 : Int)
    (h : p3 ∈ predefinedPackings) :
    (packingBitsPerPixel p3 = some 8 →
      VPI_DETAIL_GET_BITFIELD (VPI_DETAIL_MAKE_FMT_HELPER cm cs css ml dt sw p0 p1 p2 p3) 58 3
        = 7) ∧
    (packingBitsPerPixel p3 = some 16 →
      VPI_DETAIL_GET_BITFIELD (VPI_DETAIL_MAKE_FMT_HELPER cm cs css ml dt sw p0 p1 p2 p3) 58 3
        = 1) ∧
    (packingBitsPerPixel p3 = some 24 →
      VPI_DETAIL_GET_BITFIELD (VPI_DETAIL_MAKE_FMT_HELPER cm cs css ml dt sw p0 p1 p2 p3) 58 3
        = 2) ∧
    (packingBitsPerPixel p3 = some 32 →
      VPI_DETAIL_GET_BITFIELD (VPI_DETAIL_MAKE_FMT_HELPER cm cs css ml dt sw p0 p1 p2 p3) 58 3
        = 3) ∧
    (packingBitsPerPixel p3 = some 48 →
      VPI_DETAIL_GET_BITFIELD (VPI_DETAIL_MAKE_FMT_HELPER cm cs css ml dt sw p0 p1 p2 p3) 58 3
        = 4) ∧
    (packingBitsPerPixel p3 = some 64 →
      VPI_DETAIL_GET_BITFIELD (VPI_DETAIL_MAKE_FMT_HELPER cm cs css ml dt sw p0 p1 p2 p3) 58 3
        = 5) ∧
    (p3 = VPI_PACKING_0 →
      VPI_DETAIL_GET_BITFIELD (VPI_DETAIL_MAKE_FMT_HELPER cm cs css ml dt sw p0 p1 p2 p3) 58 3
        = 0) ∧
    (packingBitsPerPixel p3 = some 128 →
      VPI_DETAIL_GET_BITFIELD (VPI_DETAIL_MAKE_FMT_HELPER cm cs css ml dt sw p0 p1 p2 p3) 58 3
        = 7) ∧
    (packingBitsPerPixel p3 = some 192 →
      VPI_DETAIL_GET_BITFIELD (VPI_DETAIL_MAKE_FMT_HELPER cm cs css ml dt sw p0 p1 p2 p3) 58 3
        = 0) ∧
    (p3 ∈ [VPI_PACKING_X1, VPI_PACKING_X2, VPI_PACKING_X4] →
      VPI_DETAIL_GET_BITFIELD (VPI_DETAIL_MAKE_FMT_HELPER cm cs css ml dt sw p0 p1 p2 p3) 58 3
        = 0) ∧
    (packingBitsPerPixel p3 = some 256 →
      VPI_DETAIL_GET_BITFIELD (VPI_DETAIL_MAKE_FMT_HELPER cm cs css ml dt sw p0 p1 p2 p3) 58 3
        = 1) ∧
    predefinedPackings.filter (fun p => packingBitsPerPixel p = some 8)
      = [VPI_PACKING_X8, VPI_PACKING_X4Y4, VPI_PACKING_X3Y3Z2] := by
  rw [(make_fields cm cs css ml dt sw p0 p1 p2 p3).2.2.2.2.2.2.1]
  obtain ⟨a1, a2, a3, a4, a5, a6, a7, a8, a9, a10, a11⟩ := plane3_codes p3 h
  exact ⟨a1, a2, a3, a4, a5, a6, a7, a8, a9, a10, a11, by decide⟩

/-- C28 with `VPI_PACKING_X128` and with `VPI_PACKING_X8` as fourth plane of a format
without colour model: both fields are 7. -/
theorem C28_fourth_plane_codes_witness :
    VPI_DETAIL_GET_BITFIELD
        (VPI_DETAIL_MAKE_FMT_HELPER VPI_COLOR_MODEL_UNDEFINED VPI_COLOR_SPEC_UNDEFINED
          VPI_CSS_NONE VPI_MEM_LAYOUT_PL VPI_DATA_TYPE_UNSIGNED VPI_SWIZZLE_XYZW VPI_PACKING_X8
          VPI_PACKING_X8 VPI_PACKING_X8 VPI_PACKING_X128) 58 3 = 7 ∧
    VPI_DETAIL_GET_BITFIELD
        (VPI_DETAIL_MAKE_FMT_HELPER VPI_COLOR_MODEL_UNDEFINED VPI_COLOR_SPEC_UNDEFINED
          VPI_CSS_NONE VPI_MEM_LAYOUT_PL VPI_DATA_TYPE_UNSIGNED VPI_SWIZZLE_XYZW VPI_PACKING_X8
          VPI_PACKING_X8 VPI_PACKING_X8 VPI_PACKING_X8) 58 3 = 7 :=
  ⟨(C28_fourth_plane_codes VPI_COLOR_MODEL_UNDEFINED VPI_COLOR_SPEC_UNDEFINED VPI_CSS_NONE
      VPI_MEM_LAYOUT_PL VPI_DATA_TYPE_UNSIGNED VPI_SWIZZLE_XYZW VPI_PACKING_X8 VPI_PACKING_X8
      VPI_PACKING_X8 VPI_PACKING_X128 (by decide)).2.2.2.2.2.2.2.1 (by decide),
    (C28_fourth_plane_codes VPI_COLOR_MODEL_UNDEFINED VPI_COLOR_SPEC_UNDEFINED VPI_CSS_NONE
      VPI_MEM_LAYOUT_PL VPI_DATA_TYPE_UNSIGNED VPI_SWIZZLE_XYZW VPI_PACKING_X8 VPI_PACKING_X8
      VPI_PACKING_X8 VPI_PACKING_X8 (by decide)).1 (by decide)⟩

theorem plane0_field_parts (cm cs css ml dt sw p0 p1 p2 p3 : Int) :
    VPI_DETAIL_GET_BITFIELD (VPI_DETAIL_MAKE_FMT_HELPER cm cs css ml dt sw p0 p1 p2 p3) 35 3
      = VPI_DETAIL_GET_BITFIELD p0 0 4 % 2 ^ 3 ∧
    VPI_DETAIL_GET_BITFIELD (VPI_DETAIL_MAKE_FMT_HELPER cm cs css ml dt sw p0 p1 p2 p3) 38 2
      = VPI_DETAIL_GET_BITFIELD p0 4 2 ∧
    VPI_DETAIL_GET_BITFIELD (VPI_DETAIL_MAKE_FMT_HELPER cm cs css ml dt sw p0 p1 p2 p3) 40 4
      = VPI_DETAIL_GET_BITFIELD p0 6 4 := by
  have f0 := (make_fields cm cs css ml dt sw p0 p1 p2 p3).2.2.2.1
  have hs := Nat.mod_lt (toU64 p0) (show 0 < 2 ^ 3 by norm_num)
  have hc := Nat.mod_lt (toU64 p0 / 2 ^ 4) (show 0 < 2 ^ 2 by norm_num)
  have hb := Nat.mod_lt (toU64 p0 / 2 ^ 6) (show 0 < 2 ^ 4 by norm_num)
  have hm : toU64 p0 / 2 ^ 0 % 2 ^ 4 % 2 ^ 3 = toU64 p0 % 2 ^ 3 := by omega
  rw [get_bitfield_sub _ 35 9 35 3 (by norm_num) (by norm_num),
    get_bitfield_sub _ 35 9 38 2 (by norm_num) (by norm_num),
    get_bitfield_sub _ 35 9 40 4 (by norm_num) (by norm_num), f0, encode_packing_plane0,
    get_bitfield_eq, get_bitfield_eq, get_bitfield_eq, hm]
  generalize toU64 p0 % 2 ^ 3 = s at *
  generalize toU64 p0 / 2 ^ 4 % 2 ^ 2 = c at *
  generalize toU64 p0 / 2 ^ 6 % 2 ^ 4 = b at *
  simp only [Nat.reduceSub]
  refine ⟨?_, ?_, ?_⟩ <;> omega

theorem packing_parts :
    ∀ P ∈ predefinedPackings,
      VPI_DETAIL_GET_BITFIELD P 0 4 ≤ 6 ∧ VPI_DETAIL_GET_BITFIELD P 6 4 ≤ 9 ∧
      (((VPI_DETAIL_GET_BITFIELD P 6 4 <<< 6) ||| (VPI_DETAIL_GET_BITFIELD P 4 2 <<< 4) |||
        VPI_DETAIL_GET_BITFIELD P 0 4 % 2 ^ 3 : Nat) : Int) = P := by
  decide

/-- C29. For every predefined packing `P` other than `VPI_PACKING_INVALID`, the sub-code
in bits 0..3 of `P` is at most 6 and the bpp code in bits 6..9 is at most 9, and `P` is
`(b << 6) | (c << 4) | s` with `s`, `c`, `b` read from bits 35..37, 38..39 and 40..43 of any
format whose Packing0 is `P`; an enumerator defined by implicit increment has the channel
count bits and the bpp code of the enumerator it counts from. -/
theorem C29_plane0_preserves_packing (cm cs css ml dt sw p0 p1 p2 p3 : Int)
    (h : p0 ∈ predefinedPackings) :
    VPI_DETAIL_GET_BITFIELD p0 0 4 ≤ 6 ∧ VPI_DETAIL_GET_BITFIELD p0 6 4 ≤ 9 ∧
    (plane0Packing (VPI_DETAIL_MAKE_FMT_HELPER cm cs css ml dt sw p0 p1 p2 p3) : Int) = p0 ∧
    ∀ e ∈ implicitPackings,
      e.1 ∈ predefinedPackings ∧ e.2 < e.1 ∧
      VPI_DETAIL_GET_BITFIELD e.1 4 2 = VPI_DETAIL_GET_BITFIELD e.2 4 2 ∧
      VPI_DETAIL_GET_BITFIELD e.1 6 4 = VPI_DETAIL_GET_BITFIELD e.2 6 4 := by
  obtain ⟨b1, b2, b3⟩ := packing_parts p0 h
  obtain ⟨f1, f2, f3⟩ := plane0_field_parts cm cs css ml dt sw p0 p1 p2 p3
  refine ⟨b1, b2, ?_, by decide⟩
  unfold plane0Packing
  rw [f1, f2, f3]
  exact b3

/-- C29 at `VPI_PACKING_X10Y10Z10W2`, defined by implicit increment, as the packing of
`VPI_IMAGE_FORMAT_RGBA8`-like arguments: the plane 0 field gives the packing back. -/
theorem C29_plane0_preserves_packing_witness :
    (plane0Packing
      (VPI_DETAIL_MAKE_COLOR_FMT_1 VPI_COLOR_MODEL_RGB VPI_COLOR_SPEC_UNDEFINED VPI_MEM_LAYOUT_PL
        VPI_DATA_TYPE_UNSIGNED VPI_SWIZZLE_XYZW VPI_PACKING_X10Y10Z10W2) : Int)
      = VPI_PACKING_X10Y10Z10W2 :=
  (C29_plane0_preserves_packing VPI_COLOR_MODEL_RGB VPI_COLOR_SPEC_UNDEFINED VPI_CSS_NONE
    VPI_MEM_LAYOUT_PL VPI_DATA_TYPE_UNSIGNED VPI_SWIZZLE_XYZW VPI_PACKING_X10Y10Z10W2 0 0 0
    (by decide)).2.2.1

/-! ## Pixel types -/

theorem pixel_type_selectors (c : Nat) (hc : c < 4) :
    VPI_CHANNEL_X = pixelTypeSelector (c + 1) 0 ∧
    (if c + 1 ≥ 2 then VPI_CHANNEL_Y else 0) = pixelTypeSelector (c + 1) 1 ∧
    (if c + 1 ≥ 3 then VPI_CHANNEL_Z else 0) = pixelTypeSelector (c + 1) 2 ∧
    (if c + 1 ≥ 4 then VPI_CHANNEL_W else 0) = pixelTypeSelector (c + 1) 3 := by
  interval_cases c <;> decide

theorem pixel_type_selector_range (k i : Nat) :
    0 ≤ pixelTypeSelector k i ∧ pixelTypeSelector k i ≤ 7 := by
  unfold pixelTypeSelector
  split_ifs with h
  · rcases Nat.lt_or_ge i 4 with h4 | h4
    · interval_cases i <;> decide
    · rw [List.getD_eq_default _ _ (by simpa using h4)]
      decide
  · decide

theorem swizzle_slots_of_format (cm cs css ml dt x y z w p0 p1 p2 p3 : Int)
    (hx : 0 ≤ x ∧ x ≤ 7) (hy : 0 ≤ y ∧ y ≤ 7) (hz : 0 ≤ z ∧ z ≤ 7) (hw : 0 ≤ w ∧ w ≤ 7) :
    (VPI_DETAIL_GET_BITFIELD (VPI_DETAIL_MAKE_FMT_HELPER cm cs css ml dt
      (VPI_DETAIL_MAKE_SWIZZLE x y z w) p0 p1 p2 p3) 0 3 : Int) = x ∧
    (VPI_DETAIL_GET_BITFIELD (VPI_DETAIL_MAKE_FMT_HELPER cm cs css ml dt
      (VPI_DETAIL_MAKE_SWIZZLE x y z w) p0 p1 p2 p3) 3 3 : Int) = y ∧
    (VPI_DETAIL_GET_BITFIELD (VPI_DETAIL_MAKE_FMT_HELPER cm cs css ml dt
      (VPI_DETAIL_MAKE_SWIZZLE x y z w) p0 p1 p2 p3) 6 3 : Int) = z ∧
    (VPI_DETAIL_GET_BITFIELD (VPI_DETAIL_MAKE_FMT_HELPER cm cs css ml dt
      (VPI_DETAIL_MAKE_SWIZZLE x y z w) p0 p1 p2 p3) 9 3 : Int) = w := by
  obtain ⟨g0, g1, g2, g3⟩ := make_swizzle_fields x y z w hx hy hz hw
  have f := (make_fields cm cs css ml dt (VPI_DETAIL_MAKE_SWIZZLE x y z w) p0 p1 p2 p3).1
  have hl := make_swizzle_lt x y z w
  rw [toU64_natCast] at f
  rw [get_bitfield_eq, toU64_natCast] at g0 g1 g2 g3
  rw [get_bitfield_sub _ 0 12 0 3 (by norm_num) (by norm_num),
    get_bitfield_sub _ 0 12 3 3 (by norm_num) (by norm_num),
    get_bitfield_sub _ 0 12 6 3 (by norm_num) (by norm_num),
    get_bitfield_sub _ 0 12 9 3 (by norm_num) (by norm_num), f]
  generalize VPI_DETAIL_MAKE_SWIZZLE x y z w = S at *
  simp only [Nat.reduceSub] at *
  have e0 : S % 2 ^ 64 % 2 ^ 12 / 2 ^ 0 % 2 ^ 3 = S % 2 ^ 64 / 2 ^ 0 % 2 ^ 3 := by omega
  have e1 : S % 2 ^ 64 % 2 ^ 12 / 2 ^ 3 % 2 ^ 3 = S % 2 ^ 64 / 2 ^ 3 % 2 ^ 3 := by omega
  have e2 : S % 2 ^ 64 % 2 ^ 12 / 2 ^ 6 % 2 ^ 3 = S % 2 ^ 64 / 2 ^ 6 % 2 ^ 3 := by omega
  have e3 : S % 2 ^ 64 % 2 ^ 12 / 2 ^ 9 % 2 ^ 3 = S % 2 ^ 64 / 2 ^ 9 % 2 ^ 3 := by omega
  rw [e0, e1, e2, e3]
  exact ⟨g0, g1, g2, g3⟩

theorem pixel_type_eq (MemLayout DataType Packing : Int) :
    VPI_DETAIL_MAKE_PIXEL_TYPE MemLayout DataType Packing
      = VPI_DETAIL_MAKE_NONCOLOR_FMT_1 MemLayout DataType
          (VPI_DETAIL_MAKE_SWIZZLE
            (pixelTypeSelector (VPI_DETAIL_EXTRACT_PACKING_CHANNELS Packing) 0)
            (pixelTypeSelector (VPI_DETAIL_EXTRACT_PACKING_CHANNELS Packing) 1)
            (pixelTypeSelector (VPI_DETAIL_EXTRACT_PACKING_CHANNELS Packing) 2)
            (pixelTypeSelector (VPI_DETAIL_EXTRACT_PACKING_CHANNELS Packing) 3))
          Packing := by
  have hc : VPI_DETAIL_GET_BITFIELD Packing 4 2 < 4 := by
    rw [get_bitfield_eq]
    omega
  obtain ⟨s0, s1, s2, s3⟩ := pixel_type_selectors _ hc
  unfold VPI_DETAIL_MAKE_PIXEL_TYPE VPI_DETAIL_MAKE_NONCOLOR_FMT_1
    VPI_DETAIL_MAKE_COLOR_FMT_HELPER_1 VPI_DETAIL_MAKE_COLOR_FMT_HELPER_2
    VPI_DETAIL_MAKE_COLOR_FMT_HELPER_3 VPI_DETAIL_MAKE_COLOR_FMT_HELPER_4
    VPI_DETAIL_EXTRACT_PACKING_CHANNELS
  rw [← s0, ← s1, ← s2, ← s3]

/-- C30. The pixel types U8, S8, U16, S16, F32, F64 and 2F32 are the same 64-bit values as
the image formats of the same name. For every memory layout, data type and packing `P`
with `k = VPI_DETAIL_EXTRACT_PACKING_CHANNELS(P)` channels, which is in 1..4,
`VPI_DETAIL_MAKE_PIXEL_TYPE` is the one-plane format without colour model whose swizzle
has X, Y, Z, W in order in its first `k` slots and 0 in the others, and these selectors
are read back from bits 0..11 of the pixel type. -/
theorem C30_pixel_types (MemLayout DataType Packing : Int) :
    (VPI_PIXEL_TYPE_U8 = VPI_IMAGE_FORMAT_U8 ∧ VPI_PIXEL_TYPE_S8 = VPI_IMAGE_FORMAT_S8 ∧
      VPI_PIXEL_TYPE_U16 = VPI_IMAGE_FORMAT_U16 ∧ VPI_PIXEL_TYPE_S16 = VPI_IMAGE_FORMAT_S16 ∧
      VPI_PIXEL_TYPE_F32 = VPI_IMAGE_FORMAT_F32 ∧ VPI_PIXEL_TYPE_F64 = VPI_IMAGE_FORMAT_F64 ∧
      VPI_PIXEL_TYPE_2F32 = VPI_IMAGE_FORMAT_2F32) ∧
    (1 ≤ VPI_DETAIL_EXTRACT_PACKING_CHANNELS Packing ∧
      VPI_DETAIL_EXTRACT_PACKING_CHANNELS Packing ≤ 4) ∧
    VPI_DETAIL_MAKE_PIXEL_TYPE MemLayout DataType Packing
      = VPI_DETAIL_MAKE_NONCOLOR_FMT_1 MemLayout DataType
          (VPI_DETAIL_MAKE_SWIZZLE
            (pixelTypeSelector (VPI_DETAIL_EXTRACT_PACKING_CHANNELS Packing) 0)
            (pixelTypeSelector (VPI_DETAIL_EXTRACT_PACKING_CHANNELS Packing) 1)
            (pixelTypeSelector (VPI_DETAIL_EXTRACT_PACKING_CHANNELS Packing) 2)
            (pixelTypeSelector (VPI_DETAIL_EXTRACT_PACKING_CHANNELS Packing) 3))
          Packing ∧
    (VPI_DETAIL_GET_BITFIELD (VPI_DETAIL_MAKE_PIXEL_TYPE MemLayout DataType Packing) 0 3 : Int)
      = pixelTypeSelector (VPI_DETAIL_EXTRACT_PACKING_CHANNELS Packing) 0 ∧
    (VPI_DETAIL_GET_BITFIELD (VPI_DETAIL_MAKE_PIXEL_TYPE MemLayout DataType Packing) 3 3 : Int)
      = pixelTypeSelector (VPI_DETAIL_EXTRACT_PACKING_CHANNELS Packing) 1 ∧
    (VPI_DETAIL_GET_BITFIELD (VPI_DETAIL_MAKE_PIXEL_TYPE MemLayout DataType Packing) 6 3 : Int)
      = pixelTypeSelector (VPI_DETAIL_EXTRACT_PACKING_CHANNELS Packing) 2 ∧
    (VPI_DETAIL_GET_BITFIELD (VPI_DETAIL_MAKE_PIXEL_TYPE MemLayout DataType Packing) 9 3 : Int)
      = pixelTypeSelector (VPI_DETAIL_EXTRACT_PACKING_CHANNELS Packing) 3 := by
  have hk : 1 ≤ VPI_DETAIL_EXTRACT_PACKING_CHANNELS Packing ∧
      VPI_DETAIL_EXTRACT_PACKING_CHANNELS Packing ≤ 4 := by
    unfold VPI_DETAIL_EXTRACT_PACKING_CHANNELS
    rw [get_bitfield_eq]
    omega
  have he := pixel_type_eq MemLayout DataType Packing
  refine ⟨by decide, hk, he, ?_⟩
  rw [he]
  exact swizzle_slots_of_format VPI_COLOR_MODEL_UNDEFINED VPI_COLOR_SPEC_UNDEFINED VPI_CSS_NONE
    MemLayout DataType _ _ _ _ Packing 0 0 0 (pixel_type_selector_range _ 0)
    (pixel_type_selector_range _ 1) (pixel_type_selector_range _ 2)
    (pixel_type_selector_range _ 3)

end VPI
